import Mathlib

/-!
# A shallow embedding of the xarch hardware-intrinsic import layer

This development embeds, in Lean, the data model and the operations of
`src/coreclr/jit/hwintrinsicxarch.cpp`: the instruction-set catalog
(`lookupInstructionSet`, `lookupIsa`, `X64VersionOfIsa`, `VLVersionOfIsa`),
the per-intrinsic metadata tables (`lookupImmUpperBound`,
`isAVX2GatherIntrinsic`, `lookupFloatComparisonModeForSwappedArgs`,
`isFullyImplementedIsa`, `isScalarIsa`), the non-constant-immediate shift
fallback (`impNonConstFallback`), and the whole intrinsic expansion
dispatch (`impSpecialIntrinsic`), modelled as a function from an explicit
operand stack to an outcome and a residual stack.

Modelling conventions:
  * The expression stack is a `List GenTree`, head = top of stack.
  * IR node constructors (`gtNewSimd...Node` and friends) are external
    collaborators; they are embedded as uninterpreted tree constructors
    (`GenTree.node` tagged with a `NodeKind`) that record the operands in
    the order the source passes them.
  * The capability oracle (`compExactlyDependsOn`,
    `compOpportunisticallyDependsOn`, ...) and the signature queries are
    parameters (`CompCaps`, `HWSig`).
  * Machine-integer truncations (`static_cast<uintN_t>`) are modelled with
    `Int.emod` by `2^N`.  Floating-point constant payloads are carried as
    abstract numerals (`Int`); the source performs no arithmetic on them,
    only value-preserving casts, which are modelled by explicit
    stand-in functions.
  * Debug assertions over data the model tracks (arity, closed-enum
    reachability) are embedded as a `fatal` outcome; debug-only capability
    assertions are noted in comments.
  * Fallible steps (operand-stack underflow, recursion fuel) make the
    engine return `none`; a `some` result is either a built tree, a
    decline (`nullptr`), or a fatal assertion.
-/

set_option maxHeartbeats 1000000
set_option linter.unusedVariables false

namespace HWX

/-- The JIT's `var_types` values used by this translation unit. -/
inductive VarType where
  | TYP_BYTE
  | TYP_UBYTE
  | TYP_SHORT
  | TYP_USHORT
  | TYP_INT
  | TYP_UINT
  | TYP_LONG
  | TYP_ULONG
  | TYP_FLOAT
  | TYP_DOUBLE
  | TYP_SIMD8
  | TYP_SIMD12
  | TYP_SIMD16
  | TYP_SIMD32
  | TYP_SIMD64
  | TYP_BYREF
  | TYP_VOID
  | TYP_STRUCT
  | TYP_UNKNOWN
deriving DecidableEq

/-- The `CorInfoType` values that can appear as a SIMD base JIT type. -/
inductive CorInfoType where
  | CORINFO_TYPE_BYTE
  | CORINFO_TYPE_UBYTE
  | CORINFO_TYPE_SHORT
  | CORINFO_TYPE_USHORT
  | CORINFO_TYPE_INT
  | CORINFO_TYPE_UINT
  | CORINFO_TYPE_LONG
  | CORINFO_TYPE_ULONG
  | CORINFO_TYPE_FLOAT
  | CORINFO_TYPE_DOUBLE
  | CORINFO_TYPE_UNDEF
deriving DecidableEq

/-- `JitType2PreciseVarType`: the arithmetic `CorInfoType`s map to their
`var_types`; anything else maps to the unknown type. -/
def jitType2PreciseVarType : CorInfoType → VarType
  | .CORINFO_TYPE_BYTE => .TYP_BYTE
  | .CORINFO_TYPE_UBYTE => .TYP_UBYTE
  | .CORINFO_TYPE_SHORT => .TYP_SHORT
  | .CORINFO_TYPE_USHORT => .TYP_USHORT
  | .CORINFO_TYPE_INT => .TYP_INT
  | .CORINFO_TYPE_UINT => .TYP_UINT
  | .CORINFO_TYPE_LONG => .TYP_LONG
  | .CORINFO_TYPE_ULONG => .TYP_ULONG
  | .CORINFO_TYPE_FLOAT => .TYP_FLOAT
  | .CORINFO_TYPE_DOUBLE => .TYP_DOUBLE
  | .CORINFO_TYPE_UNDEF => .TYP_UNKNOWN

/-- `genTypeSize` restricted to the types this file touches. -/
def genTypeSize : VarType → Nat
  | .TYP_BYTE => 1
  | .TYP_UBYTE => 1
  | .TYP_SHORT => 2
  | .TYP_USHORT => 2
  | .TYP_INT => 4
  | .TYP_UINT => 4
  | .TYP_LONG => 8
  | .TYP_ULONG => 8
  | .TYP_FLOAT => 4
  | .TYP_DOUBLE => 8
  | .TYP_SIMD8 => 8
  | .TYP_SIMD12 => 12
  | .TYP_SIMD16 => 16
  | .TYP_SIMD32 => 32
  | .TYP_SIMD64 => 64
  | _ => 0

def varTypeIsFloating : VarType → Bool
  | .TYP_FLOAT | .TYP_DOUBLE => true
  | _ => false

def varTypeIsUnsigned : VarType → Bool
  | .TYP_UBYTE | .TYP_USHORT | .TYP_UINT | .TYP_ULONG => true
  | _ => false

def varTypeIsSmallInt : VarType → Bool
  | .TYP_BYTE | .TYP_UBYTE | .TYP_SHORT | .TYP_USHORT => true
  | _ => false

def varTypeIsByte : VarType → Bool
  | .TYP_BYTE | .TYP_UBYTE => true
  | _ => false

def varTypeIsLong : VarType → Bool
  | .TYP_LONG | .TYP_ULONG => true
  | _ => false

def varTypeIsIntegral : VarType → Bool
  | .TYP_BYTE | .TYP_UBYTE | .TYP_SHORT | .TYP_USHORT
  | .TYP_INT | .TYP_UINT | .TYP_LONG | .TYP_ULONG => true
  | _ => false

def varTypeIsArithmetic (t : VarType) : Bool :=
  varTypeIsIntegral t || varTypeIsFloating t

/-- `getSIMDTypeForSize`: the SIMD `var_types` for a byte width. -/
def getSIMDTypeForSize : Nat → VarType
  | 8 => .TYP_SIMD8
  | 12 => .TYP_SIMD12
  | 16 => .TYP_SIMD16
  | 32 => .TYP_SIMD32
  | 64 => .TYP_SIMD64
  | _ => .TYP_UNKNOWN

/-- Modelled from the spec: `getSIMDVectorLength` (declared outside this
translation unit) — "lane count = width / element-size" (spec section 3). -/
def getSIMDVectorLength (simdSize : Nat) (baseType : VarType) : Nat :=
  simdSize / genTypeSize baseType

/-- `CORINFO_InstructionSet`: the capability identifiers named by this
translation unit, plus the NONE and ILLEGAL sentinels. -/
inductive InstructionSet where
  | InstructionSet_X86Base
  | InstructionSet_X86Base_X64
  | InstructionSet_SSE
  | InstructionSet_SSE_X64
  | InstructionSet_SSE2
  | InstructionSet_SSE2_X64
  | InstructionSet_SSE3
  | InstructionSet_SSE3_X64
  | InstructionSet_SSSE3
  | InstructionSet_SSSE3_X64
  | InstructionSet_SSE41
  | InstructionSet_SSE41_X64
  | InstructionSet_SSE42
  | InstructionSet_SSE42_X64
  | InstructionSet_AVX
  | InstructionSet_AVX_X64
  | InstructionSet_AVX2
  | InstructionSet_AVX2_X64
  | InstructionSet_AVX512BW
  | InstructionSet_AVX512BW_VL
  | InstructionSet_AVX512BW_VL_X64
  | InstructionSet_AVX512BW_X64
  | InstructionSet_AVX512CD
  | InstructionSet_AVX512CD_VL
  | InstructionSet_AVX512CD_VL_X64
  | InstructionSet_AVX512CD_X64
  | InstructionSet_AVX512DQ
  | InstructionSet_AVX512DQ_VL
  | InstructionSet_AVX512DQ_VL_X64
  | InstructionSet_AVX512DQ_X64
  | InstructionSet_AVX512F
  | InstructionSet_AVX512F_VL
  | InstructionSet_AVX512F_VL_X64
  | InstructionSet_AVX512F_X64
  | InstructionSet_AVXVNNI
  | InstructionSet_AVXVNNI_X64
  | InstructionSet_AES
  | InstructionSet_AES_X64
  | InstructionSet_BMI1
  | InstructionSet_BMI1_X64
  | InstructionSet_BMI2
  | InstructionSet_BMI2_X64
  | InstructionSet_FMA
  | InstructionSet_FMA_X64
  | InstructionSet_LZCNT
  | InstructionSet_LZCNT_X64
  | InstructionSet_PCLMULQDQ
  | InstructionSet_PCLMULQDQ_X64
  | InstructionSet_POPCNT
  | InstructionSet_POPCNT_X64
  | InstructionSet_X86Serialize
  | InstructionSet_X86Serialize_X64
  | InstructionSet_Vector128
  | InstructionSet_Vector256
  | InstructionSet_Vector512
  | InstructionSet_NONE
  | InstructionSet_ILLEGAL
deriving DecidableEq

open InstructionSet

/-- `X64VersionOfIsa`: the 64-bit-only counterpart of an instruction set,
or NONE when there is none. -/
def X64VersionOfIsa : InstructionSet → InstructionSet
  | InstructionSet_X86Base => InstructionSet_X86Base_X64
  | InstructionSet_SSE => InstructionSet_SSE_X64
  | InstructionSet_SSE2 => InstructionSet_SSE2_X64
  | InstructionSet_SSE3 => InstructionSet_SSE3_X64
  | InstructionSet_SSSE3 => InstructionSet_SSSE3_X64
  | InstructionSet_SSE41 => InstructionSet_SSE41_X64
  | InstructionSet_SSE42 => InstructionSet_SSE42_X64
  | InstructionSet_AVX => InstructionSet_AVX_X64
  | InstructionSet_AVX2 => InstructionSet_AVX2_X64
  | InstructionSet_AVX512BW => InstructionSet_AVX512BW_X64
  | InstructionSet_AVX512BW_VL => InstructionSet_AVX512BW_VL_X64
  | InstructionSet_AVX512CD => InstructionSet_AVX512CD_X64
  | InstructionSet_AVX512CD_VL => InstructionSet_AVX512CD_VL_X64
  | InstructionSet_AVX512DQ => InstructionSet_AVX512DQ_X64
  | InstructionSet_AVX512DQ_VL => InstructionSet_AVX512DQ_VL_X64
  | InstructionSet_AVX512F => InstructionSet_AVX512F_X64
  | InstructionSet_AVX512F_VL => InstructionSet_AVX512F_VL_X64
  | InstructionSet_AVXVNNI => InstructionSet_AVXVNNI_X64
  | InstructionSet_AES => InstructionSet_AES_X64
  | InstructionSet_BMI1 => InstructionSet_BMI1_X64
  | InstructionSet_BMI2 => InstructionSet_BMI2_X64
  | InstructionSet_FMA => InstructionSet_FMA_X64
  | InstructionSet_LZCNT => InstructionSet_LZCNT_X64
  | InstructionSet_PCLMULQDQ => InstructionSet_PCLMULQDQ_X64
  | InstructionSet_POPCNT => InstructionSet_POPCNT_X64
  | InstructionSet_X86Serialize => InstructionSet_X86Serialize_X64
  | _ => InstructionSet_NONE

/-- `VLVersionOfIsa`: the AVX512VL counterpart, defined for the four
AVX-512 sub-families only. -/
def VLVersionOfIsa : InstructionSet → InstructionSet
  | InstructionSet_AVX512BW => InstructionSet_AVX512BW_VL
  | InstructionSet_AVX512CD => InstructionSet_AVX512CD_VL
  | InstructionSet_AVX512DQ => InstructionSet_AVX512DQ_VL
  | InstructionSet_AVX512F => InstructionSet_AVX512F_VL
  | _ => InstructionSet_NONE

/-- `strncmp(className, pat, pat.length) == 0`, i.e. `pat` is a leading
segment of the name. -/
def listStartsWith : List Char → List Char → Bool
  | [], _ => true
  | _ :: _, [] => false
  | p :: ps, c :: cs => p = c && listStartsWith ps cs

def strVector128data : List Char := ['V', 'e', 'c', 't', 'o', 'r', '1', '2', '8']
def strVector256data : List Char := ['V', 'e', 'c', 't', 'o', 'r', '2', '5', '6']
def strVector512data : List Char := ['V', 'e', 'c', 't', 'o', 'r', '5', '1', '2']
def nameVL : String := "VL"
def nameX64 : String := "X64"

/-- `lookupInstructionSet(className)`.  The source dispatches on
`className[0]` and, within the selected block, compares the full name
(`strcmp`, translated as equality of the character list) or its leading
segment (`strncmp` for the three `Vector###` families); a name failing
every test resolves to `InstructionSet_ILLEGAL`.  The first-character
dispatch only indexes into this chain of pairwise-disjoint tests, so the
translation performs the tests directly, in source order.  The result
pairs the instruction set with a flag recording whether the
`assert(!"VL.X64 support ... not yet implemented")` on the direct
`"VL"` lookup fired (a debug-build fatal flag; a release build just
returns the ILLEGAL sentinel there). -/
def lookupInstructionSet (s : String) : InstructionSet × Bool :=
  if s.data = ['A', 'e', 's'] then (InstructionSet_AES, false)
  else if s.data = ['A', 'v', 'x'] then (InstructionSet_AVX, false)
  else if s.data = ['A', 'v', 'x', '2'] then (InstructionSet_AVX2, false)
  else if s.data = ['A', 'v', 'x', '5', '1', '2', 'B', 'W'] then (InstructionSet_AVX512BW, false)
  else if s.data = ['A', 'v', 'x', '5', '1', '2', 'C', 'D'] then (InstructionSet_AVX512CD, false)
  else if s.data = ['A', 'v', 'x', '5', '1', '2', 'D', 'Q'] then (InstructionSet_AVX512DQ, false)
  else if s.data = ['A', 'v', 'x', '5', '1', '2', 'F'] then (InstructionSet_AVX512F, false)
  else if s.data = ['A', 'v', 'x', 'V', 'n', 'n', 'i'] then (InstructionSet_AVXVNNI, false)
  else if s.data = ['S', 's', 'e'] then (InstructionSet_SSE, false)
  else if s.data = ['S', 's', 'e', '2'] then (InstructionSet_SSE2, false)
  else if s.data = ['S', 's', 'e', '3'] then (InstructionSet_SSE3, false)
  else if s.data = ['S', 's', 's', 'e', '3'] then (InstructionSet_SSSE3, false)
  else if s.data = ['S', 's', 'e', '4', '1'] then (InstructionSet_SSE41, false)
  else if s.data = ['S', 's', 'e', '4', '2'] then (InstructionSet_SSE42, false)
  else if s.data = ['B', 'm', 'i', '1'] then (InstructionSet_BMI1, false)
  else if s.data = ['B', 'm', 'i', '2'] then (InstructionSet_BMI2, false)
  else if s.data = ['P', 'c', 'l', 'm', 'u', 'l', 'q', 'd', 'q'] then
    (InstructionSet_PCLMULQDQ, false)
  else if s.data = ['P', 'o', 'p', 'c', 'n', 't'] then (InstructionSet_POPCNT, false)
  else if listStartsWith strVector128data s.data then (InstructionSet_Vector128, false)
  else if listStartsWith strVector256data s.data then (InstructionSet_Vector256, false)
  else if listStartsWith strVector512data s.data then (InstructionSet_Vector512, false)
  else if s.data = ['V', 'L'] then (InstructionSet_ILLEGAL, true)
  else if s.data = ['F', 'm', 'a'] then (InstructionSet_FMA, false)
  else if s.data = ['L', 'z', 'c', 'n', 't'] then (InstructionSet_LZCNT, false)
  else if s.data = ['X', '8', '6', 'B', 'a', 's', 'e'] then (InstructionSet_X86Base, false)
  else if s.data = ['X', '8', '6', 'S', 'e', 'r', 'i', 'a', 'l', 'i', 'z', 'e'] then
    (InstructionSet_X86Serialize, false)
  else (InstructionSet_ILLEGAL, false)

/-- `HWIntrinsicInfo::lookupIsa(className, enclosingClassName)`.  The
enclosing class name is optional (`nullptr` modelled as `none`); the
debug asserts that it is non-null on the `"X64"` / `"VL"` paths are
modelled by returning the ILLEGAL sentinel with the flag set. -/
def lookupIsa (className : String) (enclosingClassName : Option String) :
    InstructionSet × Bool :=
  if className = nameX64 then
    match enclosingClassName with
    | some e => (X64VersionOfIsa (lookupInstructionSet e).1, (lookupInstructionSet e).2)
    | none => (InstructionSet_ILLEGAL, true)
  else if className = nameVL then
    match enclosingClassName with
    | some e => (VLVersionOfIsa (lookupInstructionSet e).1, (lookupInstructionSet e).2)
    | none => (InstructionSet_ILLEGAL, true)
  else
    lookupInstructionSet className

/-- The union of the name tests performed by `lookupInstructionSet`
(the exact matches, the three `Vector###`-leading-segment tests, and the
`"VL"` special case), stated on the name's character list.  A name
outside this set is "unrecognized". -/
def recognizedIsaName (s : String) : Bool :=
  s.data = ['A', 'e', 's'] ||
  (s.data = ['A', 'v', 'x'] ||
  (s.data = ['A', 'v', 'x', '2'] ||
  (s.data = ['A', 'v', 'x', '5', '1', '2', 'B', 'W'] ||
  (s.data = ['A', 'v', 'x', '5', '1', '2', 'C', 'D'] ||
  (s.data = ['A', 'v', 'x', '5', '1', '2', 'D', 'Q'] ||
  (s.data = ['A', 'v', 'x', '5', '1', '2', 'F'] ||
  (s.data = ['A', 'v', 'x', 'V', 'n', 'n', 'i'] ||
  (s.data = ['S', 's', 'e'] ||
  (s.data = ['S', 's', 'e', '2'] ||
  (s.data = ['S', 's', 'e', '3'] ||
  (s.data = ['S', 's', 's', 'e', '3'] ||
  (s.data = ['S', 's', 'e', '4', '1'] ||
  (s.data = ['S', 's', 'e', '4', '2'] ||
  (s.data = ['B', 'm', 'i', '1'] ||
  (s.data = ['B', 'm', 'i', '2'] ||
  (s.data = ['P', 'c', 'l', 'm', 'u', 'l', 'q', 'd', 'q'] ||
  (s.data = ['P', 'o', 'p', 'c', 'n', 't'] ||
  (listStartsWith strVector128data s.data ||
  (listStartsWith strVector256data s.data ||
  (listStartsWith strVector512data s.data ||
  (s.data = ['V', 'L'] ||
  (s.data = ['F', 'm', 'a'] ||
  (s.data = ['L', 'z', 'c', 'n', 't'] ||
  (s.data = ['X', '8', '6', 'B', 'a', 's', 'e'] ||
  (s.data = ['X', '8', '6', 'S', 'e', 'r', 'i', 'a', 'l', 'i', 'z', 'e'])))))))))))))))))))))))))

/-- `NamedIntrinsic`: every intrinsic identifier named by this translation
unit (case labels of the dispatch and intrinsic ids used to build nodes),
plus the `NI_Illegal` sentinel. -/
inductive NamedIntrinsic where
  | NI_AVX2_GatherMaskVector128
  | NI_AVX2_GatherMaskVector256
  | NI_AVX2_GatherVector128
  | NI_AVX2_GatherVector256
  | NI_AVX2_MoveMask
  | NI_AVX2_Permute4x64
  | NI_AVX2_PermuteVar8x32
  | NI_AVX2_ShiftLeftLogical
  | NI_AVX2_ShiftRightArithmetic
  | NI_AVX2_ShiftRightLogical
  | NI_AVX2_Shuffle
  | NI_AVX512BW_LoadVector512
  | NI_AVX512BW_ShiftLeftLogical
  | NI_AVX512BW_ShiftRightArithmetic
  | NI_AVX512BW_ShiftRightLogical
  | NI_AVX512BW_Store
  | NI_AVX512F_LoadVector512
  | NI_AVX512F_MoveMaskSpecial
  | NI_AVX512F_ShiftLeftLogical
  | NI_AVX512F_ShiftRightArithmetic
  | NI_AVX512F_ShiftRightLogical
  | NI_AVX512F_Store
  | NI_AVX512F_VL_ShiftRightArithmetic
  | NI_AVX_Compare
  | NI_AVX_CompareScalar
  | NI_AVX_ConvertToVector256Int32WithTruncation
  | NI_AVX_ConvertToVector256Single
  | NI_AVX_LoadVector256
  | NI_AVX_MoveMask
  | NI_AVX_Store
  | NI_BMI1_BitFieldExtract
  | NI_BMI1_X64_BitFieldExtract
  | NI_BMI2_X64_ZeroHighBits
  | NI_BMI2_ZeroHighBits
  | NI_Illegal
  | NI_SSE2_CompareScalarGreaterThan
  | NI_SSE2_CompareScalarGreaterThanOrEqual
  | NI_SSE2_CompareScalarNotGreaterThan
  | NI_SSE2_CompareScalarNotGreaterThanOrEqual
  | NI_SSE2_ConvertScalarToVector128Int32
  | NI_SSE2_ConvertToVector128Int32WithTruncation
  | NI_SSE2_ConvertToVector128Single
  | NI_SSE2_LoadFence
  | NI_SSE2_LoadVector128
  | NI_SSE2_MemoryFence
  | NI_SSE2_MoveMask
  | NI_SSE2_MoveScalar
  | NI_SSE2_ShiftLeftLogical
  | NI_SSE2_ShiftRightArithmetic
  | NI_SSE2_ShiftRightLogical
  | NI_SSE2_Store
  | NI_SSE2_StoreNonTemporal
  | NI_SSE_CompareScalarGreaterThan
  | NI_SSE_CompareScalarGreaterThanOrEqual
  | NI_SSE_CompareScalarNotGreaterThan
  | NI_SSE_CompareScalarNotGreaterThanOrEqual
  | NI_SSE_LoadVector128
  | NI_SSE_MoveMask
  | NI_SSE_MoveScalar
  | NI_SSE_Prefetch0
  | NI_SSE_Prefetch1
  | NI_SSE_Prefetch2
  | NI_SSE_PrefetchNonTemporal
  | NI_SSE_Store
  | NI_SSE_StoreFence
  | NI_SSSE3_Shuffle
  | NI_Vector128_Abs
  | NI_Vector128_Add
  | NI_Vector128_AndNot
  | NI_Vector128_As
  | NI_Vector128_AsByte
  | NI_Vector128_AsDouble
  | NI_Vector128_AsInt16
  | NI_Vector128_AsInt32
  | NI_Vector128_AsInt64
  | NI_Vector128_AsNInt
  | NI_Vector128_AsNUInt
  | NI_Vector128_AsSByte
  | NI_Vector128_AsSingle
  | NI_Vector128_AsUInt16
  | NI_Vector128_AsUInt32
  | NI_Vector128_AsUInt64
  | NI_Vector128_AsVector
  | NI_Vector128_AsVector128
  | NI_Vector128_AsVector2
  | NI_Vector128_AsVector3
  | NI_Vector128_AsVector4
  | NI_Vector128_BitwiseAnd
  | NI_Vector128_BitwiseOr
  | NI_Vector128_Ceiling
  | NI_Vector128_ConditionalSelect
  | NI_Vector128_ConvertToDouble
  | NI_Vector128_ConvertToInt32
  | NI_Vector128_ConvertToInt64
  | NI_Vector128_ConvertToSingle
  | NI_Vector128_ConvertToUInt32
  | NI_Vector128_ConvertToUInt64
  | NI_Vector128_Create
  | NI_Vector128_CreateScalar
  | NI_Vector128_CreateScalarUnsafe
  | NI_Vector128_Divide
  | NI_Vector128_Dot
  | NI_Vector128_Equals
  | NI_Vector128_EqualsAll
  | NI_Vector128_EqualsAny
  | NI_Vector128_ExtractMostSignificantBits
  | NI_Vector128_Floor
  | NI_Vector128_GetElement
  | NI_Vector128_GreaterThan
  | NI_Vector128_GreaterThanAll
  | NI_Vector128_GreaterThanAny
  | NI_Vector128_GreaterThanOrEqual
  | NI_Vector128_GreaterThanOrEqualAll
  | NI_Vector128_GreaterThanOrEqualAny
  | NI_Vector128_LessThan
  | NI_Vector128_LessThanAll
  | NI_Vector128_LessThanAny
  | NI_Vector128_LessThanOrEqual
  | NI_Vector128_LessThanOrEqualAll
  | NI_Vector128_LessThanOrEqualAny
  | NI_Vector128_Load
  | NI_Vector128_LoadAligned
  | NI_Vector128_LoadAlignedNonTemporal
  | NI_Vector128_LoadUnsafe
  | NI_Vector128_Max
  | NI_Vector128_Min
  | NI_Vector128_Multiply
  | NI_Vector128_Narrow
  | NI_Vector128_Negate
  | NI_Vector128_OnesComplement
  | NI_Vector128_ShiftLeft
  | NI_Vector128_ShiftRightArithmetic
  | NI_Vector128_ShiftRightLogical
  | NI_Vector128_Shuffle
  | NI_Vector128_Sqrt
  | NI_Vector128_Store
  | NI_Vector128_StoreAligned
  | NI_Vector128_StoreAlignedNonTemporal
  | NI_Vector128_StoreUnsafe
  | NI_Vector128_Subtract
  | NI_Vector128_Sum
  | NI_Vector128_ToScalar
  | NI_Vector128_ToVector256
  | NI_Vector128_ToVector256Unsafe
  | NI_Vector128_ToVector512
  | NI_Vector128_WidenLower
  | NI_Vector128_WidenUpper
  | NI_Vector128_WithElement
  | NI_Vector128_Xor
  | NI_Vector128_get_AllBitsSet
  | NI_Vector128_get_One
  | NI_Vector128_get_Zero
  | NI_Vector128_op_Addition
  | NI_Vector128_op_BitwiseAnd
  | NI_Vector128_op_BitwiseOr
  | NI_Vector128_op_Division
  | NI_Vector128_op_Equality
  | NI_Vector128_op_ExclusiveOr
  | NI_Vector128_op_Inequality
  | NI_Vector128_op_LeftShift
  | NI_Vector128_op_Multiply
  | NI_Vector128_op_OnesComplement
  | NI_Vector128_op_RightShift
  | NI_Vector128_op_Subtraction
  | NI_Vector128_op_UnaryNegation
  | NI_Vector128_op_UnaryPlus
  | NI_Vector128_op_UnsignedRightShift
  | NI_Vector256_Abs
  | NI_Vector256_Add
  | NI_Vector256_AndNot
  | NI_Vector256_As
  | NI_Vector256_AsByte
  | NI_Vector256_AsDouble
  | NI_Vector256_AsInt16
  | NI_Vector256_AsInt32
  | NI_Vector256_AsInt64
  | NI_Vector256_AsNInt
  | NI_Vector256_AsNUInt
  | NI_Vector256_AsSByte
  | NI_Vector256_AsSingle
  | NI_Vector256_AsUInt16
  | NI_Vector256_AsUInt32
  | NI_Vector256_AsUInt64
  | NI_Vector256_AsVector
  | NI_Vector256_AsVector256
  | NI_Vector256_BitwiseAnd
  | NI_Vector256_BitwiseOr
  | NI_Vector256_Ceiling
  | NI_Vector256_ConditionalSelect
  | NI_Vector256_ConvertToDouble
  | NI_Vector256_ConvertToInt32
  | NI_Vector256_ConvertToInt64
  | NI_Vector256_ConvertToSingle
  | NI_Vector256_ConvertToUInt32
  | NI_Vector256_ConvertToUInt64
  | NI_Vector256_Create
  | NI_Vector256_CreateScalar
  | NI_Vector256_CreateScalarUnsafe
  | NI_Vector256_Divide
  | NI_Vector256_Dot
  | NI_Vector256_Equals
  | NI_Vector256_EqualsAll
  | NI_Vector256_EqualsAny
  | NI_Vector256_ExtractMostSignificantBits
  | NI_Vector256_Floor
  | NI_Vector256_GetElement
  | NI_Vector256_GetLower
  | NI_Vector256_GetUpper
  | NI_Vector256_GreaterThan
  | NI_Vector256_GreaterThanAll
  | NI_Vector256_GreaterThanAny
  | NI_Vector256_GreaterThanOrEqual
  | NI_Vector256_GreaterThanOrEqualAll
  | NI_Vector256_GreaterThanOrEqualAny
  | NI_Vector256_LessThan
  | NI_Vector256_LessThanAll
  | NI_Vector256_LessThanAny
  | NI_Vector256_LessThanOrEqual
  | NI_Vector256_LessThanOrEqualAll
  | NI_Vector256_LessThanOrEqualAny
  | NI_Vector256_Load
  | NI_Vector256_LoadAligned
  | NI_Vector256_LoadAlignedNonTemporal
  | NI_Vector256_LoadUnsafe
  | NI_Vector256_Max
  | NI_Vector256_Min
  | NI_Vector256_Multiply
  | NI_Vector256_Narrow
  | NI_Vector256_Negate
  | NI_Vector256_OnesComplement
  | NI_Vector256_ShiftLeft
  | NI_Vector256_ShiftRightArithmetic
  | NI_Vector256_ShiftRightLogical
  | NI_Vector256_Shuffle
  | NI_Vector256_Sqrt
  | NI_Vector256_Store
  | NI_Vector256_StoreAligned
  | NI_Vector256_StoreAlignedNonTemporal
  | NI_Vector256_StoreUnsafe
  | NI_Vector256_Subtract
  | NI_Vector256_Sum
  | NI_Vector256_ToScalar
  | NI_Vector256_ToVector512
  | NI_Vector256_ToVector512Unsafe
  | NI_Vector256_WidenLower
  | NI_Vector256_WidenUpper
  | NI_Vector256_WithElement
  | NI_Vector256_WithLower
  | NI_Vector256_WithUpper
  | NI_Vector256_Xor
  | NI_Vector256_get_AllBitsSet
  | NI_Vector256_get_One
  | NI_Vector256_get_Zero
  | NI_Vector256_op_Addition
  | NI_Vector256_op_BitwiseAnd
  | NI_Vector256_op_BitwiseOr
  | NI_Vector256_op_Division
  | NI_Vector256_op_Equality
  | NI_Vector256_op_ExclusiveOr
  | NI_Vector256_op_Inequality
  | NI_Vector256_op_LeftShift
  | NI_Vector256_op_Multiply
  | NI_Vector256_op_OnesComplement
  | NI_Vector256_op_RightShift
  | NI_Vector256_op_Subtraction
  | NI_Vector256_op_UnaryNegation
  | NI_Vector256_op_UnaryPlus
  | NI_Vector256_op_UnsignedRightShift
  | NI_Vector512_Add
  | NI_Vector512_AndNot
  | NI_Vector512_As
  | NI_Vector512_AsByte
  | NI_Vector512_AsDouble
  | NI_Vector512_AsInt16
  | NI_Vector512_AsInt32
  | NI_Vector512_AsInt64
  | NI_Vector512_AsNInt
  | NI_Vector512_AsNUInt
  | NI_Vector512_AsSByte
  | NI_Vector512_AsSingle
  | NI_Vector512_AsUInt16
  | NI_Vector512_AsUInt32
  | NI_Vector512_AsUInt64
  | NI_Vector512_AsVector
  | NI_Vector512_AsVector512
  | NI_Vector512_BitwiseAnd
  | NI_Vector512_BitwiseOr
  | NI_Vector512_Create
  | NI_Vector512_CreateScalar
  | NI_Vector512_CreateScalarUnsafe
  | NI_Vector512_Equals
  | NI_Vector512_EqualsAll
  | NI_Vector512_EqualsAny
  | NI_Vector512_ExtractMostSignificantBits
  | NI_Vector512_GetElement
  | NI_Vector512_GetLower
  | NI_Vector512_GetLower128
  | NI_Vector512_GetUpper
  | NI_Vector512_Load
  | NI_Vector512_LoadAligned
  | NI_Vector512_LoadAlignedNonTemporal
  | NI_Vector512_LoadUnsafe
  | NI_Vector512_Narrow
  | NI_Vector512_OnesComplement
  | NI_Vector512_Store
  | NI_Vector512_StoreAligned
  | NI_Vector512_StoreAlignedNonTemporal
  | NI_Vector512_StoreUnsafe
  | NI_Vector512_Subtract
  | NI_Vector512_ToScalar
  | NI_Vector512_WidenLower
  | NI_Vector512_WidenUpper
  | NI_Vector512_WithElement
  | NI_Vector512_WithLower
  | NI_Vector512_WithUpper
  | NI_Vector512_Xor
  | NI_Vector512_get_AllBitsSet
  | NI_Vector512_get_One
  | NI_Vector512_get_Zero
  | NI_Vector512_op_Addition
  | NI_Vector512_op_BitwiseAnd
  | NI_Vector512_op_BitwiseOr
  | NI_Vector512_op_Equality
  | NI_Vector512_op_ExclusiveOr
  | NI_Vector512_op_Inequality
  | NI_Vector512_op_OnesComplement
  | NI_Vector512_op_Subtraction
  | NI_X86Base_DivRem
  | NI_X86Base_Pause
  | NI_X86Base_X64_DivRem
  | NI_X86Serialize_Serialize
deriving DecidableEq

/-- `FloatComparisonMode`: the closed 32-value enumeration of x86
floating-point comparison predicates. -/
inductive FloatComparisonMode where
  | OrderedEqualNonSignaling
  | OrderedLessThanSignaling
  | OrderedLessThanOrEqualSignaling
  | UnorderedNonSignaling
  | UnorderedNotEqualNonSignaling
  | UnorderedNotLessThanSignaling
  | UnorderedNotLessThanOrEqualSignaling
  | OrderedNonSignaling
  | UnorderedEqualNonSignaling
  | UnorderedNotGreaterThanOrEqualSignaling
  | UnorderedNotGreaterThanSignaling
  | OrderedFalseNonSignaling
  | OrderedNotEqualNonSignaling
  | OrderedGreaterThanOrEqualSignaling
  | OrderedGreaterThanSignaling
  | UnorderedTrueNonSignaling
  | OrderedEqualSignaling
  | OrderedLessThanNonSignaling
  | OrderedLessThanOrEqualNonSignaling
  | UnorderedSignaling
  | UnorderedNotEqualSignaling
  | UnorderedNotLessThanNonSignaling
  | UnorderedNotLessThanOrEqualNonSignaling
  | OrderedSignaling
  | UnorderedEqualSignaling
  | UnorderedNotGreaterThanOrEqualNonSignaling
  | UnorderedNotGreaterThanNonSignaling
  | OrderedFalseSignaling
  | OrderedNotEqualSignaling
  | OrderedGreaterThanOrEqualNonSignaling
  | OrderedGreaterThanNonSignaling
  | UnorderedTrueSignaling
deriving DecidableEq

open FloatComparisonMode NamedIntrinsic

/-- The 32 comparison modes, listed once each. -/
def allFloatComparisonModes : List FloatComparisonMode :=
  [OrderedEqualNonSignaling, OrderedLessThanSignaling,
   OrderedLessThanOrEqualSignaling, UnorderedNonSignaling,
   UnorderedNotEqualNonSignaling, UnorderedNotLessThanSignaling,
   UnorderedNotLessThanOrEqualSignaling, OrderedNonSignaling,
   UnorderedEqualNonSignaling, UnorderedNotGreaterThanOrEqualSignaling,
   UnorderedNotGreaterThanSignaling, OrderedFalseNonSignaling,
   OrderedNotEqualNonSignaling, OrderedGreaterThanOrEqualSignaling,
   OrderedGreaterThanSignaling, UnorderedTrueNonSignaling,
   OrderedEqualSignaling, OrderedLessThanNonSignaling,
   OrderedLessThanOrEqualNonSignaling, UnorderedSignaling,
   UnorderedNotEqualSignaling, UnorderedNotLessThanNonSignaling,
   UnorderedNotLessThanOrEqualNonSignaling, OrderedSignaling,
   UnorderedEqualSignaling, UnorderedNotGreaterThanOrEqualNonSignaling,
   UnorderedNotGreaterThanNonSignaling, OrderedFalseSignaling,
   OrderedNotEqualSignaling, OrderedGreaterThanOrEqualNonSignaling,
   OrderedGreaterThanNonSignaling, UnorderedTrueSignaling]

/-- `HWIntrinsicInfo::lookupFloatComparisonModeForSwappedArgs`: the
comparison mode to use for `(op2, op1)` given the mode for `(op1, op2)`.
The enumeration is closed, so the `unreached()` default of the source
switch has no counterpart here. -/
def lookupFloatComparisonModeForSwappedArgs :
    FloatComparisonMode -> FloatComparisonMode
  | OrderedEqualNonSignaling => OrderedEqualNonSignaling
  | UnorderedNonSignaling => UnorderedNonSignaling
  | UnorderedNotEqualNonSignaling => UnorderedNotEqualNonSignaling
  | OrderedNonSignaling => OrderedNonSignaling
  | UnorderedEqualNonSignaling => UnorderedEqualNonSignaling
  | OrderedFalseNonSignaling => OrderedFalseNonSignaling
  | OrderedNotEqualNonSignaling => OrderedNotEqualNonSignaling
  | UnorderedTrueNonSignaling => UnorderedTrueNonSignaling
  | OrderedEqualSignaling => OrderedEqualSignaling
  | UnorderedSignaling => UnorderedSignaling
  | UnorderedNotEqualSignaling => UnorderedNotEqualSignaling
  | OrderedSignaling => OrderedSignaling
  | UnorderedEqualSignaling => UnorderedEqualSignaling
  | OrderedFalseSignaling => OrderedFalseSignaling
  | OrderedNotEqualSignaling => OrderedNotEqualSignaling
  | UnorderedTrueSignaling => UnorderedTrueSignaling
  | OrderedLessThanSignaling => OrderedGreaterThanSignaling
  | OrderedLessThanOrEqualSignaling => OrderedGreaterThanOrEqualSignaling
  | UnorderedNotLessThanSignaling => UnorderedNotGreaterThanSignaling
  | UnorderedNotLessThanOrEqualSignaling => UnorderedNotGreaterThanOrEqualSignaling
  | UnorderedNotGreaterThanOrEqualSignaling => UnorderedNotLessThanOrEqualSignaling
  | UnorderedNotGreaterThanSignaling => UnorderedNotLessThanSignaling
  | OrderedGreaterThanOrEqualSignaling => OrderedLessThanOrEqualSignaling
  | OrderedGreaterThanSignaling => OrderedLessThanSignaling
  | OrderedLessThanNonSignaling => OrderedGreaterThanNonSignaling
  | OrderedLessThanOrEqualNonSignaling => OrderedGreaterThanOrEqualNonSignaling
  | UnorderedNotLessThanNonSignaling => UnorderedNotGreaterThanNonSignaling
  | UnorderedNotLessThanOrEqualNonSignaling => UnorderedNotGreaterThanOrEqualNonSignaling
  | UnorderedNotGreaterThanOrEqualNonSignaling => UnorderedNotLessThanOrEqualNonSignaling
  | UnorderedNotGreaterThanNonSignaling => UnorderedNotLessThanNonSignaling
  | OrderedGreaterThanOrEqualNonSignaling => OrderedLessThanOrEqualNonSignaling
  | OrderedGreaterThanNonSignaling => OrderedLessThanNonSignaling

/-- `HWIntrinsicInfo::lookupImmUpperBound`: the upper bound for the
immediate operand of an intrinsic.  The source asserts that the intrinsic
belongs to `HW_Category_IMM` (a table fact outside this translation unit)
and, per arm, `HasFullRangeImm`; those debug asserts have no behavioral
counterpart here, so the function is total over the identifiers. -/
def lookupImmUpperBound : NamedIntrinsic -> Int
  | NI_AVX_Compare
  | NI_AVX_CompareScalar => 31
  | NI_AVX2_GatherVector128
  | NI_AVX2_GatherVector256
  | NI_AVX2_GatherMaskVector128
  | NI_AVX2_GatherMaskVector256 => 8
  | _ => 255

/-- `HWIntrinsicInfo::isAVX2GatherIntrinsic`: exact membership test over
the four gather identifiers. -/
def isAVX2GatherIntrinsic : NamedIntrinsic -> Bool
  | NI_AVX2_GatherVector128
  | NI_AVX2_GatherVector256
  | NI_AVX2_GatherMaskVector128
  | NI_AVX2_GatherMaskVector256 => true
  | _ => false

/-- `HWIntrinsicInfo::isFullyImplementedIsa`: the fixed allow-list of
fully implemented instruction sets. -/
def isFullyImplementedIsa : InstructionSet -> Bool
  | InstructionSet_AES
  | InstructionSet_AES_X64
  | InstructionSet_AVX
  | InstructionSet_AVX_X64
  | InstructionSet_AVX2
  | InstructionSet_AVX2_X64
  | InstructionSet_AVX512F
  | InstructionSet_AVX512F_VL
  | InstructionSet_AVX512F_VL_X64
  | InstructionSet_AVX512F_X64
  | InstructionSet_AVX512BW
  | InstructionSet_AVX512BW_VL
  | InstructionSet_AVX512BW_VL_X64
  | InstructionSet_AVX512BW_X64
  | InstructionSet_AVX512CD
  | InstructionSet_AVX512CD_VL
  | InstructionSet_AVX512CD_VL_X64
  | InstructionSet_AVX512CD_X64
  | InstructionSet_AVX512DQ
  | InstructionSet_AVX512DQ_VL
  | InstructionSet_AVX512DQ_VL_X64
  | InstructionSet_AVX512DQ_X64
  | InstructionSet_AVXVNNI
  | InstructionSet_AVXVNNI_X64
  | InstructionSet_BMI1
  | InstructionSet_BMI1_X64
  | InstructionSet_BMI2
  | InstructionSet_BMI2_X64
  | InstructionSet_FMA
  | InstructionSet_FMA_X64
  | InstructionSet_LZCNT
  | InstructionSet_LZCNT_X64
  | InstructionSet_PCLMULQDQ
  | InstructionSet_PCLMULQDQ_X64
  | InstructionSet_POPCNT
  | InstructionSet_POPCNT_X64
  | InstructionSet_SSE
  | InstructionSet_SSE_X64
  | InstructionSet_SSE2
  | InstructionSet_SSE2_X64
  | InstructionSet_SSE3
  | InstructionSet_SSE3_X64
  | InstructionSet_SSSE3
  | InstructionSet_SSSE3_X64
  | InstructionSet_SSE41
  | InstructionSet_SSE41_X64
  | InstructionSet_SSE42
  | InstructionSet_SSE42_X64
  | InstructionSet_Vector128
  | InstructionSet_Vector256
  | InstructionSet_Vector512
  | InstructionSet_X86Base
  | InstructionSet_X86Base_X64
  | InstructionSet_X86Serialize
  | InstructionSet_X86Serialize_X64 => true
  | _ => false

/-- `HWIntrinsicInfo::isScalarIsa`: the fixed scalar-group membership
test; POPCNT is deliberately excluded even though it is scalar. -/
def isScalarIsa : InstructionSet -> Bool
  | InstructionSet_BMI1
  | InstructionSet_BMI1_X64
  | InstructionSet_BMI2
  | InstructionSet_BMI2_X64
  | InstructionSet_LZCNT
  | InstructionSet_LZCNT_X64
  | InstructionSet_X86Base
  | InstructionSet_X86Base_X64 => true
  | _ => false

/-- The IR operator tags (`genTreeOps`) this translation unit passes to
the generic node constructors. -/
inductive GenTreeOper where
  | GT_ADD | GT_SUB | GT_MUL | GT_DIV | GT_AND | GT_AND_NOT | GT_OR | GT_XOR
  | GT_NOT | GT_NEG | GT_EQ | GT_NE | GT_GT | GT_GE | GT_LT | GT_LE
  | GT_LSH | GT_RSH | GT_RSZ | GT_IND
deriving DecidableEq

/-- Tags identifying which outbound IR constructor built a node.  The
constructors themselves (`gtNewSimd...Node`, `gtNewScalarHWIntrinsicNode`,
`gtNewOperNode`, the constant-node makers, the contiguous-load address
builder, and `impAssignMultiRegTypeToVar`) are external collaborators;
each is embedded as an uninterpreted tagged node. -/
inductive NodeKind where
  | simdAbs
  | simdBinOp (op : GenTreeOper)
  | simdCmpOp (op : GenTreeOper)
  | simdCmpOpAll (op : GenTreeOper)
  | simdCmpOpAny (op : GenTreeOper)
  | simdCndSel
  | simdCreateBroadcast
  | simdCreateScalar
  | simdCreateScalarUnsafe
  | simdDotProd
  | simdCeil
  | simdFloor
  | simdGetElement
  | simdGetLower
  | simdGetUpper
  | simdLoad
  | simdLoadAligned
  | simdLoadNonTemporal
  | simdMax
  | simdMin
  | simdNarrow
  | simdShuffle
  | simdSqrt
  | simdStore
  | simdStoreAligned
  | simdStoreNonTemporal
  | simdSum
  | simdUnOp (op : GenTreeOper)
  | simdWidenLower
  | simdWidenUpper
  | simdWithElement
  | simdWithLower
  | simdWithUpper
  | hwIntrinsic (i : NamedIntrinsic)
  | scalarHWIntrinsic (i : NamedIntrinsic)
  | oper (op : GenTreeOper)
  | zeroCon
  | oneCon
  | allBitsSetCon
  | createAddrForSimdCreate
  | assignMultiRegTypeToVar
deriving DecidableEq

/-- Shallow IR trees.  `icon`/`fcon` are the integral and floating
constant nodes (floating payloads are abstract numerals); `vecCon` is a
vector constant with one entry per lane of its element kind; `castNode`
is a `GT_CAST` wrapper; `other` is an opaque caller-supplied expression
(with its type and a side-effect flag); `spillRef` is the local-variable
reference that replaces a stack entry when its side effects are spilled;
`node` is any tree built by an outbound IR constructor, recording the
operands in source argument order. -/
inductive GenTree where
  | icon (v : Int)
  | fcon (v : Int)
  | vecCon (ty : VarType) (lanes : List Int)
  | castNode (ty : VarType) (src : GenTree)
  | other (tag : Nat) (ty : VarType) (sideEff : Bool)
  | spillRef (orig : GenTree)
  | node (k : NodeKind) (ty : VarType) (ops : List GenTree) (bt : CorInfoType) (sz : Nat)

def GenTree.IsIntegralConst : GenTree → Bool
  | .icon _ => true
  | _ => false

def GenTree.IsCnsFltOrDbl : GenTree → Bool
  | .fcon _ => true
  | _ => false

def GenTree.IsVectorConst : GenTree → Bool
  | .vecCon _ _ => true
  | _ => false

/-- `OperIsConst`: integral, floating or vector constant. -/
def GenTree.OperIsConst : GenTree → Bool
  | .icon _ | .fcon _ | .vecCon _ _ => true
  | _ => false

/-- `AsIntConCommon()->IntegralValue()`; the source only calls this on
integral constants, anything else is junk. -/
def GenTree.AsIntConCommonIntegralValue : GenTree → Int
  | .icon v => v
  | _ => 0

/-- `AsIntCon()->IconValue()`. -/
def GenTree.AsIntConIconValue : GenTree → Int
  | .icon v => v
  | _ => 0

/-- `AsDblCon()->DconValue()`. -/
def GenTree.AsDblConDconValue : GenTree → Int
  | .fcon v => v
  | _ => 0

/-- `GetIntegralVectorConstElement(index, simdBaseType)`: lane `index` of
a vector constant read as an unsigned integer of the element kind. -/
def GenTree.GetIntegralVectorConstElement (e : GenTree) (index : Nat) (bt : VarType) : Int :=
  match e with
  | .vecCon _ lanes => (lanes.getD index 0).emod (2 ^ (8 * genTypeSize bt))
  | _ => 0

def GenTree.typeOf : GenTree → VarType
  | .icon _ => .TYP_INT
  | .fcon _ => .TYP_DOUBLE
  | .vecCon ty _ => ty
  | .castNode ty _ => ty
  | .other _ ty _ => ty
  | .spillRef e => e.typeOf
  | .node _ ty _ _ _ => ty

/-- Whether a tree bears side effects (the `GTF_SIDE_EFFECT` summary):
opaque expressions carry an explicit flag, composite trees inherit from
their operands, constants and spill temps have none. -/
def GenTree.hasSideEffects : GenTree → Bool
  | .other _ _ se => se
  | .castNode _ s => s.hasSideEffects
  | .node _ _ ops _ _ => ops.attach.any (fun x => x.1.hasSideEffects)
  | _ => false
decreasing_by
  all_goals simp_wf
  all_goals first
    | omega
    | (have h := List.sizeOf_lt_of_mem x.2; omega)

/-- The spilling of one stack entry's side effects: an entry with side
effects is replaced by a reference to the temp it was spilled to. -/
def spillOne (e : GenTree) : GenTree :=
  if e.hasSideEffects then .spillRef e else e

/-- `impSpillSideEffect(true, verCurrentState.esStackDepth - k)`: spill
the side effects of the stack entry at depth `k - 1` below the top
(`spillAt 1` for `esStackDepth - 2`, `spillAt 2` for `esStackDepth - 3`). -/
def spillAt : Nat → List GenTree → List GenTree
  | _, [] => []
  | 0, e :: rest => spillOne e :: rest
  | n + 1, e :: rest => e :: spillAt n rest

/-- The `if (op->OperIs(GT_CAST) && op->gtGetOp1()->TypeIs(TYP_BYREF))`
cast-folding applied to load/store address operands. -/
def stripByrefCast (e : GenTree) : GenTree :=
  match e with
  | .castNode _ src => if src.typeOf = .TYP_BYREF then src else e
  | _ => e

open NamedIntrinsic CorInfoType VarType GenTreeOper in
/-- `Compiler::impNonConstFallback`: rewrite of the fixed shift-family
intrinsics when the shift count is not a compile-time constant.  The
result pairs the returned tree (`none` = `nullptr`) with the residual
stack.  The debug assert `NoJmpTableImm(intrinsic)` is a table fact
outside this translation unit and has no behavioral counterpart. -/
def impNonConstFallback (intrinsic : NamedIntrinsic) (simdType : VarType)
    (simdBaseJitType : CorInfoType) (stack : List GenTree) :
    Option (Option GenTree × List GenTree) :=
  match intrinsic with
  | NI_SSE2_ShiftLeftLogical
  | NI_SSE2_ShiftRightArithmetic
  | NI_SSE2_ShiftRightLogical
  | NI_AVX2_ShiftLeftLogical
  | NI_AVX2_ShiftRightArithmetic
  | NI_AVX2_ShiftRightLogical
  | NI_AVX512F_ShiftLeftLogical
  | NI_AVX512F_ShiftRightArithmetic
  | NI_AVX512F_ShiftRightLogical
  | NI_AVX512F_VL_ShiftRightArithmetic
  | NI_AVX512BW_ShiftLeftLogical
  | NI_AVX512BW_ShiftRightArithmetic
  | NI_AVX512BW_ShiftRightLogical =>
    match spillAt 1 stack with
    | op2 :: op1 :: rest =>
      let tmpOp := GenTree.node (.hwIntrinsic NI_SSE2_ConvertScalarToVector128Int32)
        TYP_SIMD16 [op2] CORINFO_TYPE_INT 16
      some (some (GenTree.node (.hwIntrinsic intrinsic) simdType [op1, tmpOp]
        simdBaseJitType (genTypeSize simdType)), rest)
    | _ => none
  | _ => some (none, stack)

/-- The call-signature facts the dispatch reads: the argument count and
the results of the signature/class queries made by individual cases
(`getBaseJitTypeAndSizeOfSIMDType`, `getBaseJitTypeOfSIMDType`,
`getArgType` — all external collaborators). -/
structure HWSig where
  numArgs : Nat
  /-- `getBaseJitTypeAndSizeOfSIMDType(getArgClass(sig, arg1))`: the simd
  byte size of the first argument's class (the `AsVector128` case). -/
  arg1SimdSize : Nat
  /-- `getBaseJitTypeOfSIMDType(sig->retTypeSigClass)`. -/
  retTypeSigBaseJitType : CorInfoType
  /-- the byte size returned alongside it for `sig->retTypeSigClass`. -/
  retTypeSigSize : Nat
  /-- `strip(getArgType(sig, second arg))` (the `StoreNonTemporal` case). -/
  arg2JitType : CorInfoType

/-- The compilation-wide oracles the dispatch consults: the capability
checks, the vector register width, the AVX-512 baseline test, the target
bitness, the contiguity analysis of `areArgumentsContiguous`, and the
`lookupIval` comparison-constant table. -/
structure CompCaps where
  compExactlyDependsOn : InstructionSet → Bool
  compOpportunisticallyDependsOn : InstructionSet → Bool
  getSIMDVectorRegisterByteLength : Nat
  IsBaselineVector512IsaSupported : Bool
  targetX86 : Bool
  areArgumentsContiguous : GenTree → GenTree → Bool
  lookupIval : NamedIntrinsic → Int

/-- One invocation's terminal outcome: a built tree, a decline
(`nullptr`, the caller falls back to the software path), or a fatal
debug assertion (`unreached()` / arity contract violation). -/
inductive EngineResult where
  | built (t : GenTree)
  | declined
  | fatal

/-- Pop one operand (`impPopStack` / `impSIMDPopStack`) and build. -/
def pop1Build (mk : GenTree → GenTree) (stack : List GenTree) :
    Option (EngineResult × List GenTree) :=
  match stack with
  | op1 :: rest => some (.built (mk op1), rest)
  | [] => none

/-- Pop two operands top-to-bottom (`op2` then `op1`) and build. -/
def pop2Build (mk : GenTree → GenTree → GenTree) (stack : List GenTree) :
    Option (EngineResult × List GenTree) :=
  match stack with
  | op2 :: op1 :: rest => some (.built (mk op1 op2), rest)
  | _ => none

/-- Pop three operands top-to-bottom (`op3`, `op2`, `op1`) and build. -/
def pop3Build (mk : GenTree → GenTree → GenTree → GenTree) (stack : List GenTree) :
    Option (EngineResult × List GenTree) :=
  match stack with
  | op3 :: op2 :: op1 :: rest => some (.built (mk op1 op2 op3), rest)
  | _ => none

/-- `static_cast<uint8_t>` of an integral constant payload. -/
def castU8 (v : Int) : Int := v.emod (2 ^ 8)
/-- `static_cast<uint16_t>` of an integral constant payload. -/
def castU16 (v : Int) : Int := v.emod (2 ^ 16)
/-- `static_cast<uint32_t>` of an integral constant payload. -/
def castU32 (v : Int) : Int := v.emod (2 ^ 32)
/-- `static_cast<uint64_t>` of an integral constant payload. -/
def castU64 (v : Int) : Int := v.emod (2 ^ 64)
/-- Stand-in for `static_cast<float>` of a double constant payload;
value-preserving on payloads of the float element kind. -/
def staticCastFloat (v : Int) : Int := v
/-- Stand-in for `static_cast<double>` of a double constant payload. -/
def staticCastDouble (v : Int) : Int := v

/-- The per-element-kind constant-fold loop of the vector `Create` case:
iteration `index` pops the top of stack and writes lane
`simdLength - 1 - index` of the zero-initialised vector constant;
`f` extracts (and truncates) the popped constant's payload.  `rem` is
the number of iterations left (`numArgs - index`); stack underflow is
`none`. -/
def createFoldLoop (f : GenTree → Int) (len : Nat) :
    Nat → Nat → List GenTree → List Int → Option (List Int × List GenTree)
  | _, 0, stack, lanes => some (lanes, stack)
  | index, rem + 1, stack, lanes =>
    match stack with
    | [] => none
    | a :: rest =>
      createFoldLoop f len (index + 1) rem rest
        (lanes.set (len - 1 - index) (f a))

/-- The `TYP_BYTE`/`TYP_UBYTE` arm of the `Create` constant fold. -/
def createFoldU8 (len : Nat) :=
  createFoldLoop (fun a => castU8 a.AsIntConCommonIntegralValue) len
/-- The `TYP_SHORT`/`TYP_USHORT` arm. -/
def createFoldU16 (len : Nat) :=
  createFoldLoop (fun a => castU16 a.AsIntConCommonIntegralValue) len
/-- The `TYP_INT`/`TYP_UINT` arm. -/
def createFoldU32 (len : Nat) :=
  createFoldLoop (fun a => castU32 a.AsIntConCommonIntegralValue) len
/-- The `TYP_LONG`/`TYP_ULONG` arm. -/
def createFoldU64 (len : Nat) :=
  createFoldLoop (fun a => castU64 a.AsIntConCommonIntegralValue) len
/-- The `TYP_FLOAT` arm: `cnsVal = static_cast<float>(...DconValue())`. -/
def createFoldFloat (len : Nat) :=
  createFoldLoop (fun a => staticCastFloat a.AsDblConDconValue) len
/-- The `TYP_DOUBLE` arm.  The source declares an inner
`double cnsVal = static_cast<double>(...DconValue())` shadowing the outer
`cnsVal`; the lane write that follows refers to the inner (freshly
assigned) variable, which is what this translation embeds; the outer
initialisation is dead. -/
def createFoldDouble (len : Nat) :=
  createFoldLoop (fun a => staticCastDouble a.AsDblConDconValue) len

/-- The `isConstant` pre-scan of the `Create` case: peeks stack entries
`0 .. numArgs-1` (`impStackTop`); underflow is `none`.  The source loop
exits early at the first non-constant; the outcome equals testing all. -/
def allArgsConst (p : GenTree → Bool) (n : Nat) (stack : List GenTree) : Option Bool :=
  if n ≤ stack.length then some ((stack.take n).all p) else none

/-- The byte pattern `memcpy`ed into the shuffle-control vector constant
of the short/ushort `ExtractMostSignificantBits` path:
`u64[0] = 0x0F0D0B0907050301`, `u64[1] = 0x8080808080808080`, repeated
for the upper 128-bit lane when the vector is 32 bytes wide. -/
def packSelectLanes (simdSize : Nat) : List Int :=
  let half : List Int :=
    [0x01, 0x03, 0x05, 0x07, 0x09, 0x0B, 0x0D, 0x0F,
     0x80, 0x80, 0x80, 0x80, 0x80, 0x80, 0x80, 0x80]
  if simdSize = 32 then half ++ half else half

/-- The cross-lane scan of the `Shuffle` case for 32-byte vectors with
small-int elements: an in-range index crosses the 128-bit half boundary
when its destination lane is in the other half.  The source loop breaks
at the first crossing; the outcome equals scanning all lanes. -/
def crossLaneDetect (indices : GenTree) (bt : VarType) (elementCount : Nat) : Bool :=
  (List.range elementCount).any fun index =>
    let value := indices.GetIntegralVectorConstElement index bt
    if value ≥ (elementCount : Int) then false
    else if index < elementCount / 2 then
      decide (value ≥ ((elementCount / 2 : Nat) : Int))
    else decide (value < ((elementCount / 2 : Nat) : Int))

open VarType CorInfoType GenTreeOper NodeKind

/-- The `NI_Vector128_Abs` (group) case of the dispatch. -/
def caseOf_Vector128_Abs (intrinsic : NamedIntrinsic) (sig : HWSig) (caps : CompCaps)
    (simdBaseJitType : CorInfoType) (retType : VarType) (simdSize : Nat)
    (simdBaseType : VarType) (stack : List GenTree) :
    Option (EngineResult × List GenTree) :=
  if sig.numArgs ≠ 1 then some (.fatal, stack)
  else if simdSize ≠ 32 ∨ varTypeIsFloating simdBaseType ∨
      varTypeIsUnsigned simdBaseType ∨ caps.compExactlyDependsOn InstructionSet_AVX2 then
    pop1Build (fun op1 => .node .simdAbs retType [op1] simdBaseJitType simdSize) stack
  else some (.declined, stack)


/-- The `NI_Vector128_Add` (group) case of the dispatch. -/
def caseOf_Vector128_Add (intrinsic : NamedIntrinsic) (sig : HWSig) (caps : CompCaps)
    (simdBaseJitType : CorInfoType) (retType : VarType) (simdSize : Nat)
    (simdBaseType : VarType) (stack : List GenTree) :
    Option (EngineResult × List GenTree) :=
  if sig.numArgs ≠ 2 then some (.fatal, stack)
  else if simdSize ≠ 32 ∨ varTypeIsFloating simdBaseType ∨
      caps.compExactlyDependsOn InstructionSet_AVX2 then
    pop2Build (fun op1 op2 =>
      .node (.simdBinOp GT_ADD) retType [op1, op2] simdBaseJitType simdSize) stack
  else some (.declined, stack)


/-- The `NI_Vector128_AndNot` (group) case of the dispatch. -/
def caseOf_Vector128_AndNot (intrinsic : NamedIntrinsic) (sig : HWSig) (caps : CompCaps)
    (simdBaseJitType : CorInfoType) (retType : VarType) (simdSize : Nat)
    (simdBaseType : VarType) (stack : List GenTree) :
    Option (EngineResult × List GenTree) :=
  if sig.numArgs ≠ 2 then some (.fatal, stack)
  else
    pop2Build (fun op1 op2 =>
      .node (.simdBinOp GT_AND_NOT) retType [op1, op2] simdBaseJitType simdSize)
      (spillAt 1 stack)


/-- The `NI_Vector128_As` (group) case of the dispatch. -/
def caseOf_Vector128_As (intrinsic : NamedIntrinsic) (sig : HWSig) (caps : CompCaps)
    (simdBaseJitType : CorInfoType) (retType : VarType) (simdSize : Nat)
    (simdBaseType : VarType) (stack : List GenTree) :
    Option (EngineResult × List GenTree) :=
  -- the cast is folded away: the popped operand is the result
  if sig.numArgs ≠ 1 then some (.fatal, stack)
  else pop1Build (fun op1 => op1) stack


/-- The `NI_Vector128_AsVector2` (group) case of the dispatch. -/
def caseOf_Vector128_AsVector2 (intrinsic : NamedIntrinsic) (sig : HWSig) (caps : CompCaps)
    (simdBaseJitType : CorInfoType) (retType : VarType) (simdSize : Nat)
    (simdBaseType : VarType) (stack : List GenTree) :
    Option (EngineResult × List GenTree) :=
  if sig.numArgs ≠ 1 then some (.fatal, stack)
  else pop1Build (fun op1 =>
    .node (.hwIntrinsic intrinsic) retType [op1] simdBaseJitType simdSize) stack


/-- The `NI_Vector128_BitwiseAnd` (group) case of the dispatch. -/
def caseOf_Vector128_BitwiseAnd (intrinsic : NamedIntrinsic) (sig : HWSig) (caps : CompCaps)
    (simdBaseJitType : CorInfoType) (retType : VarType) (simdSize : Nat)
    (simdBaseType : VarType) (stack : List GenTree) :
    Option (EngineResult × List GenTree) :=
  if sig.numArgs ≠ 2 then some (.fatal, stack)
  else pop2Build (fun op1 op2 =>
    .node (.simdBinOp GT_AND) retType [op1, op2] simdBaseJitType simdSize) stack


/-- The `NI_Vector128_BitwiseOr` (group) case of the dispatch. -/
def caseOf_Vector128_BitwiseOr (intrinsic : NamedIntrinsic) (sig : HWSig) (caps : CompCaps)
    (simdBaseJitType : CorInfoType) (retType : VarType) (simdSize : Nat)
    (simdBaseType : VarType) (stack : List GenTree) :
    Option (EngineResult × List GenTree) :=
  if sig.numArgs ≠ 2 then some (.fatal, stack)
  else pop2Build (fun op1 op2 =>
    .node (.simdBinOp GT_OR) retType [op1, op2] simdBaseJitType simdSize) stack


/-- The `NI_Vector128_Ceiling` (group) case of the dispatch. -/
def caseOf_Vector128_Ceiling (intrinsic : NamedIntrinsic) (sig : HWSig) (caps : CompCaps)
    (simdBaseJitType : CorInfoType) (retType : VarType) (simdSize : Nat)
    (simdBaseType : VarType) (stack : List GenTree) :
    Option (EngineResult × List GenTree) :=
  if sig.numArgs ≠ 1 ∨ varTypeIsFloating simdBaseType = false then some (.fatal, stack)
  else if simdSize ≠ 32 ∧ caps.compExactlyDependsOn InstructionSet_SSE41 = false then
    some (.declined, stack)
  else pop1Build (fun op1 => .node .simdCeil retType [op1] simdBaseJitType simdSize) stack


/-- The `NI_Vector128_ConditionalSelect` (group) case of the dispatch. -/
def caseOf_Vector128_ConditionalSelect (intrinsic : NamedIntrinsic) (sig : HWSig) (caps : CompCaps)
    (simdBaseJitType : CorInfoType) (retType : VarType) (simdSize : Nat)
    (simdBaseType : VarType) (stack : List GenTree) :
    Option (EngineResult × List GenTree) :=
  if sig.numArgs ≠ 3 then some (.fatal, stack)
  else pop3Build (fun op1 op2 op3 =>
    .node .simdCndSel retType [op1, op2, op3] simdBaseJitType simdSize) stack


/-- The `NI_Vector128_ConvertToDouble` (group) case of the dispatch. -/
def caseOf_Vector128_ConvertToDouble (intrinsic : NamedIntrinsic) (sig : HWSig) (caps : CompCaps)
    (simdBaseJitType : CorInfoType) (retType : VarType) (simdSize : Nat)
    (simdBaseType : VarType) (stack : List GenTree) :
    Option (EngineResult × List GenTree) :=
  if sig.numArgs ≠ 1 then some (.fatal, stack)
  else some (.declined, stack)


/-- The `NI_Vector128_ConvertToInt32` (group) case of the dispatch. -/
def caseOf_Vector128_ConvertToInt32 (intrinsic : NamedIntrinsic) (sig : HWSig) (caps : CompCaps)
    (simdBaseJitType : CorInfoType) (retType : VarType) (simdSize : Nat)
    (simdBaseType : VarType) (stack : List GenTree) :
    Option (EngineResult × List GenTree) :=
  if sig.numArgs ≠ 1 ∨ simdBaseType ≠ TYP_FLOAT then some (.fatal, stack)
  else
    let conv := if simdSize = 32 then NI_AVX_ConvertToVector256Int32WithTruncation
      else NI_SSE2_ConvertToVector128Int32WithTruncation
    pop1Build (fun op1 =>
      .node (.hwIntrinsic conv) retType [op1] simdBaseJitType simdSize) stack


/-- The `NI_Vector128_ConvertToSingle` (group) case of the dispatch. -/
def caseOf_Vector128_ConvertToSingle (intrinsic : NamedIntrinsic) (sig : HWSig) (caps : CompCaps)
    (simdBaseJitType : CorInfoType) (retType : VarType) (simdSize : Nat)
    (simdBaseType : VarType) (stack : List GenTree) :
    Option (EngineResult × List GenTree) :=
  if sig.numArgs ≠ 1 then some (.fatal, stack)
  else if simdBaseType = TYP_INT then
    let conv := if simdSize = 32 then NI_AVX_ConvertToVector256Single
      else NI_SSE2_ConvertToVector128Single
    pop1Build (fun op1 =>
      .node (.hwIntrinsic conv) retType [op1] simdBaseJitType simdSize) stack
  else if simdBaseType = TYP_UINT then some (.declined, stack)
  else some (.fatal, stack)


/-- The `NI_Vector128_Create` (group) case of the dispatch. -/
def caseOf_Vector128_Create (intrinsic : NamedIntrinsic) (sig : HWSig) (caps : CompCaps)
    (simdBaseJitType : CorInfoType) (retType : VarType) (simdSize : Nat)
    (simdBaseType : VarType) (stack : List GenTree) :
    Option (EngineResult × List GenTree) :=
  if sig.numArgs = 1 then
    if caps.targetX86 ∧ varTypeIsLong simdBaseType then
      match stack.get? 0 with
      | none => none
      | some top =>
        if top.IsIntegralConst = false then some (.declined, stack)
        else pop1Build (fun op1 =>
          .node .simdCreateBroadcast retType [op1] simdBaseJitType simdSize) stack
    else pop1Build (fun op1 =>
      .node .simdCreateBroadcast retType [op1] simdBaseJitType simdSize) stack
  else
    let simdLength := getSIMDVectorLength simdSize simdBaseType
    if sig.numArgs ≠ simdLength then some (.fatal, stack)
    else
      match allArgsConst
        (fun a => if varTypeIsFloating simdBaseType then a.IsCnsFltOrDbl
                  else a.IsIntegralConst) sig.numArgs stack with
      | none => none
      | some isConstant =>
        if isConstant then
          if ¬(simdSize = 16 ∨ simdSize = 32 ∨ simdSize = 64) then some (.fatal, stack)
          else
            match simdBaseType with
            | TYP_BYTE | TYP_UBYTE =>
              match createFoldU8 simdLength 0 sig.numArgs stack
                  (List.replicate simdLength 0) with
              | none => none
              | some (lanes, rest) => some (.built (.vecCon retType lanes), rest)
            | TYP_SHORT | TYP_USHORT =>
              match createFoldU16 simdLength 0 sig.numArgs stack
                  (List.replicate simdLength 0) with
              | none => none
              | some (lanes, rest) => some (.built (.vecCon retType lanes), rest)
            | TYP_INT | TYP_UINT =>
              match createFoldU32 simdLength 0 sig.numArgs stack
                  (List.replicate simdLength 0) with
              | none => none
              | some (lanes, rest) => some (.built (.vecCon retType lanes), rest)
            | TYP_LONG | TYP_ULONG =>
              match createFoldU64 simdLength 0 sig.numArgs stack
                  (List.replicate simdLength 0) with
              | none => none
              | some (lanes, rest) => some (.built (.vecCon retType lanes), rest)
            | TYP_FLOAT =>
              match createFoldFloat simdLength 0 sig.numArgs stack
                  (List.replicate simdLength 0) with
              | none => none
              | some (lanes, rest) => some (.built (.vecCon retType lanes), rest)
            | TYP_DOUBLE =>
              match createFoldDouble simdLength 0 sig.numArgs stack
                  (List.replicate simdLength 0) with
              | none => none
              | some (lanes, rest) => some (.built (.vecCon retType lanes), rest)
            | _ => some (.fatal, stack)
        else
          if caps.targetX86 ∧ varTypeIsLong simdBaseType then some (.declined, stack)
          else if sig.numArgs ≤ stack.length then
            let popped := stack.take sig.numArgs
            let rest := stack.drop sig.numArgs
            -- nodeBuilder.AddOperand(i, arg) with i running from
            -- numArgs-1 down to 0 as the pops proceed: the operand
            -- array is the popped list reversed, i.e. the
            -- syntactic argument order
            let ops := popped.reverse
            let contiguous : Bool :=
              decide (simdBaseType = TYP_FLOAT) &&
              ((popped.tail.zip popped).all fun pr =>
                caps.areArgumentsContiguous pr.1 pr.2)
            if contiguous then
              let op1 := ops.headD (GenTree.icon 0)
              let addr := GenTree.node .createAddrForSimdCreate retType [op1]
                simdBaseJitType simdSize
              some (.built (.node (.oper GT_IND) retType [addr] CORINFO_TYPE_UNDEF 0), rest)
            else
              some (.built (.node (.hwIntrinsic intrinsic) retType ops
                simdBaseJitType simdSize), rest)
          else none


/-- The `NI_Vector128_CreateScalar` (group) case of the dispatch. -/
def caseOf_Vector128_CreateScalar (intrinsic : NamedIntrinsic) (sig : HWSig) (caps : CompCaps)
    (simdBaseJitType : CorInfoType) (retType : VarType) (simdSize : Nat)
    (simdBaseType : VarType) (stack : List GenTree) :
    Option (EngineResult × List GenTree) :=
  if sig.numArgs ≠ 1 then some (.fatal, stack)
  else if caps.targetX86 ∧ varTypeIsLong simdBaseType then
    match stack.get? 0 with
    | none => none
    | some top =>
      if top.IsIntegralConst = false then some (.declined, stack)
      else pop1Build (fun op1 =>
        .node .simdCreateScalar retType [op1] simdBaseJitType simdSize) stack
  else pop1Build (fun op1 =>
    .node .simdCreateScalar retType [op1] simdBaseJitType simdSize) stack


/-- The `NI_Vector128_CreateScalarUnsafe` (group) case of the dispatch. -/
def caseOf_Vector128_CreateScalarUnsafe (intrinsic : NamedIntrinsic) (sig : HWSig) (caps : CompCaps)
    (simdBaseJitType : CorInfoType) (retType : VarType) (simdSize : Nat)
    (simdBaseType : VarType) (stack : List GenTree) :
    Option (EngineResult × List GenTree) :=
  if sig.numArgs ≠ 1 then some (.fatal, stack)
  else if caps.targetX86 ∧ varTypeIsLong simdBaseType then
    match stack.get? 0 with
    | none => none
    | some top =>
      if top.IsIntegralConst = false then some (.declined, stack)
      else pop1Build (fun op1 =>
        .node .simdCreateScalarUnsafe retType [op1] simdBaseJitType simdSize) stack
  else pop1Build (fun op1 =>
    .node .simdCreateScalarUnsafe retType [op1] simdBaseJitType simdSize) stack


/-- The `NI_Vector128_Divide` (group) case of the dispatch. -/
def caseOf_Vector128_Divide (intrinsic : NamedIntrinsic) (sig : HWSig) (caps : CompCaps)
    (simdBaseJitType : CorInfoType) (retType : VarType) (simdSize : Nat)
    (simdBaseType : VarType) (stack : List GenTree) :
    Option (EngineResult × List GenTree) :=
  if sig.numArgs ≠ 2 then some (.fatal, stack)
  else if varTypeIsFloating simdBaseType = false then some (.declined, stack)
  else
    -- getArgForHWIntrinsic (modelled from the spec: the argument
    -- supplier pops one operand from the expression stack), first
    -- for the second argument, then for the first
    pop2Build (fun op1 op2 =>
      .node (.simdBinOp GT_DIV) retType [op1, op2] simdBaseJitType simdSize) stack


/-- The `NI_Vector128_Dot` (group) case of the dispatch. -/
def caseOf_Vector128_Dot (intrinsic : NamedIntrinsic) (sig : HWSig) (caps : CompCaps)
    (simdBaseJitType : CorInfoType) (retType : VarType) (simdSize : Nat)
    (simdBaseType : VarType) (stack : List GenTree) :
    Option (EngineResult × List GenTree) :=
  if sig.numArgs ≠ 2 then some (.fatal, stack)
  else if varTypeIsByte simdBaseType ∨ varTypeIsLong simdBaseType then
    some (.declined, stack)
  else if simdSize = 32 then
    if varTypeIsFloating simdBaseType = false ∧
        caps.compExactlyDependsOn InstructionSet_AVX2 = false then
      some (.declined, stack)
    else pop2Build (fun op1 op2 =>
      .node .simdDotProd retType [op1, op2] simdBaseJitType simdSize) stack
  else if (simdBaseType = TYP_INT ∨ simdBaseType = TYP_UINT) ∧
      caps.compExactlyDependsOn InstructionSet_SSE41 = false then
    some (.declined, stack)
  else pop2Build (fun op1 op2 =>
    .node .simdDotProd retType [op1, op2] simdBaseJitType simdSize) stack


/-- The `NI_Vector128_Equals` (group) case of the dispatch. -/
def caseOf_Vector128_Equals (intrinsic : NamedIntrinsic) (sig : HWSig) (caps : CompCaps)
    (simdBaseJitType : CorInfoType) (retType : VarType) (simdSize : Nat)
    (simdBaseType : VarType) (stack : List GenTree) :
    Option (EngineResult × List GenTree) :=
  if sig.numArgs ≠ 2 then some (.fatal, stack)
  else if simdSize ≠ 32 ∨ varTypeIsFloating simdBaseType ∨
      caps.compExactlyDependsOn InstructionSet_AVX2 then
    pop2Build (fun op1 op2 =>
      .node (.simdCmpOp GT_EQ) retType [op1, op2] simdBaseJitType simdSize) stack
  else some (.declined, stack)


/-- The `NI_Vector512_EqualsAll` (group) case of the dispatch. -/
def caseOf_Vector512_EqualsAll (intrinsic : NamedIntrinsic) (sig : HWSig) (caps : CompCaps)
    (simdBaseJitType : CorInfoType) (retType : VarType) (simdSize : Nat)
    (simdBaseType : VarType) (stack : List GenTree) :
    Option (EngineResult × List GenTree) :=
  if sig.numArgs ≠ 2 then some (.fatal, stack)
  else pop2Build (fun op1 op2 =>
    .node (.simdCmpOpAll GT_EQ) retType [op1, op2] simdBaseJitType simdSize) stack


/-- The `NI_Vector128_EqualsAll` (group) case of the dispatch. -/
def caseOf_Vector128_EqualsAll (intrinsic : NamedIntrinsic) (sig : HWSig) (caps : CompCaps)
    (simdBaseJitType : CorInfoType) (retType : VarType) (simdSize : Nat)
    (simdBaseType : VarType) (stack : List GenTree) :
    Option (EngineResult × List GenTree) :=
  if sig.numArgs ≠ 2 then some (.fatal, stack)
  else if simdSize ≠ 32 ∨ varTypeIsFloating simdBaseType ∨
      caps.compExactlyDependsOn InstructionSet_AVX2 then
    pop2Build (fun op1 op2 =>
      .node (.simdCmpOpAll GT_EQ) retType [op1, op2] simdBaseJitType simdSize) stack
  else some (.declined, stack)


/-- The `NI_Vector512_EqualsAny` (group) case of the dispatch. -/
def caseOf_Vector512_EqualsAny (intrinsic : NamedIntrinsic) (sig : HWSig) (caps : CompCaps)
    (simdBaseJitType : CorInfoType) (retType : VarType) (simdSize : Nat)
    (simdBaseType : VarType) (stack : List GenTree) :
    Option (EngineResult × List GenTree) :=
  if sig.numArgs ≠ 2 ∨ simdSize ≠ 64 then some (.fatal, stack)
  else pop2Build (fun op1 op2 =>
    .node (.simdCmpOpAny GT_EQ) retType [op1, op2] simdBaseJitType simdSize) stack


/-- The `NI_Vector128_EqualsAny` (group) case of the dispatch. -/
def caseOf_Vector128_EqualsAny (intrinsic : NamedIntrinsic) (sig : HWSig) (caps : CompCaps)
    (simdBaseJitType : CorInfoType) (retType : VarType) (simdSize : Nat)
    (simdBaseType : VarType) (stack : List GenTree) :
    Option (EngineResult × List GenTree) :=
  if sig.numArgs ≠ 2 then some (.fatal, stack)
  else if simdSize ≠ 32 ∨ caps.compExactlyDependsOn InstructionSet_AVX2 then
    pop2Build (fun op1 op2 =>
      .node (.simdCmpOpAny GT_EQ) retType [op1, op2] simdBaseJitType simdSize) stack
  else some (.declined, stack)


/-- The `NI_Vector512_ExtractMostSignificantBits` (group) case of the dispatch. -/
def caseOf_Vector512_ExtractMostSignificantBits (intrinsic : NamedIntrinsic) (sig : HWSig) (caps : CompCaps)
    (simdBaseJitType : CorInfoType) (retType : VarType) (simdSize : Nat)
    (simdBaseType : VarType) (stack : List GenTree) :
    Option (EngineResult × List GenTree) :=
  if caps.targetX86 then some (.declined, stack)
  else if caps.IsBaselineVector512IsaSupported then
    pop1Build (fun op1 =>
      .node (.hwIntrinsic NI_AVX512F_MoveMaskSpecial) retType [op1]
        simdBaseJitType simdSize) stack
  else some (.declined, stack)


/-- The `NI_Vector128_ExtractMostSignificantBits` (group) case of the dispatch. -/
def caseOf_Vector128_ExtractMostSignificantBits (intrinsic : NamedIntrinsic) (sig : HWSig) (caps : CompCaps)
    (simdBaseJitType : CorInfoType) (retType : VarType) (simdSize : Nat)
    (simdBaseType : VarType) (stack : List GenTree) :
    Option (EngineResult × List GenTree) :=
  if sig.numArgs ≠ 1 then some (.fatal, stack)
  else if simdSize ≠ 32 ∨ varTypeIsFloating simdBaseType ∨
      caps.compExactlyDependsOn InstructionSet_AVX2 then
    match simdBaseType with
    | TYP_BYTE | TYP_UBYTE =>
      let moveMaskIntrinsic := if simdSize = 32 then NI_AVX2_MoveMask else NI_SSE2_MoveMask
      pop1Build (fun op1 =>
        .node (.hwIntrinsic moveMaskIntrinsic) retType [op1]
          simdBaseJitType simdSize) stack
    | TYP_SHORT | TYP_USHORT =>
      let simdType := getSIMDTypeForSize simdSize
      let bjByte := if varTypeIsUnsigned simdBaseType then CORINFO_TYPE_UBYTE
        else CORINFO_TYPE_BYTE
      if simdSize = 32 then
        match stack with
        | [] => none
        | op1 :: rest =>
          let op2 := GenTree.vecCon simdType (packSelectLanes simdSize)
          let shuffled := GenTree.node (.hwIntrinsic NI_AVX2_Shuffle) simdType
            [op1, op2] bjByte simdSize
          let simdOtherJitType := if simdBaseType = TYP_UBYTE then CORINFO_TYPE_ULONG
            else CORINFO_TYPE_LONG
          let permuted := GenTree.node (.hwIntrinsic NI_AVX2_Permute4x64) simdType
            [shuffled, .icon 0xD8] simdOtherJitType simdSize
          let lower := GenTree.node .simdGetLower TYP_SIMD16 [permuted] bjByte simdSize
          some (.built (.node (.hwIntrinsic NI_SSE2_MoveMask) retType [lower] bjByte 16),
            rest)
      else if caps.compOpportunisticallyDependsOn InstructionSet_SSSE3 then
        match stack with
        | [] => none
        | op1 :: rest =>
          let op2 := GenTree.vecCon simdType (packSelectLanes simdSize)
          let shuffled := GenTree.node (.hwIntrinsic NI_SSSE3_Shuffle) simdType
            [op1, op2] bjByte simdSize
          some (.built (.node (.hwIntrinsic NI_SSE2_MoveMask) retType [shuffled]
            bjByte simdSize), rest)
      else some (.declined, stack)
    | TYP_INT | TYP_UINT | TYP_FLOAT =>
      let moveMaskIntrinsic := if simdSize = 32 then NI_AVX_MoveMask else NI_SSE_MoveMask
      pop1Build (fun op1 =>
        .node (.hwIntrinsic moveMaskIntrinsic) retType [op1]
          CORINFO_TYPE_FLOAT simdSize) stack
    | TYP_LONG | TYP_ULONG | TYP_DOUBLE =>
      let moveMaskIntrinsic := if simdSize = 32 then NI_AVX_MoveMask else NI_SSE2_MoveMask
      pop1Build (fun op1 =>
        .node (.hwIntrinsic moveMaskIntrinsic) retType [op1]
          CORINFO_TYPE_DOUBLE simdSize) stack
    | _ => some (.fatal, stack)
  else some (.declined, stack)


/-- The `NI_Vector128_Floor` (group) case of the dispatch. -/
def caseOf_Vector128_Floor (intrinsic : NamedIntrinsic) (sig : HWSig) (caps : CompCaps)
    (simdBaseJitType : CorInfoType) (retType : VarType) (simdSize : Nat)
    (simdBaseType : VarType) (stack : List GenTree) :
    Option (EngineResult × List GenTree) :=
  if sig.numArgs ≠ 1 ∨ varTypeIsFloating simdBaseType = false then some (.fatal, stack)
  else if simdSize ≠ 32 ∧ caps.compExactlyDependsOn InstructionSet_SSE41 = false then
    some (.declined, stack)
  else pop1Build (fun op1 => .node .simdFloor retType [op1] simdBaseJitType simdSize) stack


/-- The `NI_Vector128_get_AllBitsSet` (group) case of the dispatch. -/
def caseOf_Vector128_get_AllBitsSet (intrinsic : NamedIntrinsic) (sig : HWSig) (caps : CompCaps)
    (simdBaseJitType : CorInfoType) (retType : VarType) (simdSize : Nat)
    (simdBaseType : VarType) (stack : List GenTree) :
    Option (EngineResult × List GenTree) :=
  if sig.numArgs ≠ 0 then some (.fatal, stack)
  else some (.built (.node .allBitsSetCon retType [] CORINFO_TYPE_UNDEF 0), stack)


/-- The `NI_Vector128_get_One` (group) case of the dispatch. -/
def caseOf_Vector128_get_One (intrinsic : NamedIntrinsic) (sig : HWSig) (caps : CompCaps)
    (simdBaseJitType : CorInfoType) (retType : VarType) (simdSize : Nat)
    (simdBaseType : VarType) (stack : List GenTree) :
    Option (EngineResult × List GenTree) :=
  if sig.numArgs ≠ 0 then some (.fatal, stack)
  else some (.built (.node .oneCon retType [] CORINFO_TYPE_UNDEF 0), stack)


/-- The `NI_Vector128_get_Zero` (group) case of the dispatch. -/
def caseOf_Vector128_get_Zero (intrinsic : NamedIntrinsic) (sig : HWSig) (caps : CompCaps)
    (simdBaseJitType : CorInfoType) (retType : VarType) (simdSize : Nat)
    (simdBaseType : VarType) (stack : List GenTree) :
    Option (EngineResult × List GenTree) :=
  if sig.numArgs ≠ 0 then some (.fatal, stack)
  else some (.built (.node .zeroCon retType [] CORINFO_TYPE_UNDEF 0), stack)


/-- The `NI_Vector128_GetElement` (group) case of the dispatch. -/
def caseOf_Vector128_GetElement (intrinsic : NamedIntrinsic) (sig : HWSig) (caps : CompCaps)
    (simdBaseJitType : CorInfoType) (retType : VarType) (simdSize : Nat)
    (simdBaseType : VarType) (stack : List GenTree) :
    Option (EngineResult × List GenTree) :=
  if sig.numArgs ≠ 2 then some (.fatal, stack)
  else
    match simdBaseType with
    | TYP_BYTE | TYP_UBYTE | TYP_INT | TYP_UINT | TYP_LONG | TYP_ULONG =>
      if caps.compExactlyDependsOn InstructionSet_SSE41 = false then
        some (.declined, stack)
      else pop2Build (fun op1 op2 =>
        .node .simdGetElement retType [op1, op2] simdBaseJitType simdSize) stack
    | TYP_DOUBLE | TYP_FLOAT | TYP_SHORT | TYP_USHORT =>
      pop2Build (fun op1 op2 =>
        .node .simdGetElement retType [op1, op2] simdBaseJitType simdSize) stack
    | _ => some (.fatal, stack)


/-- The `NI_Vector128_GreaterThan` (group) case of the dispatch. -/
def caseOf_Vector128_GreaterThan (intrinsic : NamedIntrinsic) (sig : HWSig) (caps : CompCaps)
    (simdBaseJitType : CorInfoType) (retType : VarType) (simdSize : Nat)
    (simdBaseType : VarType) (stack : List GenTree) :
    Option (EngineResult × List GenTree) :=
  if sig.numArgs ≠ 2 then some (.fatal, stack)
  else if simdSize ≠ 32 ∨ varTypeIsFloating simdBaseType ∨
      caps.compExactlyDependsOn InstructionSet_AVX2 then
    pop2Build (fun op1 op2 =>
      .node (.simdCmpOp GT_GT) retType [op1, op2] simdBaseJitType simdSize) stack
  else some (.declined, stack)


/-- The `NI_Vector128_GreaterThanAll` (group) case of the dispatch. -/
def caseOf_Vector128_GreaterThanAll (intrinsic : NamedIntrinsic) (sig : HWSig) (caps : CompCaps)
    (simdBaseJitType : CorInfoType) (retType : VarType) (simdSize : Nat)
    (simdBaseType : VarType) (stack : List GenTree) :
    Option (EngineResult × List GenTree) :=
  if sig.numArgs ≠ 2 then some (.fatal, stack)
  else if simdSize ≠ 32 ∨ caps.compExactlyDependsOn InstructionSet_AVX2 then
    pop2Build (fun op1 op2 =>
      .node (.simdCmpOpAll GT_GT) retType [op1, op2] simdBaseJitType simdSize) stack
  else some (.declined, stack)


/-- The `NI_Vector128_GreaterThanAny` (group) case of the dispatch. -/
def caseOf_Vector128_GreaterThanAny (intrinsic : NamedIntrinsic) (sig : HWSig) (caps : CompCaps)
    (simdBaseJitType : CorInfoType) (retType : VarType) (simdSize : Nat)
    (simdBaseType : VarType) (stack : List GenTree) :
    Option (EngineResult × List GenTree) :=
  if sig.numArgs ≠ 2 then some (.fatal, stack)
  else if simdSize ≠ 32 ∨ caps.compExactlyDependsOn InstructionSet_AVX2 then
    pop2Build (fun op1 op2 =>
      .node (.simdCmpOpAny GT_GT) retType [op1, op2] simdBaseJitType simdSize) stack
  else some (.declined, stack)


/-- The `NI_Vector128_GreaterThanOrEqual` (group) case of the dispatch. -/
def caseOf_Vector128_GreaterThanOrEqual (intrinsic : NamedIntrinsic) (sig : HWSig) (caps : CompCaps)
    (simdBaseJitType : CorInfoType) (retType : VarType) (simdSize : Nat)
    (simdBaseType : VarType) (stack : List GenTree) :
    Option (EngineResult × List GenTree) :=
  if sig.numArgs ≠ 2 then some (.fatal, stack)
  else if simdSize ≠ 32 ∨ varTypeIsFloating simdBaseType ∨
      caps.compExactlyDependsOn InstructionSet_AVX2 then
    pop2Build (fun op1 op2 =>
      .node (.simdCmpOp GT_GE) retType [op1, op2] simdBaseJitType simdSize) stack
  else some (.declined, stack)


/-- The `NI_Vector128_GreaterThanOrEqualAll` (group) case of the dispatch. -/
def caseOf_Vector128_GreaterThanOrEqualAll (intrinsic : NamedIntrinsic) (sig : HWSig) (caps : CompCaps)
    (simdBaseJitType : CorInfoType) (retType : VarType) (simdSize : Nat)
    (simdBaseType : VarType) (stack : List GenTree) :
    Option (EngineResult × List GenTree) :=
  if sig.numArgs ≠ 2 then some (.fatal, stack)
  else if simdSize ≠ 32 ∨ caps.compExactlyDependsOn InstructionSet_AVX2 then
    pop2Build (fun op1 op2 =>
      .node (.simdCmpOpAll GT_GE) retType [op1, op2] simdBaseJitType simdSize) stack
  else some (.declined, stack)


/-- The `NI_Vector128_GreaterThanOrEqualAny` (group) case of the dispatch. -/
def caseOf_Vector128_GreaterThanOrEqualAny (intrinsic : NamedIntrinsic) (sig : HWSig) (caps : CompCaps)
    (simdBaseJitType : CorInfoType) (retType : VarType) (simdSize : Nat)
    (simdBaseType : VarType) (stack : List GenTree) :
    Option (EngineResult × List GenTree) :=
  if sig.numArgs ≠ 2 then some (.fatal, stack)
  else if simdSize ≠ 32 ∨ caps.compExactlyDependsOn InstructionSet_AVX2 then
    pop2Build (fun op1 op2 =>
      .node (.simdCmpOpAny GT_GE) retType [op1, op2] simdBaseJitType simdSize) stack
  else some (.declined, stack)


/-- The `NI_Vector128_LessThan` (group) case of the dispatch. -/
def caseOf_Vector128_LessThan (intrinsic : NamedIntrinsic) (sig : HWSig) (caps : CompCaps)
    (simdBaseJitType : CorInfoType) (retType : VarType) (simdSize : Nat)
    (simdBaseType : VarType) (stack : List GenTree) :
    Option (EngineResult × List GenTree) :=
  if sig.numArgs ≠ 2 then some (.fatal, stack)
  else if simdSize ≠ 32 ∨ varTypeIsFloating simdBaseType ∨
      caps.compExactlyDependsOn InstructionSet_AVX2 then
    pop2Build (fun op1 op2 =>
      .node (.simdCmpOp GT_LT) retType [op1, op2] simdBaseJitType simdSize) stack
  else some (.declined, stack)


/-- The `NI_Vector128_LessThanAll` (group) case of the dispatch. -/
def caseOf_Vector128_LessThanAll (intrinsic : NamedIntrinsic) (sig : HWSig) (caps : CompCaps)
    (simdBaseJitType : CorInfoType) (retType : VarType) (simdSize : Nat)
    (simdBaseType : VarType) (stack : List GenTree) :
    Option (EngineResult × List GenTree) :=
  if sig.numArgs ≠ 2 then some (.fatal, stack)
  else if simdSize ≠ 32 ∨ caps.compExactlyDependsOn InstructionSet_AVX2 then
    pop2Build (fun op1 op2 =>
      .node (.simdCmpOpAll GT_LT) retType [op1, op2] simdBaseJitType simdSize) stack
  else some (.declined, stack)


/-- The `NI_Vector128_LessThanAny` (group) case of the dispatch. -/
def caseOf_Vector128_LessThanAny (intrinsic : NamedIntrinsic) (sig : HWSig) (caps : CompCaps)
    (simdBaseJitType : CorInfoType) (retType : VarType) (simdSize : Nat)
    (simdBaseType : VarType) (stack : List GenTree) :
    Option (EngineResult × List GenTree) :=
  if sig.numArgs ≠ 2 then some (.fatal, stack)
  else if simdSize ≠ 32 ∨ caps.compExactlyDependsOn InstructionSet_AVX2 then
    pop2Build (fun op1 op2 =>
      .node (.simdCmpOpAny GT_LT) retType [op1, op2] simdBaseJitType simdSize) stack
  else some (.declined, stack)


/-- The `NI_Vector128_LessThanOrEqual` (group) case of the dispatch. -/
def caseOf_Vector128_LessThanOrEqual (intrinsic : NamedIntrinsic) (sig : HWSig) (caps : CompCaps)
    (simdBaseJitType : CorInfoType) (retType : VarType) (simdSize : Nat)
    (simdBaseType : VarType) (stack : List GenTree) :
    Option (EngineResult × List GenTree) :=
  if sig.numArgs ≠ 2 then some (.fatal, stack)
  else if simdSize ≠ 32 ∨ varTypeIsFloating simdBaseType ∨
      caps.compExactlyDependsOn InstructionSet_AVX2 then
    pop2Build (fun op1 op2 =>
      .node (.simdCmpOp GT_LE) retType [op1, op2] simdBaseJitType simdSize) stack
  else some (.declined, stack)


/-- The `NI_Vector128_LessThanOrEqualAll` (group) case of the dispatch. -/
def caseOf_Vector128_LessThanOrEqualAll (intrinsic : NamedIntrinsic) (sig : HWSig) (caps : CompCaps)
    (simdBaseJitType : CorInfoType) (retType : VarType) (simdSize : Nat)
    (simdBaseType : VarType) (stack : List GenTree) :
    Option (EngineResult × List GenTree) :=
  if sig.numArgs ≠ 2 then some (.fatal, stack)
  else if simdSize ≠ 32 ∨ caps.compExactlyDependsOn InstructionSet_AVX2 then
    pop2Build (fun op1 op2 =>
      .node (.simdCmpOpAll GT_LE) retType [op1, op2] simdBaseJitType simdSize) stack
  else some (.declined, stack)


/-- The `NI_Vector128_LessThanOrEqualAny` (group) case of the dispatch. -/
def caseOf_Vector128_LessThanOrEqualAny (intrinsic : NamedIntrinsic) (sig : HWSig) (caps : CompCaps)
    (simdBaseJitType : CorInfoType) (retType : VarType) (simdSize : Nat)
    (simdBaseType : VarType) (stack : List GenTree) :
    Option (EngineResult × List GenTree) :=
  if sig.numArgs ≠ 2 then some (.fatal, stack)
  else if simdSize ≠ 32 ∨ caps.compExactlyDependsOn InstructionSet_AVX2 then
    pop2Build (fun op1 op2 =>
      .node (.simdCmpOpAny GT_LE) retType [op1, op2] simdBaseJitType simdSize) stack
  else some (.declined, stack)


/-- The `NI_SSE_LoadVector128` (group) case of the dispatch. -/
def caseOf_SSE_LoadVector128 (intrinsic : NamedIntrinsic) (sig : HWSig) (caps : CompCaps)
    (simdBaseJitType : CorInfoType) (retType : VarType) (simdSize : Nat)
    (simdBaseType : VarType) (stack : List GenTree) :
    Option (EngineResult × List GenTree) :=
  if sig.numArgs = 2 then
    match stack with
    | op2 :: op1x :: rest =>
      let op1 := stripByrefCast op1x
      let op3 := GenTree.icon (genTypeSize simdBaseType)
      let op2b := GenTree.node (.oper GT_MUL) op2.typeOf [op2, op3] CORINFO_TYPE_UNDEF 0
      let op1b := GenTree.node (.oper GT_ADD) op1.typeOf [op1, op2b] CORINFO_TYPE_UNDEF 0
      some (.built (.node .simdLoad retType [op1b] simdBaseJitType simdSize), rest)
    | _ => none
  else if sig.numArgs = 1 then
    pop1Build (fun op1x =>
      .node .simdLoad retType [stripByrefCast op1x] simdBaseJitType simdSize) stack
  else some (.fatal, stack)


/-- The `NI_Vector128_LoadAligned` (group) case of the dispatch. -/
def caseOf_Vector128_LoadAligned (intrinsic : NamedIntrinsic) (sig : HWSig) (caps : CompCaps)
    (simdBaseJitType : CorInfoType) (retType : VarType) (simdSize : Nat)
    (simdBaseType : VarType) (stack : List GenTree) :
    Option (EngineResult × List GenTree) :=
  if sig.numArgs ≠ 1 then some (.fatal, stack)
  else pop1Build (fun op1x =>
    .node .simdLoadAligned retType [stripByrefCast op1x] simdBaseJitType simdSize) stack


/-- The `NI_Vector128_LoadAlignedNonTemporal` (group) case of the dispatch. -/
def caseOf_Vector128_LoadAlignedNonTemporal (intrinsic : NamedIntrinsic) (sig : HWSig) (caps : CompCaps)
    (simdBaseJitType : CorInfoType) (retType : VarType) (simdSize : Nat)
    (simdBaseType : VarType) (stack : List GenTree) :
    Option (EngineResult × List GenTree) :=
  if sig.numArgs ≠ 1 then some (.fatal, stack)
  else pop1Build (fun op1x =>
    .node .simdLoadNonTemporal retType [stripByrefCast op1x] simdBaseJitType simdSize) stack


/-- The `NI_Vector128_Max` (group) case of the dispatch. -/
def caseOf_Vector128_Max (intrinsic : NamedIntrinsic) (sig : HWSig) (caps : CompCaps)
    (simdBaseJitType : CorInfoType) (retType : VarType) (simdSize : Nat)
    (simdBaseType : VarType) (stack : List GenTree) :
    Option (EngineResult × List GenTree) :=
  if sig.numArgs ≠ 2 then some (.fatal, stack)
  else if simdSize ≠ 32 ∨ varTypeIsFloating simdBaseType ∨
      caps.compExactlyDependsOn InstructionSet_AVX2 then
    pop2Build (fun op1 op2 =>
      .node .simdMax retType [op1, op2] simdBaseJitType simdSize) stack
  else some (.declined, stack)


/-- The `NI_Vector128_Min` (group) case of the dispatch. -/
def caseOf_Vector128_Min (intrinsic : NamedIntrinsic) (sig : HWSig) (caps : CompCaps)
    (simdBaseJitType : CorInfoType) (retType : VarType) (simdSize : Nat)
    (simdBaseType : VarType) (stack : List GenTree) :
    Option (EngineResult × List GenTree) :=
  if sig.numArgs ≠ 2 then some (.fatal, stack)
  else if simdSize ≠ 32 ∨ varTypeIsFloating simdBaseType ∨
      caps.compExactlyDependsOn InstructionSet_AVX2 then
    pop2Build (fun op1 op2 =>
      .node .simdMin retType [op1, op2] simdBaseJitType simdSize) stack
  else some (.declined, stack)


/-- The `NI_Vector128_Multiply` (group) case of the dispatch. -/
def caseOf_Vector128_Multiply (intrinsic : NamedIntrinsic) (sig : HWSig) (caps : CompCaps)
    (simdBaseJitType : CorInfoType) (retType : VarType) (simdSize : Nat)
    (simdBaseType : VarType) (stack : List GenTree) :
    Option (EngineResult × List GenTree) :=
  if sig.numArgs ≠ 2 then some (.fatal, stack)
  else if simdSize = 32 ∧ varTypeIsFloating simdBaseType = false ∧
      caps.compExactlyDependsOn InstructionSet_AVX2 = false then
    some (.declined, stack)
  else if simdBaseType = TYP_BYTE ∨ simdBaseType = TYP_UBYTE then
    some (.declined, stack)
  else if varTypeIsLong simdBaseType then
    if caps.compOpportunisticallyDependsOn InstructionSet_AVX512DQ_VL = false then
      some (.declined, stack)
    else if caps.targetX86 then some (.declined, stack)
    else pop2Build (fun op1 op2 =>
      .node (.simdBinOp GT_MUL) retType [op1, op2] simdBaseJitType simdSize) stack
  else pop2Build (fun op1 op2 =>
    .node (.simdBinOp GT_MUL) retType [op1, op2] simdBaseJitType simdSize) stack


/-- The `NI_Vector128_Narrow` (group) case of the dispatch. -/
def caseOf_Vector128_Narrow (intrinsic : NamedIntrinsic) (sig : HWSig) (caps : CompCaps)
    (simdBaseJitType : CorInfoType) (retType : VarType) (simdSize : Nat)
    (simdBaseType : VarType) (stack : List GenTree) :
    Option (EngineResult × List GenTree) :=
  if sig.numArgs ≠ 2 then some (.fatal, stack)
  else if simdSize ≠ 32 ∨ varTypeIsFloating simdBaseType ∨
      caps.compExactlyDependsOn InstructionSet_AVX2 then
    pop2Build (fun op1 op2 =>
      .node .simdNarrow retType [op1, op2] simdBaseJitType simdSize) stack
  else some (.declined, stack)


/-- The `NI_Vector128_Negate` (group) case of the dispatch. -/
def caseOf_Vector128_Negate (intrinsic : NamedIntrinsic) (sig : HWSig) (caps : CompCaps)
    (simdBaseJitType : CorInfoType) (retType : VarType) (simdSize : Nat)
    (simdBaseType : VarType) (stack : List GenTree) :
    Option (EngineResult × List GenTree) :=
  if sig.numArgs ≠ 1 then some (.fatal, stack)
  else if simdSize ≠ 32 ∨ varTypeIsFloating simdBaseType ∨
      caps.compExactlyDependsOn InstructionSet_AVX2 then
    pop1Build (fun op1 =>
      .node (.simdUnOp GT_NEG) retType [op1] simdBaseJitType simdSize) stack
  else some (.declined, stack)


/-- The `NI_Vector128_OnesComplement` (group) case of the dispatch. -/
def caseOf_Vector128_OnesComplement (intrinsic : NamedIntrinsic) (sig : HWSig) (caps : CompCaps)
    (simdBaseJitType : CorInfoType) (retType : VarType) (simdSize : Nat)
    (simdBaseType : VarType) (stack : List GenTree) :
    Option (EngineResult × List GenTree) :=
  if sig.numArgs ≠ 1 then some (.fatal, stack)
  else pop1Build (fun op1 =>
    .node (.simdUnOp GT_NOT) retType [op1] simdBaseJitType simdSize) stack


/-- The `NI_Vector128_op_Inequality` (group) case of the dispatch. -/
def caseOf_Vector128_op_Inequality (intrinsic : NamedIntrinsic) (sig : HWSig) (caps : CompCaps)
    (simdBaseJitType : CorInfoType) (retType : VarType) (simdSize : Nat)
    (simdBaseType : VarType) (stack : List GenTree) :
    Option (EngineResult × List GenTree) :=
  if sig.numArgs ≠ 2 then some (.fatal, stack)
  else if simdSize ≠ 32 ∨ varTypeIsFloating simdBaseType ∨
      caps.compExactlyDependsOn InstructionSet_AVX2 then
    pop2Build (fun op1 op2 =>
      .node (.simdCmpOpAny GT_NE) retType [op1, op2] simdBaseJitType simdSize) stack
  else some (.declined, stack)


/-- The `NI_Vector512_op_Inequality` (group) case of the dispatch. -/
def caseOf_Vector512_op_Inequality (intrinsic : NamedIntrinsic) (sig : HWSig) (caps : CompCaps)
    (simdBaseJitType : CorInfoType) (retType : VarType) (simdSize : Nat)
    (simdBaseType : VarType) (stack : List GenTree) :
    Option (EngineResult × List GenTree) :=
  if sig.numArgs ≠ 2 then some (.fatal, stack)
  else if caps.IsBaselineVector512IsaSupported then
    pop2Build (fun op1 op2 =>
      .node (.simdCmpOpAny GT_NE) retType [op1, op2] simdBaseJitType simdSize) stack
  else some (.declined, stack)


/-- The `NI_Vector128_op_UnaryPlus` (group) case of the dispatch. -/
def caseOf_Vector128_op_UnaryPlus (intrinsic : NamedIntrinsic) (sig : HWSig) (caps : CompCaps)
    (simdBaseJitType : CorInfoType) (retType : VarType) (simdSize : Nat)
    (simdBaseType : VarType) (stack : List GenTree) :
    Option (EngineResult × List GenTree) :=
  if sig.numArgs ≠ 1 then some (.fatal, stack)
  else pop1Build (fun op1 => op1) stack


/-- The `NI_Vector128_Subtract` (group) case of the dispatch. -/
def caseOf_Vector128_Subtract (intrinsic : NamedIntrinsic) (sig : HWSig) (caps : CompCaps)
    (simdBaseJitType : CorInfoType) (retType : VarType) (simdSize : Nat)
    (simdBaseType : VarType) (stack : List GenTree) :
    Option (EngineResult × List GenTree) :=
  if sig.numArgs ≠ 2 then some (.fatal, stack)
  else if simdSize ≠ 32 ∨ varTypeIsFloating simdBaseType ∨
      caps.compExactlyDependsOn InstructionSet_AVX2 then
    pop2Build (fun op1 op2 =>
      .node (.simdBinOp GT_SUB) retType [op1, op2] simdBaseJitType simdSize) stack
  else some (.declined, stack)


/-- The `NI_Vector128_ShiftLeft` (group) case of the dispatch. -/
def caseOf_Vector128_ShiftLeft (intrinsic : NamedIntrinsic) (sig : HWSig) (caps : CompCaps)
    (simdBaseJitType : CorInfoType) (retType : VarType) (simdSize : Nat)
    (simdBaseType : VarType) (stack : List GenTree) :
    Option (EngineResult × List GenTree) :=
  if sig.numArgs ≠ 2 then some (.fatal, stack)
  else if varTypeIsByte simdBaseType then some (.declined, stack)
  else if simdSize ≠ 32 ∨ caps.compExactlyDependsOn InstructionSet_AVX2 then
    pop2Build (fun op1 op2 =>
      .node (.simdBinOp GT_LSH) retType [op1, op2] simdBaseJitType simdSize) stack
  else some (.declined, stack)


/-- The `NI_Vector128_ShiftRightArithmetic` (group) case of the dispatch. -/
def caseOf_Vector128_ShiftRightArithmetic (intrinsic : NamedIntrinsic) (sig : HWSig) (caps : CompCaps)
    (simdBaseJitType : CorInfoType) (retType : VarType) (simdSize : Nat)
    (simdBaseType : VarType) (stack : List GenTree) :
    Option (EngineResult × List GenTree) :=
  if sig.numArgs ≠ 2 then some (.fatal, stack)
  else if varTypeIsByte simdBaseType then some (.declined, stack)
  else if (varTypeIsLong simdBaseType ∨ simdBaseType = TYP_DOUBLE) ∧
      caps.compOpportunisticallyDependsOn InstructionSet_AVX512F_VL = false then
    some (.declined, stack)
  else if simdSize ≠ 32 ∨ caps.compExactlyDependsOn InstructionSet_AVX2 then
    let op := if varTypeIsUnsigned simdBaseType then GT_RSZ else GT_RSH
    pop2Build (fun op1 op2 =>
      .node (.simdBinOp op) retType [op1, op2] simdBaseJitType simdSize) stack
  else some (.declined, stack)


/-- The `NI_Vector128_ShiftRightLogical` (group) case of the dispatch. -/
def caseOf_Vector128_ShiftRightLogical (intrinsic : NamedIntrinsic) (sig : HWSig) (caps : CompCaps)
    (simdBaseJitType : CorInfoType) (retType : VarType) (simdSize : Nat)
    (simdBaseType : VarType) (stack : List GenTree) :
    Option (EngineResult × List GenTree) :=
  if sig.numArgs ≠ 2 then some (.fatal, stack)
  else if varTypeIsByte simdBaseType then some (.declined, stack)
  else if simdSize ≠ 32 ∨ caps.compExactlyDependsOn InstructionSet_AVX2 then
    pop2Build (fun op1 op2 =>
      .node (.simdBinOp GT_RSZ) retType [op1, op2] simdBaseJitType simdSize) stack
  else some (.declined, stack)


/-- The `NI_Vector128_Shuffle` (group) case of the dispatch. -/
def caseOf_Vector128_Shuffle (intrinsic : NamedIntrinsic) (sig : HWSig) (caps : CompCaps)
    (simdBaseJitType : CorInfoType) (retType : VarType) (simdSize : Nat)
    (simdBaseType : VarType) (stack : List GenTree) :
    Option (EngineResult × List GenTree) :=
  if ¬(sig.numArgs = 2 ∨ sig.numArgs = 3) then some (.fatal, stack)
  else if ¬(simdSize = 16 ∨ simdSize = 32) then some (.fatal, stack)
  else
    match stack.get? 0 with
    | none => none
    | some indices =>
      if indices.IsVectorConst = false then some (.declined, stack)
      else
        let elementSize := genTypeSize simdBaseType
        let elementCount := simdSize / elementSize
        let finish : Option (EngineResult × List GenTree) :=
          if sig.numArgs = 2 then
            pop2Build (fun op1 op2 =>
              .node .simdShuffle retType [op1, op2] simdBaseJitType simdSize) stack
          else some (.declined, stack)
        if simdSize = 32 then
          if caps.compExactlyDependsOn InstructionSet_AVX2 = false then
            some (.declined, stack)
          else if varTypeIsSmallInt simdBaseType then
            if crossLaneDetect indices simdBaseType elementCount then
              some (.declined, stack)
            else finish
          else finish
        else
          if varTypeIsSmallInt simdBaseType ∧
              caps.compExactlyDependsOn InstructionSet_SSSE3 = false then
            some (.declined, stack)
          else finish


/-- The `NI_Vector128_Sqrt` (group) case of the dispatch. -/
def caseOf_Vector128_Sqrt (intrinsic : NamedIntrinsic) (sig : HWSig) (caps : CompCaps)
    (simdBaseJitType : CorInfoType) (retType : VarType) (simdSize : Nat)
    (simdBaseType : VarType) (stack : List GenTree) :
    Option (EngineResult × List GenTree) :=
  if sig.numArgs ≠ 1 then some (.fatal, stack)
  else if varTypeIsFloating simdBaseType then
    pop1Build (fun op1 => .node .simdSqrt retType [op1] simdBaseJitType simdSize) stack
  else some (.declined, stack)


/-- The `NI_SSE_Store` (group) case of the dispatch. -/
def caseOf_SSE_Store (intrinsic : NamedIntrinsic) (sig : HWSig) (caps : CompCaps)
    (simdBaseJitType : CorInfoType) (retType : VarType) (simdSize : Nat)
    (simdBaseType : VarType) (stack : List GenTree) :
    Option (EngineResult × List GenTree) :=
  if sig.numArgs ≠ 2 then some (.fatal, stack)
  else
    match stack with
    | op2 :: op1x :: rest =>
      let op1 := stripByrefCast op1x
      some (.built (.node .simdStore retType [op1, op2] simdBaseJitType simdSize), rest)
    | _ => none


/-- The `NI_Vector128_Store` (group) case of the dispatch. -/
def caseOf_Vector128_Store (intrinsic : NamedIntrinsic) (sig : HWSig) (caps : CompCaps)
    (simdBaseJitType : CorInfoType) (retType : VarType) (simdSize : Nat)
    (simdBaseType : VarType) (stack : List GenTree) :
    Option (EngineResult × List GenTree) :=
  if sig.numArgs = 3 then
    match spillAt 2 stack with
    | op3 :: op2x :: op1v :: rest =>
      let op2 := stripByrefCast op2x
      let op4 := GenTree.icon (genTypeSize simdBaseType)
      let op3b := GenTree.node (.oper GT_MUL) op3.typeOf [op3, op4] CORINFO_TYPE_UNDEF 0
      let op2b := GenTree.node (.oper GT_ADD) op2.typeOf [op2, op3b] CORINFO_TYPE_UNDEF 0
      some (.built (.node .simdStore retType [op2b, op1v] simdBaseJitType simdSize), rest)
    | _ => none
  else if sig.numArgs = 2 then
    match spillAt 1 stack with
    | op2x :: op1v :: rest =>
      let op2 := stripByrefCast op2x
      some (.built (.node .simdStore retType [op2, op1v] simdBaseJitType simdSize), rest)
    | _ => none
  else some (.fatal, stack)


/-- The `NI_Vector128_StoreAligned` (group) case of the dispatch. -/
def caseOf_Vector128_StoreAligned (intrinsic : NamedIntrinsic) (sig : HWSig) (caps : CompCaps)
    (simdBaseJitType : CorInfoType) (retType : VarType) (simdSize : Nat)
    (simdBaseType : VarType) (stack : List GenTree) :
    Option (EngineResult × List GenTree) :=
  if sig.numArgs ≠ 2 then some (.fatal, stack)
  else
    match spillAt 1 stack with
    | op2x :: op1v :: rest =>
      some (.built (.node .simdStoreAligned retType [stripByrefCast op2x, op1v]
        simdBaseJitType simdSize), rest)
    | _ => none


/-- The `NI_Vector128_StoreAlignedNonTemporal` (group) case of the dispatch. -/
def caseOf_Vector128_StoreAlignedNonTemporal (intrinsic : NamedIntrinsic) (sig : HWSig) (caps : CompCaps)
    (simdBaseJitType : CorInfoType) (retType : VarType) (simdSize : Nat)
    (simdBaseType : VarType) (stack : List GenTree) :
    Option (EngineResult × List GenTree) :=
  if sig.numArgs ≠ 2 then some (.fatal, stack)
  else
    match spillAt 1 stack with
    | op2x :: op1v :: rest =>
      some (.built (.node .simdStoreNonTemporal retType [stripByrefCast op2x, op1v]
        simdBaseJitType simdSize), rest)
    | _ => none


/-- The `NI_Vector128_Sum` (group) case of the dispatch. -/
def caseOf_Vector128_Sum (intrinsic : NamedIntrinsic) (sig : HWSig) (caps : CompCaps)
    (simdBaseJitType : CorInfoType) (retType : VarType) (simdSize : Nat)
    (simdBaseType : VarType) (stack : List GenTree) :
    Option (EngineResult × List GenTree) :=
  if sig.numArgs ≠ 1 then some (.fatal, stack)
  else if simdSize = 32 ∧
      caps.compOpportunisticallyDependsOn InstructionSet_AVX2 = false then
    some (.declined, stack)
  else if varTypeIsFloating simdBaseType then
    if caps.compOpportunisticallyDependsOn InstructionSet_SSE3 = false then
      some (.declined, stack)
    else pop1Build (fun op1 =>
      .node .simdSum retType [op1] simdBaseJitType simdSize) stack
  else if caps.compOpportunisticallyDependsOn InstructionSet_SSSE3 = false then
    some (.declined, stack)
  else if varTypeIsByte simdBaseType ∨ varTypeIsLong simdBaseType then
    some (.declined, stack)
  else pop1Build (fun op1 =>
    .node .simdSum retType [op1] simdBaseJitType simdSize) stack


/-- The `NI_Vector128_ToScalar` (group) case of the dispatch. -/
def caseOf_Vector128_ToScalar (intrinsic : NamedIntrinsic) (sig : HWSig) (caps : CompCaps)
    (simdBaseJitType : CorInfoType) (retType : VarType) (simdSize : Nat)
    (simdBaseType : VarType) (stack : List GenTree) :
    Option (EngineResult × List GenTree) :=
  if sig.numArgs ≠ 1 then some (.fatal, stack)
  else if caps.targetX86 ∧ varTypeIsLong simdBaseType then some (.declined, stack)
  else pop1Build (fun op1 =>
    .node (.hwIntrinsic intrinsic) retType [op1] simdBaseJitType simdSize) stack


/-- The `NI_Vector128_ToVector256` (group) case of the dispatch. -/
def caseOf_Vector128_ToVector256 (intrinsic : NamedIntrinsic) (sig : HWSig) (caps : CompCaps)
    (simdBaseJitType : CorInfoType) (retType : VarType) (simdSize : Nat)
    (simdBaseType : VarType) (stack : List GenTree) :
    Option (EngineResult × List GenTree) :=
  if sig.numArgs ≠ 1 then some (.fatal, stack)
  else pop1Build (fun op1 =>
    .node (.hwIntrinsic intrinsic) retType [op1] simdBaseJitType simdSize) stack


/-- The `NI_Vector256_GetLower` (group) case of the dispatch. -/
def caseOf_Vector256_GetLower (intrinsic : NamedIntrinsic) (sig : HWSig) (caps : CompCaps)
    (simdBaseJitType : CorInfoType) (retType : VarType) (simdSize : Nat)
    (simdBaseType : VarType) (stack : List GenTree) :
    Option (EngineResult × List GenTree) :=
  if sig.numArgs ≠ 1 then some (.fatal, stack)
  else pop1Build (fun op1 =>
    .node .simdGetLower retType [op1] simdBaseJitType simdSize) stack


/-- The `NI_Vector256_GetUpper` (group) case of the dispatch. -/
def caseOf_Vector256_GetUpper (intrinsic : NamedIntrinsic) (sig : HWSig) (caps : CompCaps)
    (simdBaseJitType : CorInfoType) (retType : VarType) (simdSize : Nat)
    (simdBaseType : VarType) (stack : List GenTree) :
    Option (EngineResult × List GenTree) :=
  if sig.numArgs ≠ 1 then some (.fatal, stack)
  else pop1Build (fun op1 =>
    .node .simdGetUpper retType [op1] simdBaseJitType simdSize) stack


/-- The `NI_Vector512_GetLower` (group) case of the dispatch. -/
def caseOf_Vector512_GetLower (intrinsic : NamedIntrinsic) (sig : HWSig) (caps : CompCaps)
    (simdBaseJitType : CorInfoType) (retType : VarType) (simdSize : Nat)
    (simdBaseType : VarType) (stack : List GenTree) :
    Option (EngineResult × List GenTree) :=
  if sig.numArgs ≠ 1 then some (.fatal, stack)
  else pop1Build (fun op1 =>
    .node .simdGetLower retType [op1] simdBaseJitType simdSize) stack


/-- The `NI_Vector512_GetUpper` (group) case of the dispatch. -/
def caseOf_Vector512_GetUpper (intrinsic : NamedIntrinsic) (sig : HWSig) (caps : CompCaps)
    (simdBaseJitType : CorInfoType) (retType : VarType) (simdSize : Nat)
    (simdBaseType : VarType) (stack : List GenTree) :
    Option (EngineResult × List GenTree) :=
  if sig.numArgs ≠ 1 then some (.fatal, stack)
  else pop1Build (fun op1 =>
    .node .simdGetUpper retType [op1] simdBaseJitType simdSize) stack


/-- The `NI_Vector128_ToVector512` (group) case of the dispatch. -/
def caseOf_Vector128_ToVector512 (intrinsic : NamedIntrinsic) (sig : HWSig) (caps : CompCaps)
    (simdBaseJitType : CorInfoType) (retType : VarType) (simdSize : Nat)
    (simdBaseType : VarType) (stack : List GenTree) :
    Option (EngineResult × List GenTree) :=
  if sig.numArgs ≠ 1 then some (.fatal, stack)
  else pop1Build (fun op1 =>
    .node (.hwIntrinsic intrinsic) retType [op1] simdBaseJitType simdSize) stack


/-- The `NI_Vector128_WidenLower` (group) case of the dispatch. -/
def caseOf_Vector128_WidenLower (intrinsic : NamedIntrinsic) (sig : HWSig) (caps : CompCaps)
    (simdBaseJitType : CorInfoType) (retType : VarType) (simdSize : Nat)
    (simdBaseType : VarType) (stack : List GenTree) :
    Option (EngineResult × List GenTree) :=
  if sig.numArgs ≠ 1 then some (.fatal, stack)
  else if simdSize ≠ 32 ∨ varTypeIsFloating simdBaseType ∨
      caps.compExactlyDependsOn InstructionSet_AVX2 then
    pop1Build (fun op1 =>
      .node .simdWidenLower retType [op1] simdBaseJitType simdSize) stack
  else some (.declined, stack)


/-- The `NI_Vector128_WidenUpper` (group) case of the dispatch. -/
def caseOf_Vector128_WidenUpper (intrinsic : NamedIntrinsic) (sig : HWSig) (caps : CompCaps)
    (simdBaseJitType : CorInfoType) (retType : VarType) (simdSize : Nat)
    (simdBaseType : VarType) (stack : List GenTree) :
    Option (EngineResult × List GenTree) :=
  if sig.numArgs ≠ 1 then some (.fatal, stack)
  else if simdSize ≠ 32 ∨ varTypeIsFloating simdBaseType ∨
      caps.compExactlyDependsOn InstructionSet_AVX2 then
    pop1Build (fun op1 =>
      .node .simdWidenUpper retType [op1] simdBaseJitType simdSize) stack
  else some (.declined, stack)


/-- The `NI_Vector128_WithElement` (group) case of the dispatch. -/
def caseOf_Vector128_WithElement (intrinsic : NamedIntrinsic) (sig : HWSig) (caps : CompCaps)
    (simdBaseJitType : CorInfoType) (retType : VarType) (simdSize : Nat)
    (simdBaseType : VarType) (stack : List GenTree) :
    Option (EngineResult × List GenTree) :=
  if sig.numArgs ≠ 3 then some (.fatal, stack)
  else
    match stack.get? 1 with
    | none => none
    | some indexOp =>
      if indexOp.OperIsConst = false then some (.declined, stack)
      else
        let imm8 : Int := indexOp.AsIntConIconValue
        let count : Int := ((simdSize / genTypeSize simdBaseType : Nat) : Int)
        if imm8 ≥ count ∨ imm8 < 0 then some (.declined, stack)
        else
          let doPops : Option (EngineResult × List GenTree) :=
            match stack with
            | valueOp :: _ :: vectorOp :: rest =>
              some (.built (.node .simdWithElement retType [vectorOp, indexOp, valueOp]
                simdBaseJitType simdSize), rest)
            | _ => none
          match simdBaseType with
          | TYP_BYTE | TYP_UBYTE | TYP_INT | TYP_UINT =>
            if caps.compExactlyDependsOn InstructionSet_SSE41 = false then
              some (.declined, stack)
            else doPops
          | TYP_LONG | TYP_ULONG =>
            if caps.compExactlyDependsOn InstructionSet_SSE41_X64 = false then
              some (.declined, stack)
            else doPops
          | TYP_DOUBLE | TYP_FLOAT | TYP_SHORT | TYP_USHORT => doPops
          | _ => some (.fatal, stack)


/-- The `NI_Vector256_WithLower` (group) case of the dispatch. -/
def caseOf_Vector256_WithLower (intrinsic : NamedIntrinsic) (sig : HWSig) (caps : CompCaps)
    (simdBaseJitType : CorInfoType) (retType : VarType) (simdSize : Nat)
    (simdBaseType : VarType) (stack : List GenTree) :
    Option (EngineResult × List GenTree) :=
  if sig.numArgs ≠ 2 then some (.fatal, stack)
  else pop2Build (fun op1 op2 =>
    .node .simdWithLower retType [op1, op2] simdBaseJitType simdSize) stack


/-- The `NI_Vector256_WithUpper` (group) case of the dispatch. -/
def caseOf_Vector256_WithUpper (intrinsic : NamedIntrinsic) (sig : HWSig) (caps : CompCaps)
    (simdBaseJitType : CorInfoType) (retType : VarType) (simdSize : Nat)
    (simdBaseType : VarType) (stack : List GenTree) :
    Option (EngineResult × List GenTree) :=
  if sig.numArgs ≠ 2 then some (.fatal, stack)
  else pop2Build (fun op1 op2 =>
    .node .simdWithUpper retType [op1, op2] simdBaseJitType simdSize) stack


/-- The `NI_Vector512_WithLower` (group) case of the dispatch. -/
def caseOf_Vector512_WithLower (intrinsic : NamedIntrinsic) (sig : HWSig) (caps : CompCaps)
    (simdBaseJitType : CorInfoType) (retType : VarType) (simdSize : Nat)
    (simdBaseType : VarType) (stack : List GenTree) :
    Option (EngineResult × List GenTree) :=
  if sig.numArgs ≠ 2 then some (.fatal, stack)
  else pop2Build (fun op1 op2 =>
    .node .simdWithLower retType [op1, op2] simdBaseJitType simdSize) stack


/-- The `NI_Vector512_WithUpper` (group) case of the dispatch. -/
def caseOf_Vector512_WithUpper (intrinsic : NamedIntrinsic) (sig : HWSig) (caps : CompCaps)
    (simdBaseJitType : CorInfoType) (retType : VarType) (simdSize : Nat)
    (simdBaseType : VarType) (stack : List GenTree) :
    Option (EngineResult × List GenTree) :=
  if sig.numArgs ≠ 2 then some (.fatal, stack)
  else pop2Build (fun op1 op2 =>
    .node .simdWithUpper retType [op1, op2] simdBaseJitType simdSize) stack


/-- The `NI_Vector128_Xor` (group) case of the dispatch. -/
def caseOf_Vector128_Xor (intrinsic : NamedIntrinsic) (sig : HWSig) (caps : CompCaps)
    (simdBaseJitType : CorInfoType) (retType : VarType) (simdSize : Nat)
    (simdBaseType : VarType) (stack : List GenTree) :
    Option (EngineResult × List GenTree) :=
  if sig.numArgs ≠ 2 then some (.fatal, stack)
  else pop2Build (fun op1 op2 =>
    .node (.simdBinOp GT_XOR) retType [op1, op2] simdBaseJitType simdSize) stack


/-- The `NI_X86Base_Pause` (group) case of the dispatch. -/
def caseOf_X86Base_Pause (intrinsic : NamedIntrinsic) (sig : HWSig) (caps : CompCaps)
    (simdBaseJitType : CorInfoType) (retType : VarType) (simdSize : Nat)
    (simdBaseType : VarType) (stack : List GenTree) :
    Option (EngineResult × List GenTree) :=
  if sig.numArgs ≠ 0 then some (.fatal, stack)
  else some (.built (.node (.scalarHWIntrinsic intrinsic) TYP_VOID []
    CORINFO_TYPE_UNDEF 0), stack)


/-- The `NI_X86Base_DivRem` (group) case of the dispatch. -/
def caseOf_X86Base_DivRem (intrinsic : NamedIntrinsic) (sig : HWSig) (caps : CompCaps)
    (simdBaseJitType : CorInfoType) (retType : VarType) (simdSize : Nat)
    (simdBaseType : VarType) (stack : List GenTree) :
    Option (EngineResult × List GenTree) :=
  if sig.numArgs ≠ 3 then some (.fatal, stack)
  else pop3Build (fun op1 op2 op3 =>
    .node .assignMultiRegTypeToVar retType
      [.node (.scalarHWIntrinsic intrinsic) retType [op1, op2, op3] simdBaseJitType 0]
      CORINFO_TYPE_UNDEF 0) stack


/-- The `NI_SSE_CompareScalarGreaterThan` (group) case of the dispatch. -/
def caseOf_SSE_CompareScalarGreaterThan (intrinsic : NamedIntrinsic) (sig : HWSig) (caps : CompCaps)
    (simdBaseJitType : CorInfoType) (retType : VarType) (simdSize : Nat)
    (simdBaseType : VarType) (stack : List GenTree) :
    Option (EngineResult × List GenTree) :=
  if sig.numArgs ≠ 2 then some (.fatal, stack)
  else
    let supportsAvx := caps.compOpportunisticallyDependsOn InstructionSet_AVX
    let stack1 := if supportsAvx = false then spillAt 1 stack else stack
    match stack1 with
    | op2 :: op1 :: rest =>
      let bj2 := sig.retTypeSigBaseJitType
      if supportsAvx then
        let comparison := caps.lookupIval intrinsic
        some (.built (.node (.hwIntrinsic NI_AVX_CompareScalar) TYP_SIMD16
          [op1, op2, .icon comparison] bj2 simdSize), rest)
      else
        -- impCloneExpr: the clone is modelled as sharing the tree
        let clonedOp1 := op1
        let r1 := GenTree.node (.hwIntrinsic intrinsic) TYP_SIMD16 [op2, op1]
          bj2 simdSize
        some (.built (.node (.hwIntrinsic NI_SSE_MoveScalar) TYP_SIMD16
          [clonedOp1, r1] bj2 simdSize), rest)
    | _ => none


/-- The `NI_SSE_Prefetch0` (group) case of the dispatch. -/
def caseOf_SSE_Prefetch0 (intrinsic : NamedIntrinsic) (sig : HWSig) (caps : CompCaps)
    (simdBaseJitType : CorInfoType) (retType : VarType) (simdSize : Nat)
    (simdBaseType : VarType) (stack : List GenTree) :
    Option (EngineResult × List GenTree) :=
  if sig.numArgs ≠ 1 then some (.fatal, stack)
  else pop1Build (fun op1 =>
    .node (.hwIntrinsic intrinsic) TYP_VOID [op1] CORINFO_TYPE_UBYTE 0) stack


/-- The `NI_SSE_StoreFence` (group) case of the dispatch. -/
def caseOf_SSE_StoreFence (intrinsic : NamedIntrinsic) (sig : HWSig) (caps : CompCaps)
    (simdBaseJitType : CorInfoType) (retType : VarType) (simdSize : Nat)
    (simdBaseType : VarType) (stack : List GenTree) :
    Option (EngineResult × List GenTree) :=
  if sig.numArgs ≠ 0 then some (.fatal, stack)
  else some (.built (.node (.scalarHWIntrinsic intrinsic) TYP_VOID []
    CORINFO_TYPE_UNDEF 0), stack)


/-- The `NI_SSE2_CompareScalarGreaterThan` (group) case of the dispatch. -/
def caseOf_SSE2_CompareScalarGreaterThan (intrinsic : NamedIntrinsic) (sig : HWSig) (caps : CompCaps)
    (simdBaseJitType : CorInfoType) (retType : VarType) (simdSize : Nat)
    (simdBaseType : VarType) (stack : List GenTree) :
    Option (EngineResult × List GenTree) :=
  if sig.numArgs ≠ 2 then some (.fatal, stack)
  else
    let supportsAvx := caps.compOpportunisticallyDependsOn InstructionSet_AVX
    let stack1 := if supportsAvx = false then spillAt 1 stack else stack
    match stack1 with
    | op2 :: op1 :: rest =>
      if supportsAvx then
        let comparison := caps.lookupIval intrinsic
        some (.built (.node (.hwIntrinsic NI_AVX_CompareScalar) TYP_SIMD16
          [op1, op2, .icon comparison] simdBaseJitType simdSize), rest)
      else
        let clonedOp1 := op1
        let r1 := GenTree.node (.hwIntrinsic intrinsic) TYP_SIMD16 [op2, op1]
          simdBaseJitType simdSize
        some (.built (.node (.hwIntrinsic NI_SSE2_MoveScalar) TYP_SIMD16
          [clonedOp1, r1] simdBaseJitType simdSize), rest)
    | _ => none


/-- The `NI_SSE2_LoadFence` (group) case of the dispatch. -/
def caseOf_SSE2_LoadFence (intrinsic : NamedIntrinsic) (sig : HWSig) (caps : CompCaps)
    (simdBaseJitType : CorInfoType) (retType : VarType) (simdSize : Nat)
    (simdBaseType : VarType) (stack : List GenTree) :
    Option (EngineResult × List GenTree) :=
  if sig.numArgs ≠ 0 then some (.fatal, stack)
  else some (.built (.node (.scalarHWIntrinsic intrinsic) TYP_VOID []
    CORINFO_TYPE_UNDEF 0), stack)


/-- The `NI_SSE2_StoreNonTemporal` (group) case of the dispatch. -/
def caseOf_SSE2_StoreNonTemporal (intrinsic : NamedIntrinsic) (sig : HWSig) (caps : CompCaps)
    (simdBaseJitType : CorInfoType) (retType : VarType) (simdSize : Nat)
    (simdBaseType : VarType) (stack : List GenTree) :
    Option (EngineResult × List GenTree) :=
  if sig.numArgs ≠ 2 then some (.fatal, stack)
  else
    match stack with
    | op2 :: op1 :: rest =>
      some (.built (.node (.hwIntrinsic NI_SSE2_StoreNonTemporal) TYP_VOID
        [op1, op2] sig.arg2JitType 0), rest)
    | _ => none


/-- The `NI_AVX2_PermuteVar8x32` (group) case of the dispatch. -/
def caseOf_AVX2_PermuteVar8x32 (intrinsic : NamedIntrinsic) (sig : HWSig) (caps : CompCaps)
    (simdBaseJitType : CorInfoType) (retType : VarType) (simdSize : Nat)
    (simdBaseType : VarType) (stack : List GenTree) :
    Option (EngineResult × List GenTree) :=
  match spillAt 1 stack with
  | indexVector :: sourceVector :: rest =>
    -- the two operands are deliberately swapped
    some (.built (.node (.hwIntrinsic NI_AVX2_PermuteVar8x32) TYP_SIMD32
      [indexVector, sourceVector] sig.retTypeSigBaseJitType 32), rest)
  | _ => none


/-- The `NI_AVX2_GatherMaskVector128` (group) case of the dispatch. -/
def caseOf_AVX2_GatherMaskVector128 (intrinsic : NamedIntrinsic) (sig : HWSig) (caps : CompCaps)
    (simdBaseJitType : CorInfoType) (retType : VarType) (simdSize : Nat)
    (simdBaseType : VarType) (stack : List GenTree) :
    Option (EngineResult × List GenTree) :=
  if sig.numArgs ≠ 5 then some (.fatal, stack)
  else
    match stack with
    | op5 :: op4 :: op3 :: op2 :: op1 :: rest =>
      some (.built (.node (.hwIntrinsic intrinsic)
        (getSIMDTypeForSize sig.retTypeSigSize) [op1, op2, op3, op4, op5]
        sig.retTypeSigBaseJitType simdSize), rest)
    | _ => none


/-- The `NI_BMI2_ZeroHighBits` (group) case of the dispatch. -/
def caseOf_BMI2_ZeroHighBits (intrinsic : NamedIntrinsic) (sig : HWSig) (caps : CompCaps)
    (simdBaseJitType : CorInfoType) (retType : VarType) (simdSize : Nat)
    (simdBaseType : VarType) (stack : List GenTree) :
    Option (EngineResult × List GenTree) :=
  if sig.numArgs ≠ 2 then some (.fatal, stack)
  else
    match stack with
    | op2 :: op1 :: rest =>
      -- op1 and op2 are swapped to unify the backend code
      some (.built (.node (.scalarHWIntrinsic intrinsic) retType [op2, op1]
        CORINFO_TYPE_UNDEF 0), rest)
    | _ => none


/-- The `NI_BMI1_BitFieldExtract` (group) case of the dispatch. -/
def caseOf_BMI1_BitFieldExtract (intrinsic : NamedIntrinsic) (sig : HWSig) (caps : CompCaps)
    (simdBaseJitType : CorInfoType) (retType : VarType) (simdSize : Nat)
    (simdBaseType : VarType) (stack : List GenTree) :
    Option (EngineResult × List GenTree) :=
  if sig.numArgs = 3 then some (.declined, stack)
  else if sig.numArgs ≠ 2 then some (.fatal, stack)
  else
    match stack with
    | op2 :: op1 :: rest =>
      some (.built (.node (.scalarHWIntrinsic intrinsic) retType [op2, op1]
        CORINFO_TYPE_UNDEF 0), rest)
    | _ => none


/-- One tag per `case` group of the dispatch switch (the constructor
name records the group's first label); `t_default` is the switch's
`default`. -/
inductive CaseTag where
  | t_Vector128_Abs
  | t_Vector128_Add
  | t_Vector128_AndNot
  | t_Vector128_As
  | t_Vector128_AsVector
  | t_Vector128_AsVector2
  | t_Vector128_AsVector128
  | t_Vector256_AsVector
  | t_Vector512_AsVector
  | t_Vector128_BitwiseAnd
  | t_Vector128_BitwiseOr
  | t_Vector128_Ceiling
  | t_Vector128_ConditionalSelect
  | t_Vector128_ConvertToDouble
  | t_Vector128_ConvertToInt32
  | t_Vector128_ConvertToSingle
  | t_Vector128_Create
  | t_Vector128_CreateScalar
  | t_Vector128_CreateScalarUnsafe
  | t_Vector128_Divide
  | t_Vector128_Dot
  | t_Vector128_Equals
  | t_Vector512_EqualsAll
  | t_Vector128_EqualsAll
  | t_Vector512_EqualsAny
  | t_Vector128_EqualsAny
  | t_Vector512_ExtractMostSignificantBits
  | t_Vector128_ExtractMostSignificantBits
  | t_Vector128_Floor
  | t_Vector128_get_AllBitsSet
  | t_Vector128_get_One
  | t_Vector128_get_Zero
  | t_Vector128_GetElement
  | t_Vector128_GreaterThan
  | t_Vector128_GreaterThanAll
  | t_Vector128_GreaterThanAny
  | t_Vector128_GreaterThanOrEqual
  | t_Vector128_GreaterThanOrEqualAll
  | t_Vector128_GreaterThanOrEqualAny
  | t_Vector128_LessThan
  | t_Vector128_LessThanAll
  | t_Vector128_LessThanAny
  | t_Vector128_LessThanOrEqual
  | t_Vector128_LessThanOrEqualAll
  | t_Vector128_LessThanOrEqualAny
  | t_SSE_LoadVector128
  | t_Vector128_LoadAligned
  | t_Vector128_LoadAlignedNonTemporal
  | t_Vector128_Max
  | t_Vector128_Min
  | t_Vector128_Multiply
  | t_Vector128_Narrow
  | t_Vector128_Negate
  | t_Vector128_OnesComplement
  | t_Vector128_op_Inequality
  | t_Vector512_op_Inequality
  | t_Vector128_op_UnaryPlus
  | t_Vector128_Subtract
  | t_Vector128_ShiftLeft
  | t_Vector128_ShiftRightArithmetic
  | t_Vector128_ShiftRightLogical
  | t_Vector128_Shuffle
  | t_Vector128_Sqrt
  | t_SSE_Store
  | t_Vector128_Store
  | t_Vector128_StoreAligned
  | t_Vector128_StoreAlignedNonTemporal
  | t_Vector128_Sum
  | t_Vector128_ToScalar
  | t_Vector128_ToVector256
  | t_Vector256_GetLower
  | t_Vector256_GetUpper
  | t_Vector512_GetLower
  | t_Vector512_GetUpper
  | t_Vector128_ToVector512
  | t_Vector128_WidenLower
  | t_Vector128_WidenUpper
  | t_Vector128_WithElement
  | t_Vector256_WithLower
  | t_Vector256_WithUpper
  | t_Vector512_WithLower
  | t_Vector512_WithUpper
  | t_Vector128_Xor
  | t_X86Base_Pause
  | t_X86Base_DivRem
  | t_SSE_CompareScalarGreaterThan
  | t_SSE_Prefetch0
  | t_SSE_StoreFence
  | t_SSE2_CompareScalarGreaterThan
  | t_SSE2_LoadFence
  | t_SSE2_StoreNonTemporal
  | t_AVX2_PermuteVar8x32
  | t_AVX2_GatherMaskVector128
  | t_BMI2_ZeroHighBits
  | t_BMI1_BitFieldExtract
  | t_default
deriving DecidableEq

/-- The label sets of the dispatch switch: which `case` group an
intrinsic identifier selects. -/
def classify : NamedIntrinsic → CaseTag
  | NI_Vector128_Abs | NI_Vector256_Abs => .t_Vector128_Abs
  | NI_Vector128_Add | NI_Vector256_Add | NI_Vector512_Add
  | NI_Vector128_op_Addition | NI_Vector256_op_Addition | NI_Vector512_op_Addition => .t_Vector128_Add
  | NI_Vector128_AndNot | NI_Vector256_AndNot | NI_Vector512_AndNot => .t_Vector128_AndNot
  | NI_Vector128_As | NI_Vector128_AsByte | NI_Vector128_AsDouble
  | NI_Vector128_AsInt16 | NI_Vector128_AsInt32 | NI_Vector128_AsInt64
  | NI_Vector128_AsNInt | NI_Vector128_AsNUInt | NI_Vector128_AsSByte
  | NI_Vector128_AsSingle | NI_Vector128_AsUInt16 | NI_Vector128_AsUInt32
  | NI_Vector128_AsUInt64 | NI_Vector128_AsVector4
  | NI_Vector256_As | NI_Vector256_AsByte | NI_Vector256_AsDouble
  | NI_Vector256_AsInt16 | NI_Vector256_AsInt32 | NI_Vector256_AsInt64
  | NI_Vector256_AsNInt | NI_Vector256_AsNUInt | NI_Vector256_AsSByte
  | NI_Vector256_AsSingle | NI_Vector256_AsUInt16 | NI_Vector256_AsUInt32
  | NI_Vector256_AsUInt64
  | NI_Vector512_As | NI_Vector512_AsByte | NI_Vector512_AsDouble
  | NI_Vector512_AsInt16 | NI_Vector512_AsInt32 | NI_Vector512_AsInt64
  | NI_Vector512_AsNInt | NI_Vector512_AsNUInt | NI_Vector512_AsSByte
  | NI_Vector512_AsSingle | NI_Vector512_AsUInt16 | NI_Vector512_AsUInt32
  | NI_Vector512_AsUInt64 => .t_Vector128_As
  | NI_Vector128_AsVector => .t_Vector128_AsVector
  | NI_Vector128_AsVector2 | NI_Vector128_AsVector3 => .t_Vector128_AsVector2
  | NI_Vector128_AsVector128 => .t_Vector128_AsVector128
  | NI_Vector256_AsVector | NI_Vector256_AsVector256 => .t_Vector256_AsVector
  | NI_Vector512_AsVector | NI_Vector512_AsVector512 => .t_Vector512_AsVector
  | NI_Vector128_BitwiseAnd | NI_Vector256_BitwiseAnd | NI_Vector512_BitwiseAnd
  | NI_Vector128_op_BitwiseAnd | NI_Vector256_op_BitwiseAnd | NI_Vector512_op_BitwiseAnd => .t_Vector128_BitwiseAnd
  | NI_Vector128_BitwiseOr | NI_Vector256_BitwiseOr | NI_Vector512_BitwiseOr
  | NI_Vector128_op_BitwiseOr | NI_Vector256_op_BitwiseOr | NI_Vector512_op_BitwiseOr => .t_Vector128_BitwiseOr
  | NI_Vector128_Ceiling | NI_Vector256_Ceiling => .t_Vector128_Ceiling
  | NI_Vector128_ConditionalSelect | NI_Vector256_ConditionalSelect => .t_Vector128_ConditionalSelect
  | NI_Vector128_ConvertToDouble | NI_Vector256_ConvertToDouble
  | NI_Vector128_ConvertToInt64 | NI_Vector256_ConvertToInt64
  | NI_Vector128_ConvertToUInt32 | NI_Vector256_ConvertToUInt32
  | NI_Vector128_ConvertToUInt64 | NI_Vector256_ConvertToUInt64 => .t_Vector128_ConvertToDouble
  | NI_Vector128_ConvertToInt32 | NI_Vector256_ConvertToInt32 => .t_Vector128_ConvertToInt32
  | NI_Vector128_ConvertToSingle | NI_Vector256_ConvertToSingle => .t_Vector128_ConvertToSingle
  | NI_Vector128_Create | NI_Vector256_Create | NI_Vector512_Create => .t_Vector128_Create
  | NI_Vector128_CreateScalar | NI_Vector256_CreateScalar | NI_Vector512_CreateScalar => .t_Vector128_CreateScalar
  | NI_Vector128_CreateScalarUnsafe | NI_Vector256_CreateScalarUnsafe
  | NI_Vector512_CreateScalarUnsafe => .t_Vector128_CreateScalarUnsafe
  | NI_Vector128_Divide | NI_Vector256_Divide
  | NI_Vector128_op_Division | NI_Vector256_op_Division => .t_Vector128_Divide
  | NI_Vector128_Dot | NI_Vector256_Dot => .t_Vector128_Dot
  | NI_Vector128_Equals | NI_Vector256_Equals | NI_Vector512_Equals => .t_Vector128_Equals
  | NI_Vector512_EqualsAll | NI_Vector512_op_Equality => .t_Vector512_EqualsAll
  | NI_Vector128_EqualsAll | NI_Vector256_EqualsAll
  | NI_Vector128_op_Equality | NI_Vector256_op_Equality => .t_Vector128_EqualsAll
  | NI_Vector512_EqualsAny => .t_Vector512_EqualsAny
  | NI_Vector128_EqualsAny | NI_Vector256_EqualsAny => .t_Vector128_EqualsAny
  | NI_Vector512_ExtractMostSignificantBits => .t_Vector512_ExtractMostSignificantBits
  | NI_Vector128_ExtractMostSignificantBits | NI_Vector256_ExtractMostSignificantBits => .t_Vector128_ExtractMostSignificantBits
  | NI_Vector128_Floor | NI_Vector256_Floor => .t_Vector128_Floor
  | NI_Vector128_get_AllBitsSet | NI_Vector256_get_AllBitsSet | NI_Vector512_get_AllBitsSet => .t_Vector128_get_AllBitsSet
  | NI_Vector128_get_One | NI_Vector256_get_One | NI_Vector512_get_One => .t_Vector128_get_One
  | NI_Vector128_get_Zero | NI_Vector256_get_Zero | NI_Vector512_get_Zero => .t_Vector128_get_Zero
  | NI_Vector128_GetElement | NI_Vector256_GetElement | NI_Vector512_GetElement => .t_Vector128_GetElement
  | NI_Vector128_GreaterThan | NI_Vector256_GreaterThan => .t_Vector128_GreaterThan
  | NI_Vector128_GreaterThanAll | NI_Vector256_GreaterThanAll => .t_Vector128_GreaterThanAll
  | NI_Vector128_GreaterThanAny | NI_Vector256_GreaterThanAny => .t_Vector128_GreaterThanAny
  | NI_Vector128_GreaterThanOrEqual | NI_Vector256_GreaterThanOrEqual => .t_Vector128_GreaterThanOrEqual
  | NI_Vector128_GreaterThanOrEqualAll | NI_Vector256_GreaterThanOrEqualAll => .t_Vector128_GreaterThanOrEqualAll
  | NI_Vector128_GreaterThanOrEqualAny | NI_Vector256_GreaterThanOrEqualAny => .t_Vector128_GreaterThanOrEqualAny
  | NI_Vector128_LessThan | NI_Vector256_LessThan => .t_Vector128_LessThan
  | NI_Vector128_LessThanAll | NI_Vector256_LessThanAll => .t_Vector128_LessThanAll
  | NI_Vector128_LessThanAny | NI_Vector256_LessThanAny => .t_Vector128_LessThanAny
  | NI_Vector128_LessThanOrEqual | NI_Vector256_LessThanOrEqual => .t_Vector128_LessThanOrEqual
  | NI_Vector128_LessThanOrEqualAll | NI_Vector256_LessThanOrEqualAll => .t_Vector128_LessThanOrEqualAll
  | NI_Vector128_LessThanOrEqualAny | NI_Vector256_LessThanOrEqualAny => .t_Vector128_LessThanOrEqualAny
  | NI_SSE_LoadVector128 | NI_SSE2_LoadVector128 | NI_AVX_LoadVector256
  | NI_AVX512F_LoadVector512 | NI_AVX512BW_LoadVector512
  | NI_Vector128_Load | NI_Vector256_Load | NI_Vector512_Load
  | NI_Vector128_LoadUnsafe | NI_Vector256_LoadUnsafe | NI_Vector512_LoadUnsafe => .t_SSE_LoadVector128
  | NI_Vector128_LoadAligned | NI_Vector256_LoadAligned | NI_Vector512_LoadAligned => .t_Vector128_LoadAligned
  | NI_Vector128_LoadAlignedNonTemporal | NI_Vector256_LoadAlignedNonTemporal
  | NI_Vector512_LoadAlignedNonTemporal => .t_Vector128_LoadAlignedNonTemporal
  | NI_Vector128_Max | NI_Vector256_Max => .t_Vector128_Max
  | NI_Vector128_Min | NI_Vector256_Min => .t_Vector128_Min
  | NI_Vector128_Multiply | NI_Vector256_Multiply
  | NI_Vector128_op_Multiply | NI_Vector256_op_Multiply => .t_Vector128_Multiply
  | NI_Vector128_Narrow | NI_Vector256_Narrow | NI_Vector512_Narrow => .t_Vector128_Narrow
  | NI_Vector128_Negate | NI_Vector256_Negate
  | NI_Vector128_op_UnaryNegation | NI_Vector256_op_UnaryNegation => .t_Vector128_Negate
  | NI_Vector128_OnesComplement | NI_Vector256_OnesComplement | NI_Vector512_OnesComplement
  | NI_Vector128_op_OnesComplement | NI_Vector256_op_OnesComplement
  | NI_Vector512_op_OnesComplement => .t_Vector128_OnesComplement
  | NI_Vector128_op_Inequality | NI_Vector256_op_Inequality => .t_Vector128_op_Inequality
  | NI_Vector512_op_Inequality => .t_Vector512_op_Inequality
  | NI_Vector128_op_UnaryPlus | NI_Vector256_op_UnaryPlus => .t_Vector128_op_UnaryPlus
  | NI_Vector128_Subtract | NI_Vector256_Subtract | NI_Vector512_Subtract
  | NI_Vector128_op_Subtraction | NI_Vector256_op_Subtraction
  | NI_Vector512_op_Subtraction => .t_Vector128_Subtract
  | NI_Vector128_ShiftLeft | NI_Vector256_ShiftLeft
  | NI_Vector128_op_LeftShift | NI_Vector256_op_LeftShift => .t_Vector128_ShiftLeft
  | NI_Vector128_ShiftRightArithmetic | NI_Vector256_ShiftRightArithmetic
  | NI_Vector128_op_RightShift | NI_Vector256_op_RightShift => .t_Vector128_ShiftRightArithmetic
  | NI_Vector128_ShiftRightLogical | NI_Vector256_ShiftRightLogical
  | NI_Vector128_op_UnsignedRightShift | NI_Vector256_op_UnsignedRightShift => .t_Vector128_ShiftRightLogical
  | NI_Vector128_Shuffle | NI_Vector256_Shuffle => .t_Vector128_Shuffle
  | NI_Vector128_Sqrt | NI_Vector256_Sqrt => .t_Vector128_Sqrt
  | NI_SSE_Store | NI_SSE2_Store | NI_AVX_Store | NI_AVX512F_Store | NI_AVX512BW_Store => .t_SSE_Store
  | NI_Vector128_Store | NI_Vector256_Store | NI_Vector512_Store
  | NI_Vector128_StoreUnsafe | NI_Vector256_StoreUnsafe | NI_Vector512_StoreUnsafe => .t_Vector128_Store
  | NI_Vector128_StoreAligned | NI_Vector256_StoreAligned | NI_Vector512_StoreAligned => .t_Vector128_StoreAligned
  | NI_Vector128_StoreAlignedNonTemporal | NI_Vector256_StoreAlignedNonTemporal
  | NI_Vector512_StoreAlignedNonTemporal => .t_Vector128_StoreAlignedNonTemporal
  | NI_Vector128_Sum | NI_Vector256_Sum => .t_Vector128_Sum
  | NI_Vector128_ToScalar | NI_Vector256_ToScalar | NI_Vector512_ToScalar => .t_Vector128_ToScalar
  | NI_Vector128_ToVector256 | NI_Vector128_ToVector256Unsafe => .t_Vector128_ToVector256
  | NI_Vector256_GetLower => .t_Vector256_GetLower
  | NI_Vector256_GetUpper => .t_Vector256_GetUpper
  | NI_Vector512_GetLower => .t_Vector512_GetLower
  | NI_Vector512_GetUpper => .t_Vector512_GetUpper
  | NI_Vector128_ToVector512 | NI_Vector256_ToVector512
  | NI_Vector256_ToVector512Unsafe | NI_Vector512_GetLower128 => .t_Vector128_ToVector512
  | NI_Vector128_WidenLower | NI_Vector256_WidenLower | NI_Vector512_WidenLower => .t_Vector128_WidenLower
  | NI_Vector128_WidenUpper | NI_Vector256_WidenUpper | NI_Vector512_WidenUpper => .t_Vector128_WidenUpper
  | NI_Vector128_WithElement | NI_Vector256_WithElement | NI_Vector512_WithElement => .t_Vector128_WithElement
  | NI_Vector256_WithLower => .t_Vector256_WithLower
  | NI_Vector256_WithUpper => .t_Vector256_WithUpper
  | NI_Vector512_WithLower => .t_Vector512_WithLower
  | NI_Vector512_WithUpper => .t_Vector512_WithUpper
  | NI_Vector128_Xor | NI_Vector256_Xor | NI_Vector512_Xor
  | NI_Vector128_op_ExclusiveOr | NI_Vector256_op_ExclusiveOr
  | NI_Vector512_op_ExclusiveOr => .t_Vector128_Xor
  | NI_X86Base_Pause | NI_X86Serialize_Serialize => .t_X86Base_Pause
  | NI_X86Base_DivRem | NI_X86Base_X64_DivRem => .t_X86Base_DivRem
  | NI_SSE_CompareScalarGreaterThan | NI_SSE_CompareScalarGreaterThanOrEqual
  | NI_SSE_CompareScalarNotGreaterThan | NI_SSE_CompareScalarNotGreaterThanOrEqual => .t_SSE_CompareScalarGreaterThan
  | NI_SSE_Prefetch0 | NI_SSE_Prefetch1 | NI_SSE_Prefetch2 | NI_SSE_PrefetchNonTemporal => .t_SSE_Prefetch0
  | NI_SSE_StoreFence => .t_SSE_StoreFence
  | NI_SSE2_CompareScalarGreaterThan | NI_SSE2_CompareScalarGreaterThanOrEqual
  | NI_SSE2_CompareScalarNotGreaterThan | NI_SSE2_CompareScalarNotGreaterThanOrEqual => .t_SSE2_CompareScalarGreaterThan
  | NI_SSE2_LoadFence | NI_SSE2_MemoryFence => .t_SSE2_LoadFence
  | NI_SSE2_StoreNonTemporal => .t_SSE2_StoreNonTemporal
  | NI_AVX2_PermuteVar8x32 => .t_AVX2_PermuteVar8x32
  | NI_AVX2_GatherMaskVector128 | NI_AVX2_GatherMaskVector256 => .t_AVX2_GatherMaskVector128
  | NI_BMI2_ZeroHighBits | NI_BMI2_X64_ZeroHighBits => .t_BMI2_ZeroHighBits
  | NI_BMI1_BitFieldExtract | NI_BMI1_X64_BitFieldExtract => .t_BMI1_BitFieldExtract
  | _ => .t_default

/-- The `Vector128_AsVector` (group) case of the dispatch (self-re-dispatching). -/
def caseOf_Vector128_AsVector (recur : NamedIntrinsic → HWSig → CompCaps → CorInfoType → VarType → Nat →
      List GenTree → Option (EngineResult × List GenTree))
    (intrinsic : NamedIntrinsic) (sig : HWSig) (caps : CompCaps)
    (simdBaseJitType : CorInfoType) (retType : VarType) (simdSize : Nat)
    (simdBaseType : VarType) (stack : List GenTree) :
    Option (EngineResult × List GenTree) :=
  if sig.numArgs ≠ 1 then some (.fatal, stack)
  else if caps.getSIMDVectorRegisterByteLength = 32 then
    recur NI_Vector128_ToVector256 sig caps simdBaseJitType retType
      simdSize stack
  else if caps.getSIMDVectorRegisterByteLength = 16 then
    pop1Build (fun op1 => op1) stack
  else some (.fatal, stack)


/-- The `Vector128_AsVector128` (group) case of the dispatch (self-re-dispatching). -/
def caseOf_Vector128_AsVector128 (recur : NamedIntrinsic → HWSig → CompCaps → CorInfoType → VarType → Nat →
      List GenTree → Option (EngineResult × List GenTree))
    (intrinsic : NamedIntrinsic) (sig : HWSig) (caps : CompCaps)
    (simdBaseJitType : CorInfoType) (retType : VarType) (simdSize : Nat)
    (simdBaseType : VarType) (stack : List GenTree) :
    Option (EngineResult × List GenTree) :=
  if sig.numArgs ≠ 1 then some (.fatal, stack)
  else
    -- getBaseJitTypeAndSizeOfSIMDType overwrites simdSize with the
    -- first argument's simd byte size
    let simdSize2 := sig.arg1SimdSize
    match getSIMDTypeForSize simdSize2 with
    | TYP_SIMD8 =>
      match stack with
      | [] => none
      | op1 :: rest =>
        match op1 with
        | .vecCon _ lanes =>
          -- the constant's type is retargeted to TYP_SIMD16 and
          -- lanes f32[2], f32[3] are zeroed
          some (.built (.vecCon TYP_SIMD16 [lanes.getD 0 0, lanes.getD 1 0, 0, 0]), rest)
        | _ =>
          let z2 := GenTree.node .zeroCon TYP_FLOAT [] CORINFO_TYPE_UNDEF 0
          let op1a := GenTree.node .simdWithElement retType [op1, .icon 2, z2]
            simdBaseJitType 16
          let z3 := GenTree.node .zeroCon TYP_FLOAT [] CORINFO_TYPE_UNDEF 0
          some (.built (.node .simdWithElement retType [op1a, .icon 3, z3]
            simdBaseJitType 16), rest)
    | TYP_SIMD12 =>
      match stack with
      | [] => none
      | op1 :: rest =>
        match op1 with
        | .vecCon _ lanes =>
          some (.built (.vecCon TYP_SIMD16
            [lanes.getD 0 0, lanes.getD 1 0, lanes.getD 2 0, 0]), rest)
        | _ =>
          let z3 := GenTree.node .zeroCon TYP_FLOAT [] CORINFO_TYPE_UNDEF 0
          some (.built (.node .simdWithElement retType [op1, .icon 3, z3]
            simdBaseJitType 16), rest)
    | TYP_SIMD16 => pop1Build (fun op1 => op1) stack
    | TYP_SIMD32 =>
      recur NI_Vector256_GetLower sig caps simdBaseJitType retType
        simdSize2 stack
    | _ => some (.fatal, stack)


/-- The `Vector256_AsVector` (group) case of the dispatch (self-re-dispatching). -/
def caseOf_Vector256_AsVector (recur : NamedIntrinsic → HWSig → CompCaps → CorInfoType → VarType → Nat →
      List GenTree → Option (EngineResult × List GenTree))
    (intrinsic : NamedIntrinsic) (sig : HWSig) (caps : CompCaps)
    (simdBaseJitType : CorInfoType) (retType : VarType) (simdSize : Nat)
    (simdBaseType : VarType) (stack : List GenTree) :
    Option (EngineResult × List GenTree) :=
  if sig.numArgs ≠ 1 then some (.fatal, stack)
  else if caps.getSIMDVectorRegisterByteLength = 32 then
    pop1Build (fun op1 => op1) stack
  else if caps.getSIMDVectorRegisterByteLength = 16 then
    if caps.compExactlyDependsOn InstructionSet_AVX then
      if intrinsic = NI_Vector256_AsVector then
        recur NI_Vector256_GetLower sig caps simdBaseJitType retType
          simdSize stack
      else
        recur NI_Vector128_ToVector256 sig caps simdBaseJitType retType
          16 stack
    else some (.declined, stack)
  else some (.fatal, stack)


/-- The `Vector512_AsVector` (group) case of the dispatch (self-re-dispatching). -/
def caseOf_Vector512_AsVector (recur : NamedIntrinsic → HWSig → CompCaps → CorInfoType → VarType → Nat →
      List GenTree → Option (EngineResult × List GenTree))
    (intrinsic : NamedIntrinsic) (sig : HWSig) (caps : CompCaps)
    (simdBaseJitType : CorInfoType) (retType : VarType) (simdSize : Nat)
    (simdBaseType : VarType) (stack : List GenTree) :
    Option (EngineResult × List GenTree) :=
  if sig.numArgs ≠ 1 then some (.fatal, stack)
  else if caps.getSIMDVectorRegisterByteLength = 32 then
    if intrinsic = NI_Vector512_AsVector then
      recur NI_Vector512_GetLower sig caps simdBaseJitType retType
        simdSize stack
    else
      recur NI_Vector256_ToVector512 sig caps simdBaseJitType retType
        32 stack
  else if caps.getSIMDVectorRegisterByteLength = 16 then
    if caps.compExactlyDependsOn InstructionSet_AVX512F then
      if intrinsic = NI_Vector512_AsVector then
        recur NI_Vector512_GetLower128 sig caps simdBaseJitType retType
          simdSize stack
      else
        recur NI_Vector128_ToVector512 sig caps simdBaseJitType retType
          16 stack
    else some (.declined, stack)
  else some (.fatal, stack)


/-- The `default` case of the dispatch switch. -/
def caseOf_default (intrinsic : NamedIntrinsic) (sig : HWSig) (caps : CompCaps)
    (simdBaseJitType : CorInfoType) (retType : VarType) (simdSize : Nat)
    (simdBaseType : VarType) (stack : List GenTree) :
    Option (EngineResult × List GenTree) :=
  some (.declined, stack)

/-- The bodies of the dispatch switch, per `case` group.  `recur` is
the engine itself at one less fuel (the self-re-dispatch of the
`AsVector*` cases). -/
def applyCase
    (recur : NamedIntrinsic → HWSig → CompCaps → CorInfoType → VarType → Nat →
      List GenTree → Option (EngineResult × List GenTree))
    (tag : CaseTag) (intrinsic : NamedIntrinsic) (sig : HWSig) (caps : CompCaps)
    (simdBaseJitType : CorInfoType) (retType : VarType) (simdSize : Nat)
    (simdBaseType : VarType) (stack : List GenTree) :
    Option (EngineResult × List GenTree) :=
  match tag with
  | .t_Vector128_Abs =>
    caseOf_Vector128_Abs intrinsic sig caps simdBaseJitType retType simdSize simdBaseType stack
  | .t_Vector128_Add =>
    caseOf_Vector128_Add intrinsic sig caps simdBaseJitType retType simdSize simdBaseType stack
  | .t_Vector128_AndNot =>
    caseOf_Vector128_AndNot intrinsic sig caps simdBaseJitType retType simdSize simdBaseType stack
  | .t_Vector128_As =>
    caseOf_Vector128_As intrinsic sig caps simdBaseJitType retType simdSize simdBaseType stack
  | .t_Vector128_AsVector =>
    caseOf_Vector128_AsVector recur intrinsic sig caps simdBaseJitType retType simdSize simdBaseType stack
  | .t_Vector128_AsVector2 =>
    caseOf_Vector128_AsVector2 intrinsic sig caps simdBaseJitType retType simdSize simdBaseType stack
  | .t_Vector128_AsVector128 =>
    caseOf_Vector128_AsVector128 recur intrinsic sig caps simdBaseJitType retType simdSize simdBaseType stack
  | .t_Vector256_AsVector =>
    caseOf_Vector256_AsVector recur intrinsic sig caps simdBaseJitType retType simdSize simdBaseType stack
  | .t_Vector512_AsVector =>
    caseOf_Vector512_AsVector recur intrinsic sig caps simdBaseJitType retType simdSize simdBaseType stack
  | .t_Vector128_BitwiseAnd =>
    caseOf_Vector128_BitwiseAnd intrinsic sig caps simdBaseJitType retType simdSize simdBaseType stack
  | .t_Vector128_BitwiseOr =>
    caseOf_Vector128_BitwiseOr intrinsic sig caps simdBaseJitType retType simdSize simdBaseType stack
  | .t_Vector128_Ceiling =>
    caseOf_Vector128_Ceiling intrinsic sig caps simdBaseJitType retType simdSize simdBaseType stack
  | .t_Vector128_ConditionalSelect =>
    caseOf_Vector128_ConditionalSelect intrinsic sig caps simdBaseJitType retType simdSize simdBaseType stack
  | .t_Vector128_ConvertToDouble =>
    caseOf_Vector128_ConvertToDouble intrinsic sig caps simdBaseJitType retType simdSize simdBaseType stack
  | .t_Vector128_ConvertToInt32 =>
    caseOf_Vector128_ConvertToInt32 intrinsic sig caps simdBaseJitType retType simdSize simdBaseType stack
  | .t_Vector128_ConvertToSingle =>
    caseOf_Vector128_ConvertToSingle intrinsic sig caps simdBaseJitType retType simdSize simdBaseType stack
  | .t_Vector128_Create =>
    caseOf_Vector128_Create intrinsic sig caps simdBaseJitType retType simdSize simdBaseType stack
  | .t_Vector128_CreateScalar =>
    caseOf_Vector128_CreateScalar intrinsic sig caps simdBaseJitType retType simdSize simdBaseType stack
  | .t_Vector128_CreateScalarUnsafe =>
    caseOf_Vector128_CreateScalarUnsafe intrinsic sig caps simdBaseJitType retType simdSize simdBaseType stack
  | .t_Vector128_Divide =>
    caseOf_Vector128_Divide intrinsic sig caps simdBaseJitType retType simdSize simdBaseType stack
  | .t_Vector128_Dot =>
    caseOf_Vector128_Dot intrinsic sig caps simdBaseJitType retType simdSize simdBaseType stack
  | .t_Vector128_Equals =>
    caseOf_Vector128_Equals intrinsic sig caps simdBaseJitType retType simdSize simdBaseType stack
  | .t_Vector512_EqualsAll =>
    caseOf_Vector512_EqualsAll intrinsic sig caps simdBaseJitType retType simdSize simdBaseType stack
  | .t_Vector128_EqualsAll =>
    caseOf_Vector128_EqualsAll intrinsic sig caps simdBaseJitType retType simdSize simdBaseType stack
  | .t_Vector512_EqualsAny =>
    caseOf_Vector512_EqualsAny intrinsic sig caps simdBaseJitType retType simdSize simdBaseType stack
  | .t_Vector128_EqualsAny =>
    caseOf_Vector128_EqualsAny intrinsic sig caps simdBaseJitType retType simdSize simdBaseType stack
  | .t_Vector512_ExtractMostSignificantBits =>
    caseOf_Vector512_ExtractMostSignificantBits intrinsic sig caps simdBaseJitType retType simdSize simdBaseType stack
  | .t_Vector128_ExtractMostSignificantBits =>
    caseOf_Vector128_ExtractMostSignificantBits intrinsic sig caps simdBaseJitType retType simdSize simdBaseType stack
  | .t_Vector128_Floor =>
    caseOf_Vector128_Floor intrinsic sig caps simdBaseJitType retType simdSize simdBaseType stack
  | .t_Vector128_get_AllBitsSet =>
    caseOf_Vector128_get_AllBitsSet intrinsic sig caps simdBaseJitType retType simdSize simdBaseType stack
  | .t_Vector128_get_One =>
    caseOf_Vector128_get_One intrinsic sig caps simdBaseJitType retType simdSize simdBaseType stack
  | .t_Vector128_get_Zero =>
    caseOf_Vector128_get_Zero intrinsic sig caps simdBaseJitType retType simdSize simdBaseType stack
  | .t_Vector128_GetElement =>
    caseOf_Vector128_GetElement intrinsic sig caps simdBaseJitType retType simdSize simdBaseType stack
  | .t_Vector128_GreaterThan =>
    caseOf_Vector128_GreaterThan intrinsic sig caps simdBaseJitType retType simdSize simdBaseType stack
  | .t_Vector128_GreaterThanAll =>
    caseOf_Vector128_GreaterThanAll intrinsic sig caps simdBaseJitType retType simdSize simdBaseType stack
  | .t_Vector128_GreaterThanAny =>
    caseOf_Vector128_GreaterThanAny intrinsic sig caps simdBaseJitType retType simdSize simdBaseType stack
  | .t_Vector128_GreaterThanOrEqual =>
    caseOf_Vector128_GreaterThanOrEqual intrinsic sig caps simdBaseJitType retType simdSize simdBaseType stack
  | .t_Vector128_GreaterThanOrEqualAll =>
    caseOf_Vector128_GreaterThanOrEqualAll intrinsic sig caps simdBaseJitType retType simdSize simdBaseType stack
  | .t_Vector128_GreaterThanOrEqualAny =>
    caseOf_Vector128_GreaterThanOrEqualAny intrinsic sig caps simdBaseJitType retType simdSize simdBaseType stack
  | .t_Vector128_LessThan =>
    caseOf_Vector128_LessThan intrinsic sig caps simdBaseJitType retType simdSize simdBaseType stack
  | .t_Vector128_LessThanAll =>
    caseOf_Vector128_LessThanAll intrinsic sig caps simdBaseJitType retType simdSize simdBaseType stack
  | .t_Vector128_LessThanAny =>
    caseOf_Vector128_LessThanAny intrinsic sig caps simdBaseJitType retType simdSize simdBaseType stack
  | .t_Vector128_LessThanOrEqual =>
    caseOf_Vector128_LessThanOrEqual intrinsic sig caps simdBaseJitType retType simdSize simdBaseType stack
  | .t_Vector128_LessThanOrEqualAll =>
    caseOf_Vector128_LessThanOrEqualAll intrinsic sig caps simdBaseJitType retType simdSize simdBaseType stack
  | .t_Vector128_LessThanOrEqualAny =>
    caseOf_Vector128_LessThanOrEqualAny intrinsic sig caps simdBaseJitType retType simdSize simdBaseType stack
  | .t_SSE_LoadVector128 =>
    caseOf_SSE_LoadVector128 intrinsic sig caps simdBaseJitType retType simdSize simdBaseType stack
  | .t_Vector128_LoadAligned =>
    caseOf_Vector128_LoadAligned intrinsic sig caps simdBaseJitType retType simdSize simdBaseType stack
  | .t_Vector128_LoadAlignedNonTemporal =>
    caseOf_Vector128_LoadAlignedNonTemporal intrinsic sig caps simdBaseJitType retType simdSize simdBaseType stack
  | .t_Vector128_Max =>
    caseOf_Vector128_Max intrinsic sig caps simdBaseJitType retType simdSize simdBaseType stack
  | .t_Vector128_Min =>
    caseOf_Vector128_Min intrinsic sig caps simdBaseJitType retType simdSize simdBaseType stack
  | .t_Vector128_Multiply =>
    caseOf_Vector128_Multiply intrinsic sig caps simdBaseJitType retType simdSize simdBaseType stack
  | .t_Vector128_Narrow =>
    caseOf_Vector128_Narrow intrinsic sig caps simdBaseJitType retType simdSize simdBaseType stack
  | .t_Vector128_Negate =>
    caseOf_Vector128_Negate intrinsic sig caps simdBaseJitType retType simdSize simdBaseType stack
  | .t_Vector128_OnesComplement =>
    caseOf_Vector128_OnesComplement intrinsic sig caps simdBaseJitType retType simdSize simdBaseType stack
  | .t_Vector128_op_Inequality =>
    caseOf_Vector128_op_Inequality intrinsic sig caps simdBaseJitType retType simdSize simdBaseType stack
  | .t_Vector512_op_Inequality =>
    caseOf_Vector512_op_Inequality intrinsic sig caps simdBaseJitType retType simdSize simdBaseType stack
  | .t_Vector128_op_UnaryPlus =>
    caseOf_Vector128_op_UnaryPlus intrinsic sig caps simdBaseJitType retType simdSize simdBaseType stack
  | .t_Vector128_Subtract =>
    caseOf_Vector128_Subtract intrinsic sig caps simdBaseJitType retType simdSize simdBaseType stack
  | .t_Vector128_ShiftLeft =>
    caseOf_Vector128_ShiftLeft intrinsic sig caps simdBaseJitType retType simdSize simdBaseType stack
  | .t_Vector128_ShiftRightArithmetic =>
    caseOf_Vector128_ShiftRightArithmetic intrinsic sig caps simdBaseJitType retType simdSize simdBaseType stack
  | .t_Vector128_ShiftRightLogical =>
    caseOf_Vector128_ShiftRightLogical intrinsic sig caps simdBaseJitType retType simdSize simdBaseType stack
  | .t_Vector128_Shuffle =>
    caseOf_Vector128_Shuffle intrinsic sig caps simdBaseJitType retType simdSize simdBaseType stack
  | .t_Vector128_Sqrt =>
    caseOf_Vector128_Sqrt intrinsic sig caps simdBaseJitType retType simdSize simdBaseType stack
  | .t_SSE_Store =>
    caseOf_SSE_Store intrinsic sig caps simdBaseJitType retType simdSize simdBaseType stack
  | .t_Vector128_Store =>
    caseOf_Vector128_Store intrinsic sig caps simdBaseJitType retType simdSize simdBaseType stack
  | .t_Vector128_StoreAligned =>
    caseOf_Vector128_StoreAligned intrinsic sig caps simdBaseJitType retType simdSize simdBaseType stack
  | .t_Vector128_StoreAlignedNonTemporal =>
    caseOf_Vector128_StoreAlignedNonTemporal intrinsic sig caps simdBaseJitType retType simdSize simdBaseType stack
  | .t_Vector128_Sum =>
    caseOf_Vector128_Sum intrinsic sig caps simdBaseJitType retType simdSize simdBaseType stack
  | .t_Vector128_ToScalar =>
    caseOf_Vector128_ToScalar intrinsic sig caps simdBaseJitType retType simdSize simdBaseType stack
  | .t_Vector128_ToVector256 =>
    caseOf_Vector128_ToVector256 intrinsic sig caps simdBaseJitType retType simdSize simdBaseType stack
  | .t_Vector256_GetLower =>
    caseOf_Vector256_GetLower intrinsic sig caps simdBaseJitType retType simdSize simdBaseType stack
  | .t_Vector256_GetUpper =>
    caseOf_Vector256_GetUpper intrinsic sig caps simdBaseJitType retType simdSize simdBaseType stack
  | .t_Vector512_GetLower =>
    caseOf_Vector512_GetLower intrinsic sig caps simdBaseJitType retType simdSize simdBaseType stack
  | .t_Vector512_GetUpper =>
    caseOf_Vector512_GetUpper intrinsic sig caps simdBaseJitType retType simdSize simdBaseType stack
  | .t_Vector128_ToVector512 =>
    caseOf_Vector128_ToVector512 intrinsic sig caps simdBaseJitType retType simdSize simdBaseType stack
  | .t_Vector128_WidenLower =>
    caseOf_Vector128_WidenLower intrinsic sig caps simdBaseJitType retType simdSize simdBaseType stack
  | .t_Vector128_WidenUpper =>
    caseOf_Vector128_WidenUpper intrinsic sig caps simdBaseJitType retType simdSize simdBaseType stack
  | .t_Vector128_WithElement =>
    caseOf_Vector128_WithElement intrinsic sig caps simdBaseJitType retType simdSize simdBaseType stack
  | .t_Vector256_WithLower =>
    caseOf_Vector256_WithLower intrinsic sig caps simdBaseJitType retType simdSize simdBaseType stack
  | .t_Vector256_WithUpper =>
    caseOf_Vector256_WithUpper intrinsic sig caps simdBaseJitType retType simdSize simdBaseType stack
  | .t_Vector512_WithLower =>
    caseOf_Vector512_WithLower intrinsic sig caps simdBaseJitType retType simdSize simdBaseType stack
  | .t_Vector512_WithUpper =>
    caseOf_Vector512_WithUpper intrinsic sig caps simdBaseJitType retType simdSize simdBaseType stack
  | .t_Vector128_Xor =>
    caseOf_Vector128_Xor intrinsic sig caps simdBaseJitType retType simdSize simdBaseType stack
  | .t_X86Base_Pause =>
    caseOf_X86Base_Pause intrinsic sig caps simdBaseJitType retType simdSize simdBaseType stack
  | .t_X86Base_DivRem =>
    caseOf_X86Base_DivRem intrinsic sig caps simdBaseJitType retType simdSize simdBaseType stack
  | .t_SSE_CompareScalarGreaterThan =>
    caseOf_SSE_CompareScalarGreaterThan intrinsic sig caps simdBaseJitType retType simdSize simdBaseType stack
  | .t_SSE_Prefetch0 =>
    caseOf_SSE_Prefetch0 intrinsic sig caps simdBaseJitType retType simdSize simdBaseType stack
  | .t_SSE_StoreFence =>
    caseOf_SSE_StoreFence intrinsic sig caps simdBaseJitType retType simdSize simdBaseType stack
  | .t_SSE2_CompareScalarGreaterThan =>
    caseOf_SSE2_CompareScalarGreaterThan intrinsic sig caps simdBaseJitType retType simdSize simdBaseType stack
  | .t_SSE2_LoadFence =>
    caseOf_SSE2_LoadFence intrinsic sig caps simdBaseJitType retType simdSize simdBaseType stack
  | .t_SSE2_StoreNonTemporal =>
    caseOf_SSE2_StoreNonTemporal intrinsic sig caps simdBaseJitType retType simdSize simdBaseType stack
  | .t_AVX2_PermuteVar8x32 =>
    caseOf_AVX2_PermuteVar8x32 intrinsic sig caps simdBaseJitType retType simdSize simdBaseType stack
  | .t_AVX2_GatherMaskVector128 =>
    caseOf_AVX2_GatherMaskVector128 intrinsic sig caps simdBaseJitType retType simdSize simdBaseType stack
  | .t_BMI2_ZeroHighBits =>
    caseOf_BMI2_ZeroHighBits intrinsic sig caps simdBaseJitType retType simdSize simdBaseType stack
  | .t_BMI1_BitFieldExtract =>
    caseOf_BMI1_BitFieldExtract intrinsic sig caps simdBaseJitType retType simdSize simdBaseType stack
  | .t_default =>
    caseOf_default intrinsic sig caps simdBaseJitType retType simdSize simdBaseType stack
/-- `Compiler::impSpecialIntrinsic`, the intrinsic expansion engine, as a
function of the recursion fuel (the source re-enters itself on a handful
of `AsVector*` redirects; the recursion depth is bounded by a small
constant), the intrinsic id, the signature facts, the compilation
oracles, the SIMD base JIT type, the return type, the SIMD size, and the
expression stack.  The `clsHnd`/`method` parameters of the source carry
no information this model reads.  A `some (r, stack')` result is the
terminal outcome `r` together with the residual stack; `none` is an
operand-stack underflow (or fuel exhaustion), which the caller's arity
contract rules out.  Debug-only capability asserts
(`compIsaSupportedDebugOnly`, `IsBaselineVector512IsaSupportedDebugOnly`)
and table-fact asserts are noted in source comments and have no
behavioral counterpart; arity asserts and `unreached()` defaults are
modelled as the `fatal` outcome. -/
def impSpecialIntrinsicF :
    Nat → NamedIntrinsic → HWSig → CompCaps → CorInfoType → VarType → Nat →
    List GenTree → Option (EngineResult × List GenTree)
  | 0, _, _, _, _, _, _, _ => none
  | fuel + 1, intrinsic, sig, caps, simdBaseJitType, retType, simdSize, stack =>
    let simdBaseType : VarType :=
      if simdSize ≠ 0 then jitType2PreciseVarType simdBaseJitType else TYP_UNKNOWN
    if simdSize ≠ 0 ∧ varTypeIsArithmetic simdBaseType = false then
      some (.fatal, stack)
    else
      applyCase (impSpecialIntrinsicF fuel) (classify intrinsic) intrinsic sig caps
        simdBaseJitType retType simdSize simdBaseType stack

/-- The constant payload the `Create` fold reads for an element kind:
`AsDblCon()->DconValue()` for the floating kinds,
`AsIntConCommon()->IntegralValue()` for the integral ones. -/
def argPayload (bt : VarType) (a : GenTree) : Int :=
  if varTypeIsFloating bt then a.AsDblConDconValue else a.AsIntConCommonIntegralValue

/-- The lane writes of `createFoldLoop`, abstracted away from the stack
(used to reason about the loop). -/
def lanesOut (f : GenTree → Int) (len : Nat) : Nat → List GenTree → List Int → List Int
  | _, [], lanes => lanes
  | idx, a :: pre, lanes => lanesOut f len (idx + 1) pre (lanes.set (len - 1 - idx) (f a))

/-- The fixed shift family rewritten by `impNonConstFallback`. -/
def isShiftImmFallback : NamedIntrinsic → Bool
  | NI_SSE2_ShiftLeftLogical
  | NI_SSE2_ShiftRightArithmetic
  | NI_SSE2_ShiftRightLogical
  | NI_AVX2_ShiftLeftLogical
  | NI_AVX2_ShiftRightArithmetic
  | NI_AVX2_ShiftRightLogical
  | NI_AVX512F_ShiftLeftLogical
  | NI_AVX512F_ShiftRightArithmetic
  | NI_AVX512F_ShiftRightLogical
  | NI_AVX512F_VL_ShiftRightArithmetic
  | NI_AVX512BW_ShiftLeftLogical
  | NI_AVX512BW_ShiftRightArithmetic
  | NI_AVX512BW_ShiftRightLogical => true
  | _ => false

/-- A capability oracle with nothing available (witness evaluations). -/
def capsNone : CompCaps :=
  { compExactlyDependsOn := fun _ => false
    compOpportunisticallyDependsOn := fun _ => false
    getSIMDVectorRegisterByteLength := 16
    IsBaselineVector512IsaSupported := false
    targetX86 := false
    areArgumentsContiguous := fun _ _ => false
    lookupIval := fun _ => 0 }

/-- A capability oracle with everything available (witness evaluations). -/
def capsAll : CompCaps :=
  { compExactlyDependsOn := fun _ => true
    compOpportunisticallyDependsOn := fun _ => true
    getSIMDVectorRegisterByteLength := 32
    IsBaselineVector512IsaSupported := true
    targetX86 := false
    areArgumentsContiguous := fun _ _ => false
    lookupIval := fun _ => 0 }

/-- A signature of `n` arguments (witness evaluations). -/
def sigN (n : Nat) : HWSig :=
  { numArgs := n
    arg1SimdSize := 0
    retTypeSigBaseJitType := .CORINFO_TYPE_UNDEF
    retTypeSigSize := 0
    arg2JitType := .CORINFO_TYPE_UNDEF }

/-- A name no branch of `lookupInstructionSet` recognizes. -/
def sampleUnknownName : String := "Xyzzy"

/-- The payload extraction-and-truncation the per-element-kind arms of
the `Create` constant fold apply to each popped argument (the composite
of the six `createFold*` arm functions, selected by the element kind). -/
def laneExtract (bt : VarType) : GenTree → Int :=
  match bt with
  | .TYP_BYTE | .TYP_UBYTE => fun a => castU8 a.AsIntConCommonIntegralValue
  | .TYP_SHORT | .TYP_USHORT => fun a => castU16 a.AsIntConCommonIntegralValue
  | .TYP_INT | .TYP_UINT => fun a => castU32 a.AsIntConCommonIntegralValue
  | .TYP_LONG | .TYP_ULONG => fun a => castU64 a.AsIntConCommonIntegralValue
  | .TYP_FLOAT => fun a => staticCastFloat a.AsDblConDconValue
  | .TYP_DOUBLE => fun a => staticCastDouble a.AsDblConDconValue
  | _ => fun _ => 0

/-! ## Theorems -/

/-- **C2.**  `lookupFloatComparisonModeForSwappedArgs` is an involution on
the 32-value `FloatComparisonMode` enumeration — applying it twice is the
identity — and exactly 16 of the 32 modes are fixed points:
`allFloatComparisonModes` lists the enumeration exhaustively (every mode
is a member) and without repetition, has length 32, and the number of its
members `p` with `swap p = p` is 16. -/
theorem swappedComparison_involution_sixteen_fixed :
    (∀ p, lookupFloatComparisonModeForSwappedArgs
        (lookupFloatComparisonModeForSwappedArgs p) = p) ∧
    allFloatComparisonModes.length = 32 ∧
    allFloatComparisonModes.Nodup ∧
    (∀ p, p ∈ allFloatComparisonModes) ∧
    allFloatComparisonModes.countP
      (fun p => decide (lookupFloatComparisonModeForSwappedArgs p = p)) = 16 := by
  refine ⟨fun p => by cases p <;> rfl, by decide, by decide,
    fun p => by cases p <;> decide, by decide⟩

/-- **C3.**  `lookupImmUpperBound` returns one of exactly {8, 31, 255}
for every intrinsic identifier (hence in particular for those of the
immediate-operand category, whose membership is a table fact outside this
translation unit): 31 exactly for `NI_AVX_Compare` and
`NI_AVX_CompareScalar`, 8 exactly for the identifiers on which
`isAVX2GatherIntrinsic` holds, which are exactly the four gather
intrinsics, and 255 for every other identifier. -/
theorem lookupImmUpperBound_values :
    ∀ id : NamedIntrinsic,
      (lookupImmUpperBound id = 8 ∨ lookupImmUpperBound id = 31 ∨
        lookupImmUpperBound id = 255) ∧
      (lookupImmUpperBound id = 31 ↔ (id = NI_AVX_Compare ∨ id = NI_AVX_CompareScalar)) ∧
      (lookupImmUpperBound id = 8 ↔ isAVX2GatherIntrinsic id = true) ∧
      (isAVX2GatherIntrinsic id = true ↔
        (id = NI_AVX2_GatherVector128 ∨ id = NI_AVX2_GatherVector256 ∨
         id = NI_AVX2_GatherMaskVector128 ∨ id = NI_AVX2_GatherMaskVector256)) := by
  intro id
  cases id <;> exact (by decide)

/-- **C9.**  `lookupInstructionSet` is total over all name strings: for
every name outside the recognized set it returns the
`InstructionSet_ILLEGAL` sentinel with no assertion fired (no throw);
for the one known-but-unsupported direct lookup `"VL"` it returns the
illegal sentinel with the "not yet implemented" fatal-assert flag set —
and that flag fires for `"VL"` and for no other input, so the `"VL"`
outcome is distinguished from a silent misresolution. -/
theorem lookupInstructionSet_total_and_vl_flagged :
    (∀ s : String, recognizedIsaName s = false →
        lookupInstructionSet s = (InstructionSet_ILLEGAL, false)) ∧
    lookupInstructionSet nameVL = (InstructionSet_ILLEGAL, true) ∧
    (∀ s : String, (lookupInstructionSet s).2 = true ↔ s = nameVL) := by
  refine ⟨?_, by rfl, ?_⟩
  · intro s h
    simp only [recognizedIsaName, Bool.or_eq_false_iff, decide_eq_false_iff_not] at h
    unfold lookupInstructionSet
    obtain ⟨h1, h2, h3, h4, h5, h6, h7, h8, h9, h10, h11, h12, h13, h14, h15, h16, h17, h18, h19, h20, h21, h22, h23, h24, h25, h26⟩ := h
    rw [if_neg h1,
      if_neg h2,
      if_neg h3,
      if_neg h4,
      if_neg h5,
      if_neg h6,
      if_neg h7,
      if_neg h8,
      if_neg h9,
      if_neg h10,
      if_neg h11,
      if_neg h12,
      if_neg h13,
      if_neg h14,
      if_neg h15,
      if_neg h16,
      if_neg h17,
      if_neg h18,
      if_neg (ne_true_of_eq_false h19),
      if_neg (ne_true_of_eq_false h20),
      if_neg (ne_true_of_eq_false h21),
      if_neg h22,
      if_neg h23,
      if_neg h24,
      if_neg h25,
      if_neg h26]
  · intro s
    constructor
    · intro h
      unfold lookupInstructionSet at h
      by_cases h1 : s.data = ['A', 'e', 's']
      · rw [if_pos h1] at h
        exact Bool.noConfusion h
      rw [if_neg h1] at h
      by_cases h2 : s.data = ['A', 'v', 'x']
      · rw [if_pos h2] at h
        exact Bool.noConfusion h
      rw [if_neg h2] at h
      by_cases h3 : s.data = ['A', 'v', 'x', '2']
      · rw [if_pos h3] at h
        exact Bool.noConfusion h
      rw [if_neg h3] at h
      by_cases h4 : s.data = ['A', 'v', 'x', '5', '1', '2', 'B', 'W']
      · rw [if_pos h4] at h
        exact Bool.noConfusion h
      rw [if_neg h4] at h
      by_cases h5 : s.data = ['A', 'v', 'x', '5', '1', '2', 'C', 'D']
      · rw [if_pos h5] at h
        exact Bool.noConfusion h
      rw [if_neg h5] at h
      by_cases h6 : s.data = ['A', 'v', 'x', '5', '1', '2', 'D', 'Q']
      · rw [if_pos h6] at h
        exact Bool.noConfusion h
      rw [if_neg h6] at h
      by_cases h7 : s.data = ['A', 'v', 'x', '5', '1', '2', 'F']
      · rw [if_pos h7] at h
        exact Bool.noConfusion h
      rw [if_neg h7] at h
      by_cases h8 : s.data = ['A', 'v', 'x', 'V', 'n', 'n', 'i']
      · rw [if_pos h8] at h
        exact Bool.noConfusion h
      rw [if_neg h8] at h
      by_cases h9 : s.data = ['S', 's', 'e']
      · rw [if_pos h9] at h
        exact Bool.noConfusion h
      rw [if_neg h9] at h
      by_cases h10 : s.data = ['S', 's', 'e', '2']
      · rw [if_pos h10] at h
        exact Bool.noConfusion h
      rw [if_neg h10] at h
      by_cases h11 : s.data = ['S', 's', 'e', '3']
      · rw [if_pos h11] at h
        exact Bool.noConfusion h
      rw [if_neg h11] at h
      by_cases h12 : s.data = ['S', 's', 's', 'e', '3']
      · rw [if_pos h12] at h
        exact Bool.noConfusion h
      rw [if_neg h12] at h
      by_cases h13 : s.data = ['S', 's', 'e', '4', '1']
      · rw [if_pos h13] at h
        exact Bool.noConfusion h
      rw [if_neg h13] at h
      by_cases h14 : s.data = ['S', 's', 'e', '4', '2']
      · rw [if_pos h14] at h
        exact Bool.noConfusion h
      rw [if_neg h14] at h
      by_cases h15 : s.data = ['B', 'm', 'i', '1']
      · rw [if_pos h15] at h
        exact Bool.noConfusion h
      rw [if_neg h15] at h
      by_cases h16 : s.data = ['B', 'm', 'i', '2']
      · rw [if_pos h16] at h
        exact Bool.noConfusion h
      rw [if_neg h16] at h
      by_cases h17 : s.data = ['P', 'c', 'l', 'm', 'u', 'l', 'q', 'd', 'q']
      · rw [if_pos h17] at h
        exact Bool.noConfusion h
      rw [if_neg h17] at h
      by_cases h18 : s.data = ['P', 'o', 'p', 'c', 'n', 't']
      · rw [if_pos h18] at h
        exact Bool.noConfusion h
      rw [if_neg h18] at h
      by_cases h19 : listStartsWith strVector128data s.data
      · rw [if_pos h19] at h
        exact Bool.noConfusion h
      rw [if_neg h19] at h
      by_cases h20 : listStartsWith strVector256data s.data
      · rw [if_pos h20] at h
        exact Bool.noConfusion h
      rw [if_neg h20] at h
      by_cases h21 : listStartsWith strVector512data s.data
      · rw [if_pos h21] at h
        exact Bool.noConfusion h
      rw [if_neg h21] at h
      by_cases h22 : s.data = ['V', 'L']
      · rw [if_pos h22] at h
        cases s with
        | mk data => exact congrArg String.mk h22
      rw [if_neg h22] at h
      by_cases h23 : s.data = ['F', 'm', 'a']
      · rw [if_pos h23] at h
        exact Bool.noConfusion h
      rw [if_neg h23] at h
      by_cases h24 : s.data = ['L', 'z', 'c', 'n', 't']
      · rw [if_pos h24] at h
        exact Bool.noConfusion h
      rw [if_neg h24] at h
      by_cases h25 : s.data = ['X', '8', '6', 'B', 'a', 's', 'e']
      · rw [if_pos h25] at h
        exact Bool.noConfusion h
      rw [if_neg h25] at h
      by_cases h26 : s.data = ['X', '8', '6', 'S', 'e', 'r', 'i', 'a', 'l', 'i', 'z', 'e']
      · rw [if_pos h26] at h
        exact Bool.noConfusion h
      rw [if_neg h26] at h
      exact Bool.noConfusion h
    · rintro rfl
      rfl

/-- Witness for the unrecognized-name half of C9, at the concrete name
`"Xyzzy"`. -/
theorem lookupInstructionSet_total_and_vl_flagged_witness :
    recognizedIsaName sampleUnknownName = false ∧
    lookupInstructionSet sampleUnknownName = (InstructionSet_ILLEGAL, false) :=
  ⟨by decide, lookupInstructionSet_total_and_vl_flagged.1 sampleUnknownName (by decide)⟩

/-- **C7.**  `impNonConstFallback`: for every intrinsic in the fixed
shift family, with the shift count on top of the stack and the vector
operand below it, the function first spills the side effects of the
second-from-top stack entry, pops the two operands, and returns the
original shift intrinsic re-issued with the second operand replaced by a
128-bit `ConvertScalarToVector128Int32` node over the popped scalar
count (exactly two constructed nodes); for every intrinsic outside the
fixed family it returns the null sentinel and leaves the stack as
found. -/
theorem impNonConstFallback_shift_family_spec :
    ∀ (intrinsic : NamedIntrinsic) (simdType : VarType) (bj : CorInfoType),
      (isShiftImmFallback intrinsic = true →
        ∀ (cnt vec : GenTree) (rest : List GenTree),
          impNonConstFallback intrinsic simdType bj (cnt :: vec :: rest) =
            some (some (GenTree.node (.hwIntrinsic intrinsic) simdType
              [spillOne vec,
               GenTree.node (.hwIntrinsic NI_SSE2_ConvertScalarToVector128Int32)
                 TYP_SIMD16 [cnt] CORINFO_TYPE_INT 16]
              bj (genTypeSize simdType)), rest)) ∧
      (isShiftImmFallback intrinsic = false →
        ∀ stack : List GenTree,
          impNonConstFallback intrinsic simdType bj stack = some (none, stack)) := by
  intro intrinsic simdType bj
  cases intrinsic <;>
    exact ⟨fun h cnt vec rest => by first | rfl | exact Bool.noConfusion h,
           fun h stack => by first | rfl | exact Bool.noConfusion h⟩

/-- Witness for C7: the fallback applied to `NI_SSE2_ShiftLeftLogical`
with a non-constant count over a side-effect-free vector operand. -/
theorem impNonConstFallback_shift_family_spec_witness :
    isShiftImmFallback NI_SSE2_ShiftLeftLogical = true ∧
    impNonConstFallback NI_SSE2_ShiftLeftLogical TYP_SIMD16 CORINFO_TYPE_INT
      [GenTree.other 0 TYP_INT false, GenTree.other 1 TYP_SIMD16 true] =
      some (some (GenTree.node (.hwIntrinsic NI_SSE2_ShiftLeftLogical) TYP_SIMD16
        [spillOne (GenTree.other 1 TYP_SIMD16 true),
         GenTree.node (.hwIntrinsic NI_SSE2_ConvertScalarToVector128Int32)
           TYP_SIMD16 [GenTree.other 0 TYP_INT false] CORINFO_TYPE_INT 16]
        CORINFO_TYPE_INT 16), []) :=
  ⟨rfl, (impNonConstFallback_shift_family_spec NI_SSE2_ShiftLeftLogical TYP_SIMD16
      CORINFO_TYPE_INT).1 rfl (GenTree.other 0 TYP_INT false)
      (GenTree.other 1 TYP_SIMD16 true) []⟩

/-- One unfolding step of the engine at positive fuel: the top
arithmetic-base-type assert, then the dispatch. -/
theorem engine_step (fuel : Nat) (i : NamedIntrinsic) (sig : HWSig) (caps : CompCaps)
    (bj : CorInfoType) (rt : VarType) (sz : Nat) (stack : List GenTree) :
    impSpecialIntrinsicF (fuel + 1) i sig caps bj rt sz stack =
      (if sz ≠ 0 ∧ varTypeIsArithmetic
          (if sz ≠ 0 then jitType2PreciseVarType bj else .TYP_UNKNOWN) = false
       then some (.fatal, stack)
       else applyCase (impSpecialIntrinsicF fuel) (classify i) i sig caps bj rt sz
         (if sz ≠ 0 then jitType2PreciseVarType bj else .TYP_UNKNOWN) stack) := rfl

theorem applyCase_t_Vector128_Abs (recur : NamedIntrinsic → HWSig → CompCaps → CorInfoType →
      VarType → Nat → List GenTree → Option (EngineResult × List GenTree))
    (i : NamedIntrinsic) (sig : HWSig) (caps : CompCaps) (bj : CorInfoType)
    (rt : VarType) (sz : Nat) (bt : VarType) (stack : List GenTree) :
    applyCase recur CaseTag.t_Vector128_Abs i sig caps bj rt sz bt stack =
      caseOf_Vector128_Abs i sig caps bj rt sz bt stack := rfl

theorem applyCase_t_Vector128_Add (recur : NamedIntrinsic → HWSig → CompCaps → CorInfoType →
      VarType → Nat → List GenTree → Option (EngineResult × List GenTree))
    (i : NamedIntrinsic) (sig : HWSig) (caps : CompCaps) (bj : CorInfoType)
    (rt : VarType) (sz : Nat) (bt : VarType) (stack : List GenTree) :
    applyCase recur CaseTag.t_Vector128_Add i sig caps bj rt sz bt stack =
      caseOf_Vector128_Add i sig caps bj rt sz bt stack := rfl

theorem applyCase_t_Vector128_AndNot (recur : NamedIntrinsic → HWSig → CompCaps → CorInfoType →
      VarType → Nat → List GenTree → Option (EngineResult × List GenTree))
    (i : NamedIntrinsic) (sig : HWSig) (caps : CompCaps) (bj : CorInfoType)
    (rt : VarType) (sz : Nat) (bt : VarType) (stack : List GenTree) :
    applyCase recur CaseTag.t_Vector128_AndNot i sig caps bj rt sz bt stack =
      caseOf_Vector128_AndNot i sig caps bj rt sz bt stack := rfl

theorem applyCase_t_Vector128_As (recur : NamedIntrinsic → HWSig → CompCaps → CorInfoType →
      VarType → Nat → List GenTree → Option (EngineResult × List GenTree))
    (i : NamedIntrinsic) (sig : HWSig) (caps : CompCaps) (bj : CorInfoType)
    (rt : VarType) (sz : Nat) (bt : VarType) (stack : List GenTree) :
    applyCase recur CaseTag.t_Vector128_As i sig caps bj rt sz bt stack =
      caseOf_Vector128_As i sig caps bj rt sz bt stack := rfl

theorem applyCase_t_Vector128_AsVector (recur : NamedIntrinsic → HWSig → CompCaps → CorInfoType →
      VarType → Nat → List GenTree → Option (EngineResult × List GenTree))
    (i : NamedIntrinsic) (sig : HWSig) (caps : CompCaps) (bj : CorInfoType)
    (rt : VarType) (sz : Nat) (bt : VarType) (stack : List GenTree) :
    applyCase recur CaseTag.t_Vector128_AsVector i sig caps bj rt sz bt stack =
      caseOf_Vector128_AsVector recur i sig caps bj rt sz bt stack := rfl

theorem applyCase_t_Vector128_AsVector2 (recur : NamedIntrinsic → HWSig → CompCaps → CorInfoType →
      VarType → Nat → List GenTree → Option (EngineResult × List GenTree))
    (i : NamedIntrinsic) (sig : HWSig) (caps : CompCaps) (bj : CorInfoType)
    (rt : VarType) (sz : Nat) (bt : VarType) (stack : List GenTree) :
    applyCase recur CaseTag.t_Vector128_AsVector2 i sig caps bj rt sz bt stack =
      caseOf_Vector128_AsVector2 i sig caps bj rt sz bt stack := rfl

theorem applyCase_t_Vector128_AsVector128 (recur : NamedIntrinsic → HWSig → CompCaps → CorInfoType →
      VarType → Nat → List GenTree → Option (EngineResult × List GenTree))
    (i : NamedIntrinsic) (sig : HWSig) (caps : CompCaps) (bj : CorInfoType)
    (rt : VarType) (sz : Nat) (bt : VarType) (stack : List GenTree) :
    applyCase recur CaseTag.t_Vector128_AsVector128 i sig caps bj rt sz bt stack =
      caseOf_Vector128_AsVector128 recur i sig caps bj rt sz bt stack := rfl

theorem applyCase_t_Vector256_AsVector (recur : NamedIntrinsic → HWSig → CompCaps → CorInfoType →
      VarType → Nat → List GenTree → Option (EngineResult × List GenTree))
    (i : NamedIntrinsic) (sig : HWSig) (caps : CompCaps) (bj : CorInfoType)
    (rt : VarType) (sz : Nat) (bt : VarType) (stack : List GenTree) :
    applyCase recur CaseTag.t_Vector256_AsVector i sig caps bj rt sz bt stack =
      caseOf_Vector256_AsVector recur i sig caps bj rt sz bt stack := rfl

theorem applyCase_t_Vector512_AsVector (recur : NamedIntrinsic → HWSig → CompCaps → CorInfoType →
      VarType → Nat → List GenTree → Option (EngineResult × List GenTree))
    (i : NamedIntrinsic) (sig : HWSig) (caps : CompCaps) (bj : CorInfoType)
    (rt : VarType) (sz : Nat) (bt : VarType) (stack : List GenTree) :
    applyCase recur CaseTag.t_Vector512_AsVector i sig caps bj rt sz bt stack =
      caseOf_Vector512_AsVector recur i sig caps bj rt sz bt stack := rfl

theorem applyCase_t_Vector128_BitwiseAnd (recur : NamedIntrinsic → HWSig → CompCaps → CorInfoType →
      VarType → Nat → List GenTree → Option (EngineResult × List GenTree))
    (i : NamedIntrinsic) (sig : HWSig) (caps : CompCaps) (bj : CorInfoType)
    (rt : VarType) (sz : Nat) (bt : VarType) (stack : List GenTree) :
    applyCase recur CaseTag.t_Vector128_BitwiseAnd i sig caps bj rt sz bt stack =
      caseOf_Vector128_BitwiseAnd i sig caps bj rt sz bt stack := rfl

theorem applyCase_t_Vector128_BitwiseOr (recur : NamedIntrinsic → HWSig → CompCaps → CorInfoType →
      VarType → Nat → List GenTree → Option (EngineResult × List GenTree))
    (i : NamedIntrinsic) (sig : HWSig) (caps : CompCaps) (bj : CorInfoType)
    (rt : VarType) (sz : Nat) (bt : VarType) (stack : List GenTree) :
    applyCase recur CaseTag.t_Vector128_BitwiseOr i sig caps bj rt sz bt stack =
      caseOf_Vector128_BitwiseOr i sig caps bj rt sz bt stack := rfl

theorem applyCase_t_Vector128_Ceiling (recur : NamedIntrinsic → HWSig → CompCaps → CorInfoType →
      VarType → Nat → List GenTree → Option (EngineResult × List GenTree))
    (i : NamedIntrinsic) (sig : HWSig) (caps : CompCaps) (bj : CorInfoType)
    (rt : VarType) (sz : Nat) (bt : VarType) (stack : List GenTree) :
    applyCase recur CaseTag.t_Vector128_Ceiling i sig caps bj rt sz bt stack =
      caseOf_Vector128_Ceiling i sig caps bj rt sz bt stack := rfl

theorem applyCase_t_Vector128_ConditionalSelect (recur : NamedIntrinsic → HWSig → CompCaps → CorInfoType →
      VarType → Nat → List GenTree → Option (EngineResult × List GenTree))
    (i : NamedIntrinsic) (sig : HWSig) (caps : CompCaps) (bj : CorInfoType)
    (rt : VarType) (sz : Nat) (bt : VarType) (stack : List GenTree) :
    applyCase recur CaseTag.t_Vector128_ConditionalSelect i sig caps bj rt sz bt stack =
      caseOf_Vector128_ConditionalSelect i sig caps bj rt sz bt stack := rfl

theorem applyCase_t_Vector128_ConvertToDouble (recur : NamedIntrinsic → HWSig → CompCaps → CorInfoType →
      VarType → Nat → List GenTree → Option (EngineResult × List GenTree))
    (i : NamedIntrinsic) (sig : HWSig) (caps : CompCaps) (bj : CorInfoType)
    (rt : VarType) (sz : Nat) (bt : VarType) (stack : List GenTree) :
    applyCase recur CaseTag.t_Vector128_ConvertToDouble i sig caps bj rt sz bt stack =
      caseOf_Vector128_ConvertToDouble i sig caps bj rt sz bt stack := rfl

theorem applyCase_t_Vector128_ConvertToInt32 (recur : NamedIntrinsic → HWSig → CompCaps → CorInfoType →
      VarType → Nat → List GenTree → Option (EngineResult × List GenTree))
    (i : NamedIntrinsic) (sig : HWSig) (caps : CompCaps) (bj : CorInfoType)
    (rt : VarType) (sz : Nat) (bt : VarType) (stack : List GenTree) :
    applyCase recur CaseTag.t_Vector128_ConvertToInt32 i sig caps bj rt sz bt stack =
      caseOf_Vector128_ConvertToInt32 i sig caps bj rt sz bt stack := rfl

theorem applyCase_t_Vector128_ConvertToSingle (recur : NamedIntrinsic → HWSig → CompCaps → CorInfoType →
      VarType → Nat → List GenTree → Option (EngineResult × List GenTree))
    (i : NamedIntrinsic) (sig : HWSig) (caps : CompCaps) (bj : CorInfoType)
    (rt : VarType) (sz : Nat) (bt : VarType) (stack : List GenTree) :
    applyCase recur CaseTag.t_Vector128_ConvertToSingle i sig caps bj rt sz bt stack =
      caseOf_Vector128_ConvertToSingle i sig caps bj rt sz bt stack := rfl

theorem applyCase_t_Vector128_Create (recur : NamedIntrinsic → HWSig → CompCaps → CorInfoType →
      VarType → Nat → List GenTree → Option (EngineResult × List GenTree))
    (i : NamedIntrinsic) (sig : HWSig) (caps : CompCaps) (bj : CorInfoType)
    (rt : VarType) (sz : Nat) (bt : VarType) (stack : List GenTree) :
    applyCase recur CaseTag.t_Vector128_Create i sig caps bj rt sz bt stack =
      caseOf_Vector128_Create i sig caps bj rt sz bt stack := rfl

theorem applyCase_t_Vector128_CreateScalar (recur : NamedIntrinsic → HWSig → CompCaps → CorInfoType →
      VarType → Nat → List GenTree → Option (EngineResult × List GenTree))
    (i : NamedIntrinsic) (sig : HWSig) (caps : CompCaps) (bj : CorInfoType)
    (rt : VarType) (sz : Nat) (bt : VarType) (stack : List GenTree) :
    applyCase recur CaseTag.t_Vector128_CreateScalar i sig caps bj rt sz bt stack =
      caseOf_Vector128_CreateScalar i sig caps bj rt sz bt stack := rfl

theorem applyCase_t_Vector128_CreateScalarUnsafe (recur : NamedIntrinsic → HWSig → CompCaps → CorInfoType →
      VarType → Nat → List GenTree → Option (EngineResult × List GenTree))
    (i : NamedIntrinsic) (sig : HWSig) (caps : CompCaps) (bj : CorInfoType)
    (rt : VarType) (sz : Nat) (bt : VarType) (stack : List GenTree) :
    applyCase recur CaseTag.t_Vector128_CreateScalarUnsafe i sig caps bj rt sz bt stack =
      caseOf_Vector128_CreateScalarUnsafe i sig caps bj rt sz bt stack := rfl

theorem applyCase_t_Vector128_Divide (recur : NamedIntrinsic → HWSig → CompCaps → CorInfoType →
      VarType → Nat → List GenTree → Option (EngineResult × List GenTree))
    (i : NamedIntrinsic) (sig : HWSig) (caps : CompCaps) (bj : CorInfoType)
    (rt : VarType) (sz : Nat) (bt : VarType) (stack : List GenTree) :
    applyCase recur CaseTag.t_Vector128_Divide i sig caps bj rt sz bt stack =
      caseOf_Vector128_Divide i sig caps bj rt sz bt stack := rfl

theorem applyCase_t_Vector128_Dot (recur : NamedIntrinsic → HWSig → CompCaps → CorInfoType →
      VarType → Nat → List GenTree → Option (EngineResult × List GenTree))
    (i : NamedIntrinsic) (sig : HWSig) (caps : CompCaps) (bj : CorInfoType)
    (rt : VarType) (sz : Nat) (bt : VarType) (stack : List GenTree) :
    applyCase recur CaseTag.t_Vector128_Dot i sig caps bj rt sz bt stack =
      caseOf_Vector128_Dot i sig caps bj rt sz bt stack := rfl

theorem applyCase_t_Vector128_Equals (recur : NamedIntrinsic → HWSig → CompCaps → CorInfoType →
      VarType → Nat → List GenTree → Option (EngineResult × List GenTree))
    (i : NamedIntrinsic) (sig : HWSig) (caps : CompCaps) (bj : CorInfoType)
    (rt : VarType) (sz : Nat) (bt : VarType) (stack : List GenTree) :
    applyCase recur CaseTag.t_Vector128_Equals i sig caps bj rt sz bt stack =
      caseOf_Vector128_Equals i sig caps bj rt sz bt stack := rfl

theorem applyCase_t_Vector512_EqualsAll (recur : NamedIntrinsic → HWSig → CompCaps → CorInfoType →
      VarType → Nat → List GenTree → Option (EngineResult × List GenTree))
    (i : NamedIntrinsic) (sig : HWSig) (caps : CompCaps) (bj : CorInfoType)
    (rt : VarType) (sz : Nat) (bt : VarType) (stack : List GenTree) :
    applyCase recur CaseTag.t_Vector512_EqualsAll i sig caps bj rt sz bt stack =
      caseOf_Vector512_EqualsAll i sig caps bj rt sz bt stack := rfl

theorem applyCase_t_Vector128_EqualsAll (recur : NamedIntrinsic → HWSig → CompCaps → CorInfoType →
      VarType → Nat → List GenTree → Option (EngineResult × List GenTree))
    (i : NamedIntrinsic) (sig : HWSig) (caps : CompCaps) (bj : CorInfoType)
    (rt : VarType) (sz : Nat) (bt : VarType) (stack : List GenTree) :
    applyCase recur CaseTag.t_Vector128_EqualsAll i sig caps bj rt sz bt stack =
      caseOf_Vector128_EqualsAll i sig caps bj rt sz bt stack := rfl

theorem applyCase_t_Vector512_EqualsAny (recur : NamedIntrinsic → HWSig → CompCaps → CorInfoType →
      VarType → Nat → List GenTree → Option (EngineResult × List GenTree))
    (i : NamedIntrinsic) (sig : HWSig) (caps : CompCaps) (bj : CorInfoType)
    (rt : VarType) (sz : Nat) (bt : VarType) (stack : List GenTree) :
    applyCase recur CaseTag.t_Vector512_EqualsAny i sig caps bj rt sz bt stack =
      caseOf_Vector512_EqualsAny i sig caps bj rt sz bt stack := rfl

theorem applyCase_t_Vector128_EqualsAny (recur : NamedIntrinsic → HWSig → CompCaps → CorInfoType →
      VarType → Nat → List GenTree → Option (EngineResult × List GenTree))
    (i : NamedIntrinsic) (sig : HWSig) (caps : CompCaps) (bj : CorInfoType)
    (rt : VarType) (sz : Nat) (bt : VarType) (stack : List GenTree) :
    applyCase recur CaseTag.t_Vector128_EqualsAny i sig caps bj rt sz bt stack =
      caseOf_Vector128_EqualsAny i sig caps bj rt sz bt stack := rfl

theorem applyCase_t_Vector512_ExtractMostSignificantBits (recur : NamedIntrinsic → HWSig → CompCaps → CorInfoType →
      VarType → Nat → List GenTree → Option (EngineResult × List GenTree))
    (i : NamedIntrinsic) (sig : HWSig) (caps : CompCaps) (bj : CorInfoType)
    (rt : VarType) (sz : Nat) (bt : VarType) (stack : List GenTree) :
    applyCase recur CaseTag.t_Vector512_ExtractMostSignificantBits i sig caps bj rt sz bt stack =
      caseOf_Vector512_ExtractMostSignificantBits i sig caps bj rt sz bt stack := rfl

theorem applyCase_t_Vector128_ExtractMostSignificantBits (recur : NamedIntrinsic → HWSig → CompCaps → CorInfoType →
      VarType → Nat → List GenTree → Option (EngineResult × List GenTree))
    (i : NamedIntrinsic) (sig : HWSig) (caps : CompCaps) (bj : CorInfoType)
    (rt : VarType) (sz : Nat) (bt : VarType) (stack : List GenTree) :
    applyCase recur CaseTag.t_Vector128_ExtractMostSignificantBits i sig caps bj rt sz bt stack =
      caseOf_Vector128_ExtractMostSignificantBits i sig caps bj rt sz bt stack := rfl

theorem applyCase_t_Vector128_Floor (recur : NamedIntrinsic → HWSig → CompCaps → CorInfoType →
      VarType → Nat → List GenTree → Option (EngineResult × List GenTree))
    (i : NamedIntrinsic) (sig : HWSig) (caps : CompCaps) (bj : CorInfoType)
    (rt : VarType) (sz : Nat) (bt : VarType) (stack : List GenTree) :
    applyCase recur CaseTag.t_Vector128_Floor i sig caps bj rt sz bt stack =
      caseOf_Vector128_Floor i sig caps bj rt sz bt stack := rfl

theorem applyCase_t_Vector128_get_AllBitsSet (recur : NamedIntrinsic → HWSig → CompCaps → CorInfoType →
      VarType → Nat → List GenTree → Option (EngineResult × List GenTree))
    (i : NamedIntrinsic) (sig : HWSig) (caps : CompCaps) (bj : CorInfoType)
    (rt : VarType) (sz : Nat) (bt : VarType) (stack : List GenTree) :
    applyCase recur CaseTag.t_Vector128_get_AllBitsSet i sig caps bj rt sz bt stack =
      caseOf_Vector128_get_AllBitsSet i sig caps bj rt sz bt stack := rfl

theorem applyCase_t_Vector128_get_One (recur : NamedIntrinsic → HWSig → CompCaps → CorInfoType →
      VarType → Nat → List GenTree → Option (EngineResult × List GenTree))
    (i : NamedIntrinsic) (sig : HWSig) (caps : CompCaps) (bj : CorInfoType)
    (rt : VarType) (sz : Nat) (bt : VarType) (stack : List GenTree) :
    applyCase recur CaseTag.t_Vector128_get_One i sig caps bj rt sz bt stack =
      caseOf_Vector128_get_One i sig caps bj rt sz bt stack := rfl

theorem applyCase_t_Vector128_get_Zero (recur : NamedIntrinsic → HWSig → CompCaps → CorInfoType →
      VarType → Nat → List GenTree → Option (EngineResult × List GenTree))
    (i : NamedIntrinsic) (sig : HWSig) (caps : CompCaps) (bj : CorInfoType)
    (rt : VarType) (sz : Nat) (bt : VarType) (stack : List GenTree) :
    applyCase recur CaseTag.t_Vector128_get_Zero i sig caps bj rt sz bt stack =
      caseOf_Vector128_get_Zero i sig caps bj rt sz bt stack := rfl

theorem applyCase_t_Vector128_GetElement (recur : NamedIntrinsic → HWSig → CompCaps → CorInfoType →
      VarType → Nat → List GenTree → Option (EngineResult × List GenTree))
    (i : NamedIntrinsic) (sig : HWSig) (caps : CompCaps) (bj : CorInfoType)
    (rt : VarType) (sz : Nat) (bt : VarType) (stack : List GenTree) :
    applyCase recur CaseTag.t_Vector128_GetElement i sig caps bj rt sz bt stack =
      caseOf_Vector128_GetElement i sig caps bj rt sz bt stack := rfl

theorem applyCase_t_Vector128_GreaterThan (recur : NamedIntrinsic → HWSig → CompCaps → CorInfoType →
      VarType → Nat → List GenTree → Option (EngineResult × List GenTree))
    (i : NamedIntrinsic) (sig : HWSig) (caps : CompCaps) (bj : CorInfoType)
    (rt : VarType) (sz : Nat) (bt : VarType) (stack : List GenTree) :
    applyCase recur CaseTag.t_Vector128_GreaterThan i sig caps bj rt sz bt stack =
      caseOf_Vector128_GreaterThan i sig caps bj rt sz bt stack := rfl

theorem applyCase_t_Vector128_GreaterThanAll (recur : NamedIntrinsic → HWSig → CompCaps → CorInfoType →
      VarType → Nat → List GenTree → Option (EngineResult × List GenTree))
    (i : NamedIntrinsic) (sig : HWSig) (caps : CompCaps) (bj : CorInfoType)
    (rt : VarType) (sz : Nat) (bt : VarType) (stack : List GenTree) :
    applyCase recur CaseTag.t_Vector128_GreaterThanAll i sig caps bj rt sz bt stack =
      caseOf_Vector128_GreaterThanAll i sig caps bj rt sz bt stack := rfl

theorem applyCase_t_Vector128_GreaterThanAny (recur : NamedIntrinsic → HWSig → CompCaps → CorInfoType →
      VarType → Nat → List GenTree → Option (EngineResult × List GenTree))
    (i : NamedIntrinsic) (sig : HWSig) (caps : CompCaps) (bj : CorInfoType)
    (rt : VarType) (sz : Nat) (bt : VarType) (stack : List GenTree) :
    applyCase recur CaseTag.t_Vector128_GreaterThanAny i sig caps bj rt sz bt stack =
      caseOf_Vector128_GreaterThanAny i sig caps bj rt sz bt stack := rfl

theorem applyCase_t_Vector128_GreaterThanOrEqual (recur : NamedIntrinsic → HWSig → CompCaps → CorInfoType →
      VarType → Nat → List GenTree → Option (EngineResult × List GenTree))
    (i : NamedIntrinsic) (sig : HWSig) (caps : CompCaps) (bj : CorInfoType)
    (rt : VarType) (sz : Nat) (bt : VarType) (stack : List GenTree) :
    applyCase recur CaseTag.t_Vector128_GreaterThanOrEqual i sig caps bj rt sz bt stack =
      caseOf_Vector128_GreaterThanOrEqual i sig caps bj rt sz bt stack := rfl

theorem applyCase_t_Vector128_GreaterThanOrEqualAll (recur : NamedIntrinsic → HWSig → CompCaps → CorInfoType →
      VarType → Nat → List GenTree → Option (EngineResult × List GenTree))
    (i : NamedIntrinsic) (sig : HWSig) (caps : CompCaps) (bj : CorInfoType)
    (rt : VarType) (sz : Nat) (bt : VarType) (stack : List GenTree) :
    applyCase recur CaseTag.t_Vector128_GreaterThanOrEqualAll i sig caps bj rt sz bt stack =
      caseOf_Vector128_GreaterThanOrEqualAll i sig caps bj rt sz bt stack := rfl

theorem applyCase_t_Vector128_GreaterThanOrEqualAny (recur : NamedIntrinsic → HWSig → CompCaps → CorInfoType →
      VarType → Nat → List GenTree → Option (EngineResult × List GenTree))
    (i : NamedIntrinsic) (sig : HWSig) (caps : CompCaps) (bj : CorInfoType)
    (rt : VarType) (sz : Nat) (bt : VarType) (stack : List GenTree) :
    applyCase recur CaseTag.t_Vector128_GreaterThanOrEqualAny i sig caps bj rt sz bt stack =
      caseOf_Vector128_GreaterThanOrEqualAny i sig caps bj rt sz bt stack := rfl

theorem applyCase_t_Vector128_LessThan (recur : NamedIntrinsic → HWSig → CompCaps → CorInfoType →
      VarType → Nat → List GenTree → Option (EngineResult × List GenTree))
    (i : NamedIntrinsic) (sig : HWSig) (caps : CompCaps) (bj : CorInfoType)
    (rt : VarType) (sz : Nat) (bt : VarType) (stack : List GenTree) :
    applyCase recur CaseTag.t_Vector128_LessThan i sig caps bj rt sz bt stack =
      caseOf_Vector128_LessThan i sig caps bj rt sz bt stack := rfl

theorem applyCase_t_Vector128_LessThanAll (recur : NamedIntrinsic → HWSig → CompCaps → CorInfoType →
      VarType → Nat → List GenTree → Option (EngineResult × List GenTree))
    (i : NamedIntrinsic) (sig : HWSig) (caps : CompCaps) (bj : CorInfoType)
    (rt : VarType) (sz : Nat) (bt : VarType) (stack : List GenTree) :
    applyCase recur CaseTag.t_Vector128_LessThanAll i sig caps bj rt sz bt stack =
      caseOf_Vector128_LessThanAll i sig caps bj rt sz bt stack := rfl

theorem applyCase_t_Vector128_LessThanAny (recur : NamedIntrinsic → HWSig → CompCaps → CorInfoType →
      VarType → Nat → List GenTree → Option (EngineResult × List GenTree))
    (i : NamedIntrinsic) (sig : HWSig) (caps : CompCaps) (bj : CorInfoType)
    (rt : VarType) (sz : Nat) (bt : VarType) (stack : List GenTree) :
    applyCase recur CaseTag.t_Vector128_LessThanAny i sig caps bj rt sz bt stack =
      caseOf_Vector128_LessThanAny i sig caps bj rt sz bt stack := rfl

theorem applyCase_t_Vector128_LessThanOrEqual (recur : NamedIntrinsic → HWSig → CompCaps → CorInfoType →
      VarType → Nat → List GenTree → Option (EngineResult × List GenTree))
    (i : NamedIntrinsic) (sig : HWSig) (caps : CompCaps) (bj : CorInfoType)
    (rt : VarType) (sz : Nat) (bt : VarType) (stack : List GenTree) :
    applyCase recur CaseTag.t_Vector128_LessThanOrEqual i sig caps bj rt sz bt stack =
      caseOf_Vector128_LessThanOrEqual i sig caps bj rt sz bt stack := rfl

theorem applyCase_t_Vector128_LessThanOrEqualAll (recur : NamedIntrinsic → HWSig → CompCaps → CorInfoType →
      VarType → Nat → List GenTree → Option (EngineResult × List GenTree))
    (i : NamedIntrinsic) (sig : HWSig) (caps : CompCaps) (bj : CorInfoType)
    (rt : VarType) (sz : Nat) (bt : VarType) (stack : List GenTree) :
    applyCase recur CaseTag.t_Vector128_LessThanOrEqualAll i sig caps bj rt sz bt stack =
      caseOf_Vector128_LessThanOrEqualAll i sig caps bj rt sz bt stack := rfl

theorem applyCase_t_Vector128_LessThanOrEqualAny (recur : NamedIntrinsic → HWSig → CompCaps → CorInfoType →
      VarType → Nat → List GenTree → Option (EngineResult × List GenTree))
    (i : NamedIntrinsic) (sig : HWSig) (caps : CompCaps) (bj : CorInfoType)
    (rt : VarType) (sz : Nat) (bt : VarType) (stack : List GenTree) :
    applyCase recur CaseTag.t_Vector128_LessThanOrEqualAny i sig caps bj rt sz bt stack =
      caseOf_Vector128_LessThanOrEqualAny i sig caps bj rt sz bt stack := rfl

theorem applyCase_t_SSE_LoadVector128 (recur : NamedIntrinsic → HWSig → CompCaps → CorInfoType →
      VarType → Nat → List GenTree → Option (EngineResult × List GenTree))
    (i : NamedIntrinsic) (sig : HWSig) (caps : CompCaps) (bj : CorInfoType)
    (rt : VarType) (sz : Nat) (bt : VarType) (stack : List GenTree) :
    applyCase recur CaseTag.t_SSE_LoadVector128 i sig caps bj rt sz bt stack =
      caseOf_SSE_LoadVector128 i sig caps bj rt sz bt stack := rfl

theorem applyCase_t_Vector128_LoadAligned (recur : NamedIntrinsic → HWSig → CompCaps → CorInfoType →
      VarType → Nat → List GenTree → Option (EngineResult × List GenTree))
    (i : NamedIntrinsic) (sig : HWSig) (caps : CompCaps) (bj : CorInfoType)
    (rt : VarType) (sz : Nat) (bt : VarType) (stack : List GenTree) :
    applyCase recur CaseTag.t_Vector128_LoadAligned i sig caps bj rt sz bt stack =
      caseOf_Vector128_LoadAligned i sig caps bj rt sz bt stack := rfl

theorem applyCase_t_Vector128_LoadAlignedNonTemporal (recur : NamedIntrinsic → HWSig → CompCaps → CorInfoType →
      VarType → Nat → List GenTree → Option (EngineResult × List GenTree))
    (i : NamedIntrinsic) (sig : HWSig) (caps : CompCaps) (bj : CorInfoType)
    (rt : VarType) (sz : Nat) (bt : VarType) (stack : List GenTree) :
    applyCase recur CaseTag.t_Vector128_LoadAlignedNonTemporal i sig caps bj rt sz bt stack =
      caseOf_Vector128_LoadAlignedNonTemporal i sig caps bj rt sz bt stack := rfl

theorem applyCase_t_Vector128_Max (recur : NamedIntrinsic → HWSig → CompCaps → CorInfoType →
      VarType → Nat → List GenTree → Option (EngineResult × List GenTree))
    (i : NamedIntrinsic) (sig : HWSig) (caps : CompCaps) (bj : CorInfoType)
    (rt : VarType) (sz : Nat) (bt : VarType) (stack : List GenTree) :
    applyCase recur CaseTag.t_Vector128_Max i sig caps bj rt sz bt stack =
      caseOf_Vector128_Max i sig caps bj rt sz bt stack := rfl

theorem applyCase_t_Vector128_Min (recur : NamedIntrinsic → HWSig → CompCaps → CorInfoType →
      VarType → Nat → List GenTree → Option (EngineResult × List GenTree))
    (i : NamedIntrinsic) (sig : HWSig) (caps : CompCaps) (bj : CorInfoType)
    (rt : VarType) (sz : Nat) (bt : VarType) (stack : List GenTree) :
    applyCase recur CaseTag.t_Vector128_Min i sig caps bj rt sz bt stack =
      caseOf_Vector128_Min i sig caps bj rt sz bt stack := rfl

theorem applyCase_t_Vector128_Multiply (recur : NamedIntrinsic → HWSig → CompCaps → CorInfoType →
      VarType → Nat → List GenTree → Option (EngineResult × List GenTree))
    (i : NamedIntrinsic) (sig : HWSig) (caps : CompCaps) (bj : CorInfoType)
    (rt : VarType) (sz : Nat) (bt : VarType) (stack : List GenTree) :
    applyCase recur CaseTag.t_Vector128_Multiply i sig caps bj rt sz bt stack =
      caseOf_Vector128_Multiply i sig caps bj rt sz bt stack := rfl

theorem applyCase_t_Vector128_Narrow (recur : NamedIntrinsic → HWSig → CompCaps → CorInfoType →
      VarType → Nat → List GenTree → Option (EngineResult × List GenTree))
    (i : NamedIntrinsic) (sig : HWSig) (caps : CompCaps) (bj : CorInfoType)
    (rt : VarType) (sz : Nat) (bt : VarType) (stack : List GenTree) :
    applyCase recur CaseTag.t_Vector128_Narrow i sig caps bj rt sz bt stack =
      caseOf_Vector128_Narrow i sig caps bj rt sz bt stack := rfl

theorem applyCase_t_Vector128_Negate (recur : NamedIntrinsic → HWSig → CompCaps → CorInfoType →
      VarType → Nat → List GenTree → Option (EngineResult × List GenTree))
    (i : NamedIntrinsic) (sig : HWSig) (caps : CompCaps) (bj : CorInfoType)
    (rt : VarType) (sz : Nat) (bt : VarType) (stack : List GenTree) :
    applyCase recur CaseTag.t_Vector128_Negate i sig caps bj rt sz bt stack =
      caseOf_Vector128_Negate i sig caps bj rt sz bt stack := rfl

theorem applyCase_t_Vector128_OnesComplement (recur : NamedIntrinsic → HWSig → CompCaps → CorInfoType →
      VarType → Nat → List GenTree → Option (EngineResult × List GenTree))
    (i : NamedIntrinsic) (sig : HWSig) (caps : CompCaps) (bj : CorInfoType)
    (rt : VarType) (sz : Nat) (bt : VarType) (stack : List GenTree) :
    applyCase recur CaseTag.t_Vector128_OnesComplement i sig caps bj rt sz bt stack =
      caseOf_Vector128_OnesComplement i sig caps bj rt sz bt stack := rfl

theorem applyCase_t_Vector128_op_Inequality (recur : NamedIntrinsic → HWSig → CompCaps → CorInfoType →
      VarType → Nat → List GenTree → Option (EngineResult × List GenTree))
    (i : NamedIntrinsic) (sig : HWSig) (caps : CompCaps) (bj : CorInfoType)
    (rt : VarType) (sz : Nat) (bt : VarType) (stack : List GenTree) :
    applyCase recur CaseTag.t_Vector128_op_Inequality i sig caps bj rt sz bt stack =
      caseOf_Vector128_op_Inequality i sig caps bj rt sz bt stack := rfl

theorem applyCase_t_Vector512_op_Inequality (recur : NamedIntrinsic → HWSig → CompCaps → CorInfoType →
      VarType → Nat → List GenTree → Option (EngineResult × List GenTree))
    (i : NamedIntrinsic) (sig : HWSig) (caps : CompCaps) (bj : CorInfoType)
    (rt : VarType) (sz : Nat) (bt : VarType) (stack : List GenTree) :
    applyCase recur CaseTag.t_Vector512_op_Inequality i sig caps bj rt sz bt stack =
      caseOf_Vector512_op_Inequality i sig caps bj rt sz bt stack := rfl

theorem applyCase_t_Vector128_op_UnaryPlus (recur : NamedIntrinsic → HWSig → CompCaps → CorInfoType →
      VarType → Nat → List GenTree → Option (EngineResult × List GenTree))
    (i : NamedIntrinsic) (sig : HWSig) (caps : CompCaps) (bj : CorInfoType)
    (rt : VarType) (sz : Nat) (bt : VarType) (stack : List GenTree) :
    applyCase recur CaseTag.t_Vector128_op_UnaryPlus i sig caps bj rt sz bt stack =
      caseOf_Vector128_op_UnaryPlus i sig caps bj rt sz bt stack := rfl

theorem applyCase_t_Vector128_Subtract (recur : NamedIntrinsic → HWSig → CompCaps → CorInfoType →
      VarType → Nat → List GenTree → Option (EngineResult × List GenTree))
    (i : NamedIntrinsic) (sig : HWSig) (caps : CompCaps) (bj : CorInfoType)
    (rt : VarType) (sz : Nat) (bt : VarType) (stack : List GenTree) :
    applyCase recur CaseTag.t_Vector128_Subtract i sig caps bj rt sz bt stack =
      caseOf_Vector128_Subtract i sig caps bj rt sz bt stack := rfl

theorem applyCase_t_Vector128_ShiftLeft (recur : NamedIntrinsic → HWSig → CompCaps → CorInfoType →
      VarType → Nat → List GenTree → Option (EngineResult × List GenTree))
    (i : NamedIntrinsic) (sig : HWSig) (caps : CompCaps) (bj : CorInfoType)
    (rt : VarType) (sz : Nat) (bt : VarType) (stack : List GenTree) :
    applyCase recur CaseTag.t_Vector128_ShiftLeft i sig caps bj rt sz bt stack =
      caseOf_Vector128_ShiftLeft i sig caps bj rt sz bt stack := rfl

theorem applyCase_t_Vector128_ShiftRightArithmetic (recur : NamedIntrinsic → HWSig → CompCaps → CorInfoType →
      VarType → Nat → List GenTree → Option (EngineResult × List GenTree))
    (i : NamedIntrinsic) (sig : HWSig) (caps : CompCaps) (bj : CorInfoType)
    (rt : VarType) (sz : Nat) (bt : VarType) (stack : List GenTree) :
    applyCase recur CaseTag.t_Vector128_ShiftRightArithmetic i sig caps bj rt sz bt stack =
      caseOf_Vector128_ShiftRightArithmetic i sig caps bj rt sz bt stack := rfl

theorem applyCase_t_Vector128_ShiftRightLogical (recur : NamedIntrinsic → HWSig → CompCaps → CorInfoType →
      VarType → Nat → List GenTree → Option (EngineResult × List GenTree))
    (i : NamedIntrinsic) (sig : HWSig) (caps : CompCaps) (bj : CorInfoType)
    (rt : VarType) (sz : Nat) (bt : VarType) (stack : List GenTree) :
    applyCase recur CaseTag.t_Vector128_ShiftRightLogical i sig caps bj rt sz bt stack =
      caseOf_Vector128_ShiftRightLogical i sig caps bj rt sz bt stack := rfl

theorem applyCase_t_Vector128_Shuffle (recur : NamedIntrinsic → HWSig → CompCaps → CorInfoType →
      VarType → Nat → List GenTree → Option (EngineResult × List GenTree))
    (i : NamedIntrinsic) (sig : HWSig) (caps : CompCaps) (bj : CorInfoType)
    (rt : VarType) (sz : Nat) (bt : VarType) (stack : List GenTree) :
    applyCase recur CaseTag.t_Vector128_Shuffle i sig caps bj rt sz bt stack =
      caseOf_Vector128_Shuffle i sig caps bj rt sz bt stack := rfl

theorem applyCase_t_Vector128_Sqrt (recur : NamedIntrinsic → HWSig → CompCaps → CorInfoType →
      VarType → Nat → List GenTree → Option (EngineResult × List GenTree))
    (i : NamedIntrinsic) (sig : HWSig) (caps : CompCaps) (bj : CorInfoType)
    (rt : VarType) (sz : Nat) (bt : VarType) (stack : List GenTree) :
    applyCase recur CaseTag.t_Vector128_Sqrt i sig caps bj rt sz bt stack =
      caseOf_Vector128_Sqrt i sig caps bj rt sz bt stack := rfl

theorem applyCase_t_SSE_Store (recur : NamedIntrinsic → HWSig → CompCaps → CorInfoType →
      VarType → Nat → List GenTree → Option (EngineResult × List GenTree))
    (i : NamedIntrinsic) (sig : HWSig) (caps : CompCaps) (bj : CorInfoType)
    (rt : VarType) (sz : Nat) (bt : VarType) (stack : List GenTree) :
    applyCase recur CaseTag.t_SSE_Store i sig caps bj rt sz bt stack =
      caseOf_SSE_Store i sig caps bj rt sz bt stack := rfl

theorem applyCase_t_Vector128_Store (recur : NamedIntrinsic → HWSig → CompCaps → CorInfoType →
      VarType → Nat → List GenTree → Option (EngineResult × List GenTree))
    (i : NamedIntrinsic) (sig : HWSig) (caps : CompCaps) (bj : CorInfoType)
    (rt : VarType) (sz : Nat) (bt : VarType) (stack : List GenTree) :
    applyCase recur CaseTag.t_Vector128_Store i sig caps bj rt sz bt stack =
      caseOf_Vector128_Store i sig caps bj rt sz bt stack := rfl

theorem applyCase_t_Vector128_StoreAligned (recur : NamedIntrinsic → HWSig → CompCaps → CorInfoType →
      VarType → Nat → List GenTree → Option (EngineResult × List GenTree))
    (i : NamedIntrinsic) (sig : HWSig) (caps : CompCaps) (bj : CorInfoType)
    (rt : VarType) (sz : Nat) (bt : VarType) (stack : List GenTree) :
    applyCase recur CaseTag.t_Vector128_StoreAligned i sig caps bj rt sz bt stack =
      caseOf_Vector128_StoreAligned i sig caps bj rt sz bt stack := rfl

theorem applyCase_t_Vector128_StoreAlignedNonTemporal (recur : NamedIntrinsic → HWSig → CompCaps → CorInfoType →
      VarType → Nat → List GenTree → Option (EngineResult × List GenTree))
    (i : NamedIntrinsic) (sig : HWSig) (caps : CompCaps) (bj : CorInfoType)
    (rt : VarType) (sz : Nat) (bt : VarType) (stack : List GenTree) :
    applyCase recur CaseTag.t_Vector128_StoreAlignedNonTemporal i sig caps bj rt sz bt stack =
      caseOf_Vector128_StoreAlignedNonTemporal i sig caps bj rt sz bt stack := rfl

theorem applyCase_t_Vector128_Sum (recur : NamedIntrinsic → HWSig → CompCaps → CorInfoType →
      VarType → Nat → List GenTree → Option (EngineResult × List GenTree))
    (i : NamedIntrinsic) (sig : HWSig) (caps : CompCaps) (bj : CorInfoType)
    (rt : VarType) (sz : Nat) (bt : VarType) (stack : List GenTree) :
    applyCase recur CaseTag.t_Vector128_Sum i sig caps bj rt sz bt stack =
      caseOf_Vector128_Sum i sig caps bj rt sz bt stack := rfl

theorem applyCase_t_Vector128_ToScalar (recur : NamedIntrinsic → HWSig → CompCaps → CorInfoType →
      VarType → Nat → List GenTree → Option (EngineResult × List GenTree))
    (i : NamedIntrinsic) (sig : HWSig) (caps : CompCaps) (bj : CorInfoType)
    (rt : VarType) (sz : Nat) (bt : VarType) (stack : List GenTree) :
    applyCase recur CaseTag.t_Vector128_ToScalar i sig caps bj rt sz bt stack =
      caseOf_Vector128_ToScalar i sig caps bj rt sz bt stack := rfl

theorem applyCase_t_Vector128_ToVector256 (recur : NamedIntrinsic → HWSig → CompCaps → CorInfoType →
      VarType → Nat → List GenTree → Option (EngineResult × List GenTree))
    (i : NamedIntrinsic) (sig : HWSig) (caps : CompCaps) (bj : CorInfoType)
    (rt : VarType) (sz : Nat) (bt : VarType) (stack : List GenTree) :
    applyCase recur CaseTag.t_Vector128_ToVector256 i sig caps bj rt sz bt stack =
      caseOf_Vector128_ToVector256 i sig caps bj rt sz bt stack := rfl

theorem applyCase_t_Vector256_GetLower (recur : NamedIntrinsic → HWSig → CompCaps → CorInfoType →
      VarType → Nat → List GenTree → Option (EngineResult × List GenTree))
    (i : NamedIntrinsic) (sig : HWSig) (caps : CompCaps) (bj : CorInfoType)
    (rt : VarType) (sz : Nat) (bt : VarType) (stack : List GenTree) :
    applyCase recur CaseTag.t_Vector256_GetLower i sig caps bj rt sz bt stack =
      caseOf_Vector256_GetLower i sig caps bj rt sz bt stack := rfl

theorem applyCase_t_Vector256_GetUpper (recur : NamedIntrinsic → HWSig → CompCaps → CorInfoType →
      VarType → Nat → List GenTree → Option (EngineResult × List GenTree))
    (i : NamedIntrinsic) (sig : HWSig) (caps : CompCaps) (bj : CorInfoType)
    (rt : VarType) (sz : Nat) (bt : VarType) (stack : List GenTree) :
    applyCase recur CaseTag.t_Vector256_GetUpper i sig caps bj rt sz bt stack =
      caseOf_Vector256_GetUpper i sig caps bj rt sz bt stack := rfl

theorem applyCase_t_Vector512_GetLower (recur : NamedIntrinsic → HWSig → CompCaps → CorInfoType →
      VarType → Nat → List GenTree → Option (EngineResult × List GenTree))
    (i : NamedIntrinsic) (sig : HWSig) (caps : CompCaps) (bj : CorInfoType)
    (rt : VarType) (sz : Nat) (bt : VarType) (stack : List GenTree) :
    applyCase recur CaseTag.t_Vector512_GetLower i sig caps bj rt sz bt stack =
      caseOf_Vector512_GetLower i sig caps bj rt sz bt stack := rfl

theorem applyCase_t_Vector512_GetUpper (recur : NamedIntrinsic → HWSig → CompCaps → CorInfoType →
      VarType → Nat → List GenTree → Option (EngineResult × List GenTree))
    (i : NamedIntrinsic) (sig : HWSig) (caps : CompCaps) (bj : CorInfoType)
    (rt : VarType) (sz : Nat) (bt : VarType) (stack : List GenTree) :
    applyCase recur CaseTag.t_Vector512_GetUpper i sig caps bj rt sz bt stack =
      caseOf_Vector512_GetUpper i sig caps bj rt sz bt stack := rfl

theorem applyCase_t_Vector128_ToVector512 (recur : NamedIntrinsic → HWSig → CompCaps → CorInfoType →
      VarType → Nat → List GenTree → Option (EngineResult × List GenTree))
    (i : NamedIntrinsic) (sig : HWSig) (caps : CompCaps) (bj : CorInfoType)
    (rt : VarType) (sz : Nat) (bt : VarType) (stack : List GenTree) :
    applyCase recur CaseTag.t_Vector128_ToVector512 i sig caps bj rt sz bt stack =
      caseOf_Vector128_ToVector512 i sig caps bj rt sz bt stack := rfl

theorem applyCase_t_Vector128_WidenLower (recur : NamedIntrinsic → HWSig → CompCaps → CorInfoType →
      VarType → Nat → List GenTree → Option (EngineResult × List GenTree))
    (i : NamedIntrinsic) (sig : HWSig) (caps : CompCaps) (bj : CorInfoType)
    (rt : VarType) (sz : Nat) (bt : VarType) (stack : List GenTree) :
    applyCase recur CaseTag.t_Vector128_WidenLower i sig caps bj rt sz bt stack =
      caseOf_Vector128_WidenLower i sig caps bj rt sz bt stack := rfl

theorem applyCase_t_Vector128_WidenUpper (recur : NamedIntrinsic → HWSig → CompCaps → CorInfoType →
      VarType → Nat → List GenTree → Option (EngineResult × List GenTree))
    (i : NamedIntrinsic) (sig : HWSig) (caps : CompCaps) (bj : CorInfoType)
    (rt : VarType) (sz : Nat) (bt : VarType) (stack : List GenTree) :
    applyCase recur CaseTag.t_Vector128_WidenUpper i sig caps bj rt sz bt stack =
      caseOf_Vector128_WidenUpper i sig caps bj rt sz bt stack := rfl

theorem applyCase_t_Vector128_WithElement (recur : NamedIntrinsic → HWSig → CompCaps → CorInfoType →
      VarType → Nat → List GenTree → Option (EngineResult × List GenTree))
    (i : NamedIntrinsic) (sig : HWSig) (caps : CompCaps) (bj : CorInfoType)
    (rt : VarType) (sz : Nat) (bt : VarType) (stack : List GenTree) :
    applyCase recur CaseTag.t_Vector128_WithElement i sig caps bj rt sz bt stack =
      caseOf_Vector128_WithElement i sig caps bj rt sz bt stack := rfl

theorem applyCase_t_Vector256_WithLower (recur : NamedIntrinsic → HWSig → CompCaps → CorInfoType →
      VarType → Nat → List GenTree → Option (EngineResult × List GenTree))
    (i : NamedIntrinsic) (sig : HWSig) (caps : CompCaps) (bj : CorInfoType)
    (rt : VarType) (sz : Nat) (bt : VarType) (stack : List GenTree) :
    applyCase recur CaseTag.t_Vector256_WithLower i sig caps bj rt sz bt stack =
      caseOf_Vector256_WithLower i sig caps bj rt sz bt stack := rfl

theorem applyCase_t_Vector256_WithUpper (recur : NamedIntrinsic → HWSig → CompCaps → CorInfoType →
      VarType → Nat → List GenTree → Option (EngineResult × List GenTree))
    (i : NamedIntrinsic) (sig : HWSig) (caps : CompCaps) (bj : CorInfoType)
    (rt : VarType) (sz : Nat) (bt : VarType) (stack : List GenTree) :
    applyCase recur CaseTag.t_Vector256_WithUpper i sig caps bj rt sz bt stack =
      caseOf_Vector256_WithUpper i sig caps bj rt sz bt stack := rfl

theorem applyCase_t_Vector512_WithLower (recur : NamedIntrinsic → HWSig → CompCaps → CorInfoType →
      VarType → Nat → List GenTree → Option (EngineResult × List GenTree))
    (i : NamedIntrinsic) (sig : HWSig) (caps : CompCaps) (bj : CorInfoType)
    (rt : VarType) (sz : Nat) (bt : VarType) (stack : List GenTree) :
    applyCase recur CaseTag.t_Vector512_WithLower i sig caps bj rt sz bt stack =
      caseOf_Vector512_WithLower i sig caps bj rt sz bt stack := rfl

theorem applyCase_t_Vector512_WithUpper (recur : NamedIntrinsic → HWSig → CompCaps → CorInfoType →
      VarType → Nat → List GenTree → Option (EngineResult × List GenTree))
    (i : NamedIntrinsic) (sig : HWSig) (caps : CompCaps) (bj : CorInfoType)
    (rt : VarType) (sz : Nat) (bt : VarType) (stack : List GenTree) :
    applyCase recur CaseTag.t_Vector512_WithUpper i sig caps bj rt sz bt stack =
      caseOf_Vector512_WithUpper i sig caps bj rt sz bt stack := rfl

theorem applyCase_t_Vector128_Xor (recur : NamedIntrinsic → HWSig → CompCaps → CorInfoType →
      VarType → Nat → List GenTree → Option (EngineResult × List GenTree))
    (i : NamedIntrinsic) (sig : HWSig) (caps : CompCaps) (bj : CorInfoType)
    (rt : VarType) (sz : Nat) (bt : VarType) (stack : List GenTree) :
    applyCase recur CaseTag.t_Vector128_Xor i sig caps bj rt sz bt stack =
      caseOf_Vector128_Xor i sig caps bj rt sz bt stack := rfl

theorem applyCase_t_X86Base_Pause (recur : NamedIntrinsic → HWSig → CompCaps → CorInfoType →
      VarType → Nat → List GenTree → Option (EngineResult × List GenTree))
    (i : NamedIntrinsic) (sig : HWSig) (caps : CompCaps) (bj : CorInfoType)
    (rt : VarType) (sz : Nat) (bt : VarType) (stack : List GenTree) :
    applyCase recur CaseTag.t_X86Base_Pause i sig caps bj rt sz bt stack =
      caseOf_X86Base_Pause i sig caps bj rt sz bt stack := rfl

theorem applyCase_t_X86Base_DivRem (recur : NamedIntrinsic → HWSig → CompCaps → CorInfoType →
      VarType → Nat → List GenTree → Option (EngineResult × List GenTree))
    (i : NamedIntrinsic) (sig : HWSig) (caps : CompCaps) (bj : CorInfoType)
    (rt : VarType) (sz : Nat) (bt : VarType) (stack : List GenTree) :
    applyCase recur CaseTag.t_X86Base_DivRem i sig caps bj rt sz bt stack =
      caseOf_X86Base_DivRem i sig caps bj rt sz bt stack := rfl

theorem applyCase_t_SSE_CompareScalarGreaterThan (recur : NamedIntrinsic → HWSig → CompCaps → CorInfoType →
      VarType → Nat → List GenTree → Option (EngineResult × List GenTree))
    (i : NamedIntrinsic) (sig : HWSig) (caps : CompCaps) (bj : CorInfoType)
    (rt : VarType) (sz : Nat) (bt : VarType) (stack : List GenTree) :
    applyCase recur CaseTag.t_SSE_CompareScalarGreaterThan i sig caps bj rt sz bt stack =
      caseOf_SSE_CompareScalarGreaterThan i sig caps bj rt sz bt stack := rfl

theorem applyCase_t_SSE_Prefetch0 (recur : NamedIntrinsic → HWSig → CompCaps → CorInfoType →
      VarType → Nat → List GenTree → Option (EngineResult × List GenTree))
    (i : NamedIntrinsic) (sig : HWSig) (caps : CompCaps) (bj : CorInfoType)
    (rt : VarType) (sz : Nat) (bt : VarType) (stack : List GenTree) :
    applyCase recur CaseTag.t_SSE_Prefetch0 i sig caps bj rt sz bt stack =
      caseOf_SSE_Prefetch0 i sig caps bj rt sz bt stack := rfl

theorem applyCase_t_SSE_StoreFence (recur : NamedIntrinsic → HWSig → CompCaps → CorInfoType →
      VarType → Nat → List GenTree → Option (EngineResult × List GenTree))
    (i : NamedIntrinsic) (sig : HWSig) (caps : CompCaps) (bj : CorInfoType)
    (rt : VarType) (sz : Nat) (bt : VarType) (stack : List GenTree) :
    applyCase recur CaseTag.t_SSE_StoreFence i sig caps bj rt sz bt stack =
      caseOf_SSE_StoreFence i sig caps bj rt sz bt stack := rfl

theorem applyCase_t_SSE2_CompareScalarGreaterThan (recur : NamedIntrinsic → HWSig → CompCaps → CorInfoType →
      VarType → Nat → List GenTree → Option (EngineResult × List GenTree))
    (i : NamedIntrinsic) (sig : HWSig) (caps : CompCaps) (bj : CorInfoType)
    (rt : VarType) (sz : Nat) (bt : VarType) (stack : List GenTree) :
    applyCase recur CaseTag.t_SSE2_CompareScalarGreaterThan i sig caps bj rt sz bt stack =
      caseOf_SSE2_CompareScalarGreaterThan i sig caps bj rt sz bt stack := rfl

theorem applyCase_t_SSE2_LoadFence (recur : NamedIntrinsic → HWSig → CompCaps → CorInfoType →
      VarType → Nat → List GenTree → Option (EngineResult × List GenTree))
    (i : NamedIntrinsic) (sig : HWSig) (caps : CompCaps) (bj : CorInfoType)
    (rt : VarType) (sz : Nat) (bt : VarType) (stack : List GenTree) :
    applyCase recur CaseTag.t_SSE2_LoadFence i sig caps bj rt sz bt stack =
      caseOf_SSE2_LoadFence i sig caps bj rt sz bt stack := rfl

theorem applyCase_t_SSE2_StoreNonTemporal (recur : NamedIntrinsic → HWSig → CompCaps → CorInfoType →
      VarType → Nat → List GenTree → Option (EngineResult × List GenTree))
    (i : NamedIntrinsic) (sig : HWSig) (caps : CompCaps) (bj : CorInfoType)
    (rt : VarType) (sz : Nat) (bt : VarType) (stack : List GenTree) :
    applyCase recur CaseTag.t_SSE2_StoreNonTemporal i sig caps bj rt sz bt stack =
      caseOf_SSE2_StoreNonTemporal i sig caps bj rt sz bt stack := rfl

theorem applyCase_t_AVX2_PermuteVar8x32 (recur : NamedIntrinsic → HWSig → CompCaps → CorInfoType →
      VarType → Nat → List GenTree → Option (EngineResult × List GenTree))
    (i : NamedIntrinsic) (sig : HWSig) (caps : CompCaps) (bj : CorInfoType)
    (rt : VarType) (sz : Nat) (bt : VarType) (stack : List GenTree) :
    applyCase recur CaseTag.t_AVX2_PermuteVar8x32 i sig caps bj rt sz bt stack =
      caseOf_AVX2_PermuteVar8x32 i sig caps bj rt sz bt stack := rfl

theorem applyCase_t_AVX2_GatherMaskVector128 (recur : NamedIntrinsic → HWSig → CompCaps → CorInfoType →
      VarType → Nat → List GenTree → Option (EngineResult × List GenTree))
    (i : NamedIntrinsic) (sig : HWSig) (caps : CompCaps) (bj : CorInfoType)
    (rt : VarType) (sz : Nat) (bt : VarType) (stack : List GenTree) :
    applyCase recur CaseTag.t_AVX2_GatherMaskVector128 i sig caps bj rt sz bt stack =
      caseOf_AVX2_GatherMaskVector128 i sig caps bj rt sz bt stack := rfl

theorem applyCase_t_BMI2_ZeroHighBits (recur : NamedIntrinsic → HWSig → CompCaps → CorInfoType →
      VarType → Nat → List GenTree → Option (EngineResult × List GenTree))
    (i : NamedIntrinsic) (sig : HWSig) (caps : CompCaps) (bj : CorInfoType)
    (rt : VarType) (sz : Nat) (bt : VarType) (stack : List GenTree) :
    applyCase recur CaseTag.t_BMI2_ZeroHighBits i sig caps bj rt sz bt stack =
      caseOf_BMI2_ZeroHighBits i sig caps bj rt sz bt stack := rfl

theorem applyCase_t_BMI1_BitFieldExtract (recur : NamedIntrinsic → HWSig → CompCaps → CorInfoType →
      VarType → Nat → List GenTree → Option (EngineResult × List GenTree))
    (i : NamedIntrinsic) (sig : HWSig) (caps : CompCaps) (bj : CorInfoType)
    (rt : VarType) (sz : Nat) (bt : VarType) (stack : List GenTree) :
    applyCase recur CaseTag.t_BMI1_BitFieldExtract i sig caps bj rt sz bt stack =
      caseOf_BMI1_BitFieldExtract i sig caps bj rt sz bt stack := rfl

theorem applyCase_t_default (recur : NamedIntrinsic → HWSig → CompCaps → CorInfoType →
      VarType → Nat → List GenTree → Option (EngineResult × List GenTree))
    (i : NamedIntrinsic) (sig : HWSig) (caps : CompCaps) (bj : CorInfoType)
    (rt : VarType) (sz : Nat) (bt : VarType) (stack : List GenTree) :
    applyCase recur CaseTag.t_default i sig caps bj rt sz bt stack =
      caseOf_default i sig caps bj rt sz bt stack := rfl

/-- **C4.**  256-bit vector addition (`NI_Vector256_Add` /
`NI_Vector256_op_Addition`, two arguments): with an integer element type
and width 32, if `InstructionSet_AVX2` is not statically guaranteed the
engine declines (null sentinel, stack untouched); if it is guaranteed —
or the element type is floating-point, or the width is not 32 bytes —
the engine pops exactly two operands and returns a `GT_ADD` binary node
whose first operand is the first syntactic argument (the deeper stack
entry) and whose second operand is the second. -/
theorem vector256_add_avx2_gate :
    ∀ (fuel : Nat) (intrinsic : NamedIntrinsic) (sig : HWSig) (caps : CompCaps)
      (bj : CorInfoType) (retType : VarType) (stack : List GenTree),
      (intrinsic = NI_Vector256_Add ∨ intrinsic = NI_Vector256_op_Addition) →
      sig.numArgs = 2 →
      ((varTypeIsIntegral (jitType2PreciseVarType bj) = true →
        caps.compExactlyDependsOn InstructionSet_AVX2 = false →
        impSpecialIntrinsicF (fuel + 1) intrinsic sig caps bj retType 32 stack =
          some (.declined, stack)) ∧
       (∀ (simdSize : Nat) (a b : GenTree) (rest : List GenTree),
        varTypeIsArithmetic (jitType2PreciseVarType bj) = true →
        (caps.compExactlyDependsOn InstructionSet_AVX2 = true ∨
          varTypeIsFloating (jitType2PreciseVarType bj) = true ∨ simdSize ≠ 32) →
        simdSize ≠ 0 →
        stack = b :: a :: rest →
        impSpecialIntrinsicF (fuel + 1) intrinsic sig caps bj retType simdSize stack =
          some (.built (.node (.simdBinOp GT_ADD) retType [a, b] bj simdSize),
            rest))) := by
  intro fuel intrinsic sig caps bj retType stack hi h2
  have hclass : classify intrinsic = CaseTag.t_Vector128_Add := by
    rcases hi with rfl | rfl <;> rfl
  have hfl : varTypeIsIntegral (jitType2PreciseVarType bj) = true →
      varTypeIsFloating (jitType2PreciseVarType bj) = false := by
    cases jitType2PreciseVarType bj <;> simp [varTypeIsIntegral, varTypeIsFloating]
  constructor
  · intro hint havx
    have harith : varTypeIsArithmetic (jitType2PreciseVarType bj) = true := by
      simp [varTypeIsArithmetic, hint]
    rw [engine_step, hclass, applyCase_t_Vector128_Add]
    rw [if_neg (by simp [harith])]
    simp [caseOf_Vector128_Add, h2, hfl hint, havx]
  · intro simdSize a b rest harith hcond hnz hstack
    subst hstack
    rw [engine_step, hclass, applyCase_t_Vector128_Add]
    rw [if_neg (by simp [hnz, harith])]
    simp only [caseOf_Vector128_Add]
    rw [if_neg (by simp [h2])]
    rw [if_pos (by
      rcases hcond with h | h | h
      · simp [hnz, h]
      · simp [hnz, h]
      · simp [hnz, h])]
    rfl

/-- Witness for C4: integer 256-bit add declines when AVX2 is not
statically guaranteed. -/
theorem vector256_add_avx2_gate_witness :
    impSpecialIntrinsicF 1 NI_Vector256_Add (sigN 2) capsNone CORINFO_TYPE_INT
      TYP_SIMD32 32 [GenTree.other 0 TYP_SIMD32 false, GenTree.other 1 TYP_SIMD32 false] =
      some (.declined,
        [GenTree.other 0 TYP_SIMD32 false, GenTree.other 1 TYP_SIMD32 false]) :=
  (vector256_add_avx2_gate 0 NI_Vector256_Add (sigN 2) capsNone CORINFO_TYPE_INT
    TYP_SIMD32 [GenTree.other 0 TYP_SIMD32 false, GenTree.other 1 TYP_SIMD32 false]
    (Or.inl rfl) rfl).1 rfl rfl

/-- **C5, counterexample.**  The claim says `GetElement` declines when
the index operand is a compile-time constant outside
`[0, simdSize/elementSize)`.  It does not: at
`Vector128.GetElement<float>` with constant index 99 (lane count 4) the
engine pops both operands and returns a built `GetElement` node carrying
index 99 — the decline outcome never occurs; range handling is
delegated to the (external) node constructor / software path. -/
theorem getElement_out_of_range_builds :
    impSpecialIntrinsicF 1 NI_Vector128_GetElement (sigN 2) capsNone CORINFO_TYPE_FLOAT
        TYP_FLOAT 16 [GenTree.icon 99, GenTree.other 0 TYP_SIMD16 false] =
      some (.built (.node .simdGetElement TYP_FLOAT
        [GenTree.other 0 TYP_SIMD16 false, GenTree.icon 99] CORINFO_TYPE_FLOAT 16), []) ∧
    ∀ es : List GenTree,
      impSpecialIntrinsicF 1 NI_Vector128_GetElement (sigN 2) capsNone CORINFO_TYPE_FLOAT
          TYP_FLOAT 16 [GenTree.icon 99, GenTree.other 0 TYP_SIMD16 false] ≠
        some (.declined, es) := by
  refine ⟨rfl, fun es h => ?_⟩
  rw [show impSpecialIntrinsicF 1 NI_Vector128_GetElement (sigN 2) capsNone
      CORINFO_TYPE_FLOAT TYP_FLOAT 16
      [GenTree.icon 99, GenTree.other 0 TYP_SIMD16 false] =
    some (.built (.node .simdGetElement TYP_FLOAT
      [GenTree.other 0 TYP_SIMD16 false, GenTree.icon 99] CORINFO_TYPE_FLOAT 16), [])
    from rfl] at h
  simp at h

/-- **C5, amended.**  For the `WithElement` intrinsics (all three
widths, three arguments, index at stack depth 1): if the index operand
is not a compile-time constant, or is a constant outside
`[0, simdSize/elementSize)`, the engine declines by returning the null
sentinel with the stack exactly as found.  (For `GetElement` the engine
performs no index-range validation; see the counterexample.) -/
theorem withElement_index_validation :
    ∀ (fuel : Nat) (intrinsic : NamedIntrinsic) (sig : HWSig) (caps : CompCaps)
      (bj : CorInfoType) (retType : VarType) (simdSize : Nat) (stack : List GenTree)
      (indexOp : GenTree),
      (intrinsic = NI_Vector128_WithElement ∨ intrinsic = NI_Vector256_WithElement ∨
        intrinsic = NI_Vector512_WithElement) →
      sig.numArgs = 3 →
      varTypeIsArithmetic (jitType2PreciseVarType bj) = true →
      simdSize ≠ 0 →
      stack.get? 1 = some indexOp →
      ((indexOp.OperIsConst = false →
          impSpecialIntrinsicF (fuel + 1) intrinsic sig caps bj retType simdSize stack =
            some (.declined, stack)) ∧
       (∀ v : Int, indexOp = .icon v →
          (v < 0 ∨ ((simdSize / genTypeSize (jitType2PreciseVarType bj) : Nat) : Int) ≤ v) →
          impSpecialIntrinsicF (fuel + 1) intrinsic sig caps bj retType simdSize stack =
            some (.declined, stack))) := by
  intro fuel intrinsic sig caps bj retType simdSize stack indexOp hi h3 harith hnz hpeek
  have hclass : classify intrinsic = CaseTag.t_Vector128_WithElement := by
    rcases hi with rfl | rfl | rfl <;> rfl
  constructor
  · intro hnc
    rw [engine_step, hclass, applyCase_t_Vector128_WithElement]
    rw [if_neg (by simp [hnz, harith])]
    simp only [caseOf_Vector128_WithElement]
    rw [if_neg (by simp [h3])]
    rw [hpeek]
    simp [hnc]
  · intro v hv hrange
    subst hv
    rw [engine_step, hclass, applyCase_t_Vector128_WithElement]
    rw [show (if simdSize ≠ 0 then jitType2PreciseVarType bj else TYP_UNKNOWN) =
      jitType2PreciseVarType bj from if_pos hnz]
    rw [if_neg (by simp [hnz, harith])]
    simp only [caseOf_Vector128_WithElement]
    rw [if_neg (by simp [h3])]
    rw [hpeek]
    simp only [GenTree.OperIsConst, GenTree.AsIntConIconValue]
    rw [if_neg (by simp)]
    rw [if_pos (by
      rcases hrange with h | h
      · exact Or.inr h
      · exact Or.inl h)]

/-- Witness for C5 (amended): `Vector128.WithElement<int>` with constant
index 7 and lane count 4 declines, leaving the stack untouched. -/
theorem withElement_index_validation_witness :
    impSpecialIntrinsicF 1 NI_Vector128_WithElement (sigN 3) capsAll CORINFO_TYPE_INT
      TYP_SIMD16 16
      [GenTree.other 2 TYP_INT false, GenTree.icon 7, GenTree.other 0 TYP_SIMD16 false] =
      some (.declined,
        [GenTree.other 2 TYP_INT false, GenTree.icon 7,
         GenTree.other 0 TYP_SIMD16 false]) :=
  (withElement_index_validation 0 NI_Vector128_WithElement (sigN 3) capsAll
    CORINFO_TYPE_INT TYP_SIMD16 16
    [GenTree.other 2 TYP_INT false, GenTree.icon 7, GenTree.other 0 TYP_SIMD16 false]
    (GenTree.icon 7) (Or.inl rfl) rfl rfl (by decide) rfl).2 7 rfl
    (Or.inr (by decide))

/-- **C6.**  `Shuffle` on the 32-byte shape with 1- or 2-byte integer
elements and a constant index vector on top of the stack: if some
in-range index value maps an element across the 128-bit half boundary
relative to its destination half (destination lane in the low half with
source index in the high half, or vice versa), the engine declines —
returning the null sentinel with the stack as found, whatever the
capability oracle says — and never emits a node. -/
theorem shuffle_crossLane_declines :
    ∀ (fuel : Nat) (sig : HWSig) (caps : CompCaps) (bj : CorInfoType)
      (retType : VarType) (stack : List GenTree) (ty : VarType) (lanes : List Int)
      (k : Nat),
      (sig.numArgs = 2 ∨ sig.numArgs = 3) →
      varTypeIsSmallInt (jitType2PreciseVarType bj) = true →
      stack.get? 0 = some (.vecCon ty lanes) →
      k < 32 / genTypeSize (jitType2PreciseVarType bj) →
      (GenTree.GetIntegralVectorConstElement (.vecCon ty lanes) k
          (jitType2PreciseVarType bj) <
        ((32 / genTypeSize (jitType2PreciseVarType bj) : Nat) : Int)) →
      ((k < 32 / genTypeSize (jitType2PreciseVarType bj) / 2 ∧
        (((32 / genTypeSize (jitType2PreciseVarType bj) / 2 : Nat) : Int) ≤
          GenTree.GetIntegralVectorConstElement (.vecCon ty lanes) k
            (jitType2PreciseVarType bj))) ∨
       (32 / genTypeSize (jitType2PreciseVarType bj) / 2 ≤ k ∧
        GenTree.GetIntegralVectorConstElement (.vecCon ty lanes) k
          (jitType2PreciseVarType bj) <
          ((32 / genTypeSize (jitType2PreciseVarType bj) / 2 : Nat) : Int))) →
      impSpecialIntrinsicF (fuel + 1) NI_Vector256_Shuffle sig caps bj retType 32 stack =
        some (.declined, stack) := by
  intro fuel sig caps bj retType stack ty lanes k hnum hsmall hpeek hk hval hcross
  have harith : varTypeIsArithmetic (jitType2PreciseVarType bj) = true := by
    cases h : jitType2PreciseVarType bj <;>
      simp_all [varTypeIsSmallInt, varTypeIsArithmetic, varTypeIsIntegral,
        varTypeIsFloating]
  have hcrossb : crossLaneDetect (.vecCon ty lanes) (jitType2PreciseVarType bj)
      (32 / genTypeSize (jitType2PreciseVarType bj)) = true := by
    unfold crossLaneDetect
    refine List.any_eq_true.mpr ⟨k, List.mem_range.mpr hk, ?_⟩
    rw [if_neg (not_le.mpr hval)]
    rcases hcross with ⟨hkh, hv⟩ | ⟨hkh, hv⟩
    · rw [if_pos hkh]
      exact decide_eq_true hv
    · rw [if_neg (not_lt.mpr hkh)]
      exact decide_eq_true hv
  rw [engine_step,
    show classify NI_Vector256_Shuffle = CaseTag.t_Vector128_Shuffle from rfl,
    applyCase_t_Vector128_Shuffle,
    show (if (32 : Nat) ≠ 0 then jitType2PreciseVarType bj else TYP_UNKNOWN) =
      jitType2PreciseVarType bj from if_pos (by decide)]
  rw [if_neg (by simp [harith])]
  simp only [caseOf_Vector128_Shuffle]
  rw [if_neg (not_not_intro hnum)]
  rw [hpeek]
  by_cases hA : caps.compExactlyDependsOn InstructionSet_AVX2 = false
  · simp [GenTree.IsVectorConst, hA]
  · simp [GenTree.IsVectorConst, hA, hsmall, hcrossb]

/-- Witness for C6: a 16-lane short shuffle whose index vector sends
lane 0 (low half) to source index 8 (high half) declines even with all
capabilities available. -/
theorem shuffle_crossLane_declines_witness :
    impSpecialIntrinsicF 1 NI_Vector256_Shuffle (sigN 2) capsAll CORINFO_TYPE_SHORT
      TYP_SIMD32 32
      [GenTree.vecCon TYP_SIMD32 [8], GenTree.other 1 TYP_SIMD32 false,
       GenTree.other 0 TYP_SIMD32 false] =
      some (.declined,
        [GenTree.vecCon TYP_SIMD32 [8], GenTree.other 1 TYP_SIMD32 false,
         GenTree.other 0 TYP_SIMD32 false]) :=
  shuffle_crossLane_declines 0 (sigN 2) capsAll CORINFO_TYPE_SHORT TYP_SIMD32
    [GenTree.vecCon TYP_SIMD32 [8], GenTree.other 1 TYP_SIMD32 false,
     GenTree.other 0 TYP_SIMD32 false] TYP_SIMD32 [8] 0
    (Or.inl rfl) rfl rfl (by decide) (by decide)
    (Or.inl ⟨by decide, by decide⟩)

/-- The fold loop consumes exactly `pre.length` stack entries and leaves
the remainder untouched. -/
lemma createFoldLoop_append (f : GenTree → Int) (len : Nat) :
    ∀ (pre rest : List GenTree) (idx : Nat) (lanes : List Int),
      createFoldLoop f len idx pre.length (pre ++ rest) lanes =
        some (lanesOut f len idx pre lanes, rest) := by
  intro pre
  induction pre with
  | nil => intro rest idx lanes; rfl
  | cons a t ih =>
    intro rest idx lanes
    rw [List.length_cons, List.cons_append]
    rw [show createFoldLoop f len idx (t.length + 1) (a :: (t ++ rest)) lanes =
      createFoldLoop f len (idx + 1) t.length (t ++ rest)
        (lanes.set (len - 1 - idx) (f a)) from rfl]
    rw [ih rest (idx + 1) (lanes.set (len - 1 - idx) (f a))]
    rfl

/-- Writing lane `len - 1 - idx` of an all-zero prefix peels one zero. -/
lemma set_replicate_last (m : Nat) (v : Int) :
    (List.replicate (m + 1) (0 : Int)).set m v = List.replicate m 0 ++ [v] := by
  induction m with
  | zero => rfl
  | succ k ih =>
    rw [List.replicate_succ, List.set_cons_succ, ih]
    rfl

/-- The lane writes of the fold fill the vector from the top lane down:
over a zero block they produce the reversed pop order. -/
lemma lanesOut_fill (f : GenTree → Int) (len : Nat) :
    ∀ (pre : List GenTree) (idx : Nat) (acc : List Int),
      idx + pre.length = len →
      lanesOut f len idx pre (List.replicate (len - idx) 0 ++ acc) =
        pre.reverse.map f ++ acc := by
  intro pre
  induction pre with
  | nil =>
    intro idx acc h
    rw [lanesOut]
    simp at h
    subst h
    simp
  | cons a t ih =>
    intro idx acc h
    rw [lanesOut]
    have hidx : idx < len := by
      rw [List.length_cons] at h; omega
    have hrep : len - idx = (len - idx - 1) + 1 := by omega
    have hpos : len - 1 - idx < (List.replicate (len - idx) (0 : Int)).length := by
      simp; omega
    rw [List.set_append_left _ _ hpos]
    rw [show len - 1 - idx = len - idx - 1 by omega]
    rw [hrep, show len - idx - 1 + 1 - 1 = len - idx - 1 from by omega,
      set_replicate_last]
    rw [List.append_assoc]
    rw [show len - idx - 1 = len - (idx + 1) by omega, List.singleton_append]
    rw [ih (idx + 1) (f a :: acc) (by rw [List.length_cons] at h; omega)]
    simp

/-- The `Create` fold over the popped (reversed syntactic) argument list
produces the lanes in syntactic order: the pop order and the downward
lane fill cancel. -/
lemma createFoldLoop_eval (f : GenTree → Int) (args rest : List GenTree) :
    createFoldLoop f args.length 0 args.length (args.reverse ++ rest)
      (List.replicate args.length 0) = some (args.map f, rest) := by
  rw [show args.length = args.reverse.length from (List.length_reverse args).symm]
  rw [createFoldLoop_append f args.reverse.length args.reverse rest 0
    (List.replicate args.reverse.length 0)]
  have h := lanesOut_fill f args.reverse.length args.reverse 0 [] (by simp)
  rw [show (List.replicate (args.reverse.length - 0) (0 : Int) ++ []) =
    List.replicate args.reverse.length (0 : Int) by simp] at h
  rw [h]
  simp

/-- `getD` through `map` at an in-range index. -/
lemma getD_map_of_lt (f : GenTree → Int) (l : List GenTree) (d : GenTree)
    (i : Nat) (h : i < l.length) :
    (l.map f).getD i 0 = f (l.getD i d) := by
  induction l generalizing i with
  | nil => cases h
  | cons a t ih =>
    cases i with
    | zero => rfl
    | succ n => exact ih n (Nat.lt_of_succ_lt_succ h)

/-- The `isConstant` pre-scan succeeds (answering `true`) on a stack
whose top `n` entries are the reversed argument list, all constant. -/
lemma allArgsConst_reverse_true (p : GenTree → Bool) (args rest : List GenTree)
    (n : Nat) (hn : n = args.length) (hp : args.all p = true) :
    allArgsConst p n (args.reverse ++ rest) = some true := by
  subst hn
  unfold allArgsConst
  rw [if_pos (by simp)]
  rw [List.take_left' (by simp)]
  rw [List.all_reverse, hp]

/-- **C1, counterexample.**  The claim says lane `i` of the folded
`Create` literal equals the `(N-1-i)`-th syntactic argument.  At
`Vector128.Create<int>(1, 2, 3, 4)` (stack top = the last argument, 4)
the engine folds to the literal with lanes `[1, 2, 3, 4]`: lane 0 is 1,
the 0-th syntactic argument — not 4, the `(4-1-0)`-th one the claim
predicts. -/
theorem create_fold_lane_order_counterexample :
    impSpecialIntrinsicF 1 NI_Vector128_Create (sigN 4) capsNone CORINFO_TYPE_INT
        TYP_SIMD16 16 [GenTree.icon 4, GenTree.icon 3, GenTree.icon 2, GenTree.icon 1] =
      some (.built (.vecCon TYP_SIMD16 [1, 2, 3, 4]), []) ∧
    ¬ ([(1 : Int), 2, 3, 4].getD 0 0 =
        GenTree.AsIntConCommonIntegralValue
          ([GenTree.icon 1, GenTree.icon 2, GenTree.icon 3, GenTree.icon 4].getD
            (4 - 1 - 0) (GenTree.icon 0))) :=
  ⟨rfl, by decide⟩

/-- **C1, amended.**  For vector `Create` (all three widths) with
`N = lane count` compile-time-constant arguments of the element kind, the
engine folds to a constant-vector literal whose lane `i` (0-indexed from
least-significant) equals the folded payload of the `i`-th syntactic
argument (the `(N-1-i)`-th from the stack top): the arguments pop from
last to first while the lanes fill from index `count-1` down to 0, and
the two reversals cancel into syntactic order. -/
theorem create_fold_lane_order :
    ∀ (fuel : Nat) (intrinsic : NamedIntrinsic) (sig : HWSig) (caps : CompCaps)
      (bj : CorInfoType) (rt : VarType) (simdSize : Nat) (args rest : List GenTree),
      (intrinsic = NI_Vector128_Create ∨ intrinsic = NI_Vector256_Create ∨
        intrinsic = NI_Vector512_Create) →
      (simdSize = 16 ∨ simdSize = 32 ∨ simdSize = 64) →
      varTypeIsArithmetic (jitType2PreciseVarType bj) = true →
      sig.numArgs = args.length →
      args.length = getSIMDVectorLength simdSize (jitType2PreciseVarType bj) →
      args.all (fun a => if varTypeIsFloating (jitType2PreciseVarType bj)
        then a.IsCnsFltOrDbl else a.IsIntegralConst) = true →
      impSpecialIntrinsicF (fuel + 1) intrinsic sig caps bj rt simdSize
          (args.reverse ++ rest) =
        some (.built (.vecCon rt
          (args.map (laneExtract (jitType2PreciseVarType bj)))), rest) ∧
      ∀ i, i < args.length →
        (args.map (laneExtract (jitType2PreciseVarType bj))).getD i 0 =
          laneExtract (jitType2PreciseVarType bj) (args.getD i (GenTree.icon 0)) := by
  intro fuel intrinsic sig caps bj rt simdSize args rest hin hsz harith hnum hlen hconst
  have hclass : classify intrinsic = CaseTag.t_Vector128_Create := by
    rcases hin with rfl | rfl | rfl <;> rfl
  have hnz : simdSize ≠ 0 := by rcases hsz with rfl | rfl | rfl <;> decide
  have hsome : allArgsConst (fun a => if varTypeIsFloating (jitType2PreciseVarType bj)
      then a.IsCnsFltOrDbl else a.IsIntegralConst) sig.numArgs (args.reverse ++ rest) =
      some true := allArgsConst_reverse_true _ args rest _ hnum hconst
  refine ⟨?_, fun i hi => getD_map_of_lt _ args (GenTree.icon 0) i hi⟩
  rw [engine_step, hclass, applyCase_t_Vector128_Create,
    if_neg (by simp [hnz, harith]),
    show (if simdSize ≠ 0 then jitType2PreciseVarType bj else VarType.TYP_UNKNOWN) =
      jitType2PreciseVarType bj from if_pos hnz]
  generalize hg : jitType2PreciseVarType bj = bt at harith hlen hsome ⊢
  rcases hsz with rfl | rfl | rfl <;> cases bt <;>
    first
    | exact absurd harith (by decide)
    | (simp only [caseOf_Vector128_Create]
       rw [if_neg (by rw [hnum, hlen]; decide)]
       rw [if_neg (by rw [hnum, hlen]; decide)]
       rw [hsome, hnum, ← hlen]
       simp only [createFoldU8, createFoldU16, createFoldU32, createFoldU64,
         createFoldFloat, createFoldDouble, laneExtract, createFoldLoop_eval]
       rw [if_pos trivial, if_neg (by simp)])

/-- Witness for C1 (amended): `Vector128.Create<int>(1, 2, 3, 4)` folds
to the literal with lanes `[1, 2, 3, 4]` — lane `i` is the `i`-th
syntactic argument. -/
theorem create_fold_lane_order_witness :
    impSpecialIntrinsicF 1 NI_Vector128_Create (sigN 4) capsNone CORINFO_TYPE_INT
        TYP_SIMD16 16 [GenTree.icon 4, GenTree.icon 3, GenTree.icon 2, GenTree.icon 1] =
      some (.built (.vecCon TYP_SIMD16 [1, 2, 3, 4]), []) :=
  (create_fold_lane_order 0 NI_Vector128_Create (sigN 4) capsNone CORINFO_TYPE_INT
    TYP_SIMD16 16 [GenTree.icon 1, GenTree.icon 2, GenTree.icon 3, GenTree.icon 4] []
    (Or.inl rfl) (Or.inl rfl) rfl rfl rfl rfl).1

/-- **C10.**  The `TYP_DOUBLE` arm of the `Create` constant fold: despite
the inner `double cnsVal` declaration shadowing the outer variable of the
same name, every folded f64 lane write uses the freshly popped
argument's value for that iteration — lane `i` is the (cast) payload of
the `i`-th syntactic argument, the same lane rule the `TYP_FLOAT` arm
produces for its element kind. -/
theorem typDouble_create_fold_fresh_pops :
    ∀ (fuel : Nat) (intrinsic : NamedIntrinsic) (sig : HWSig) (caps : CompCaps)
      (rt : VarType) (simdSize : Nat) (args rest : List GenTree),
      (intrinsic = NI_Vector128_Create ∨ intrinsic = NI_Vector256_Create ∨
        intrinsic = NI_Vector512_Create) →
      (simdSize = 16 ∨ simdSize = 32 ∨ simdSize = 64) →
      sig.numArgs = args.length →
      args.length = getSIMDVectorLength simdSize VarType.TYP_DOUBLE →
      args.all GenTree.IsCnsFltOrDbl = true →
      impSpecialIntrinsicF (fuel + 1) intrinsic sig caps CORINFO_TYPE_DOUBLE rt simdSize
          (args.reverse ++ rest) =
        some (.built (.vecCon rt
          (args.map (fun a => staticCastDouble a.AsDblConDconValue))), rest) ∧
      (∀ i, i < args.length →
        (args.map (fun a => staticCastDouble a.AsDblConDconValue)).getD i 0 =
          staticCastDouble (args.getD i (GenTree.icon 0)).AsDblConDconValue) ∧
      args.map (fun a => staticCastDouble a.AsDblConDconValue) =
        args.map (fun a => staticCastFloat a.AsDblConDconValue) := by
  intro fuel intrinsic sig caps rt simdSize args rest hin hsz hnum hlen hconst
  have hclass : classify intrinsic = CaseTag.t_Vector128_Create := by
    rcases hin with rfl | rfl | rfl <;> rfl
  have hnz : simdSize ≠ 0 := by rcases hsz with rfl | rfl | rfl <;> decide
  have harith : varTypeIsArithmetic (jitType2PreciseVarType CORINFO_TYPE_DOUBLE) =
      true := rfl
  have hsome : allArgsConst (fun a =>
      if varTypeIsFloating VarType.TYP_DOUBLE then a.IsCnsFltOrDbl
      else a.IsIntegralConst) sig.numArgs (args.reverse ++ rest) = some true :=
    allArgsConst_reverse_true _ args rest _ hnum hconst
  refine ⟨?_, fun i hi => getD_map_of_lt _ args (GenTree.icon 0) i hi, rfl⟩
  rw [engine_step, hclass, applyCase_t_Vector128_Create,
    if_neg (by simp [hnz, harith]),
    show (if simdSize ≠ 0 then jitType2PreciseVarType CORINFO_TYPE_DOUBLE
      else VarType.TYP_UNKNOWN) = jitType2PreciseVarType CORINFO_TYPE_DOUBLE
      from if_pos hnz,
    show jitType2PreciseVarType CORINFO_TYPE_DOUBLE = VarType.TYP_DOUBLE from rfl]
  rcases hsz with rfl | rfl | rfl <;>
    (simp only [caseOf_Vector128_Create]
     rw [if_neg (by rw [hnum, hlen]; decide)]
     rw [if_neg (by rw [hnum, hlen]; decide)]
     rw [hsome, hnum, ← hlen]
     simp only [createFoldDouble, createFoldLoop_eval]
     rw [if_pos trivial, if_neg (by simp)])

/-- Witness for C10: `Vector128.Create<double>(5.0, 7.0)` folds to the
literal with lanes `[5, 7]` — each lane from that iteration's fresh
pop. -/
theorem typDouble_create_fold_fresh_pops_witness :
    impSpecialIntrinsicF 1 NI_Vector128_Create (sigN 2) capsNone CORINFO_TYPE_DOUBLE
        TYP_SIMD16 16 [GenTree.fcon 7, GenTree.fcon 5] =
      some (.built (.vecCon TYP_SIMD16 [5, 7]), []) :=
  (typDouble_create_fold_fresh_pops 0 NI_Vector128_Create (sigN 2) capsNone
    TYP_SIMD16 16 [GenTree.fcon 5, GenTree.fcon 7] []
    (Or.inl rfl) (Or.inl rfl) rfl rfl rfl).1

/-! Decline paths leave the stack untouched: one lemma per dispatch case. -/

lemma dn_Vector128_Abs :
    ∀ (i : NamedIntrinsic) (sig : HWSig) (caps : CompCaps) (bj : CorInfoType)
      (rt : VarType) (sz : Nat) (bt : VarType) (stack es : List GenTree),
      caseOf_Vector128_Abs i sig caps bj rt sz bt stack = some (.declined, es) →
      es = stack := by
  intro i sig caps bj rt sz bt stack es h
  simp only [caseOf_Vector128_Abs, pop1Build, pop2Build, pop3Build] at h
  repeat' split at h
  all_goals simp_all

lemma dn_Vector128_Add :
    ∀ (i : NamedIntrinsic) (sig : HWSig) (caps : CompCaps) (bj : CorInfoType)
      (rt : VarType) (sz : Nat) (bt : VarType) (stack es : List GenTree),
      caseOf_Vector128_Add i sig caps bj rt sz bt stack = some (.declined, es) →
      es = stack := by
  intro i sig caps bj rt sz bt stack es h
  simp only [caseOf_Vector128_Add, pop1Build, pop2Build, pop3Build] at h
  repeat' split at h
  all_goals simp_all

lemma dn_Vector128_AndNot :
    ∀ (i : NamedIntrinsic) (sig : HWSig) (caps : CompCaps) (bj : CorInfoType)
      (rt : VarType) (sz : Nat) (bt : VarType) (stack es : List GenTree),
      caseOf_Vector128_AndNot i sig caps bj rt sz bt stack = some (.declined, es) →
      es = stack := by
  intro i sig caps bj rt sz bt stack es h
  simp only [caseOf_Vector128_AndNot, pop1Build, pop2Build, pop3Build] at h
  repeat' split at h
  all_goals simp_all

lemma dn_Vector128_As :
    ∀ (i : NamedIntrinsic) (sig : HWSig) (caps : CompCaps) (bj : CorInfoType)
      (rt : VarType) (sz : Nat) (bt : VarType) (stack es : List GenTree),
      caseOf_Vector128_As i sig caps bj rt sz bt stack = some (.declined, es) →
      es = stack := by
  intro i sig caps bj rt sz bt stack es h
  simp only [caseOf_Vector128_As, pop1Build, pop2Build, pop3Build] at h
  repeat' split at h
  all_goals simp_all

lemma dn_Vector128_AsVector2 :
    ∀ (i : NamedIntrinsic) (sig : HWSig) (caps : CompCaps) (bj : CorInfoType)
      (rt : VarType) (sz : Nat) (bt : VarType) (stack es : List GenTree),
      caseOf_Vector128_AsVector2 i sig caps bj rt sz bt stack = some (.declined, es) →
      es = stack := by
  intro i sig caps bj rt sz bt stack es h
  simp only [caseOf_Vector128_AsVector2, pop1Build, pop2Build, pop3Build] at h
  repeat' split at h
  all_goals simp_all

lemma dn_Vector128_BitwiseAnd :
    ∀ (i : NamedIntrinsic) (sig : HWSig) (caps : CompCaps) (bj : CorInfoType)
      (rt : VarType) (sz : Nat) (bt : VarType) (stack es : List GenTree),
      caseOf_Vector128_BitwiseAnd i sig caps bj rt sz bt stack = some (.declined, es) →
      es = stack := by
  intro i sig caps bj rt sz bt stack es h
  simp only [caseOf_Vector128_BitwiseAnd, pop1Build, pop2Build, pop3Build] at h
  repeat' split at h
  all_goals simp_all

lemma dn_Vector128_BitwiseOr :
    ∀ (i : NamedIntrinsic) (sig : HWSig) (caps : CompCaps) (bj : CorInfoType)
      (rt : VarType) (sz : Nat) (bt : VarType) (stack es : List GenTree),
      caseOf_Vector128_BitwiseOr i sig caps bj rt sz bt stack = some (.declined, es) →
      es = stack := by
  intro i sig caps bj rt sz bt stack es h
  simp only [caseOf_Vector128_BitwiseOr, pop1Build, pop2Build, pop3Build] at h
  repeat' split at h
  all_goals simp_all

lemma dn_Vector128_Ceiling :
    ∀ (i : NamedIntrinsic) (sig : HWSig) (caps : CompCaps) (bj : CorInfoType)
      (rt : VarType) (sz : Nat) (bt : VarType) (stack es : List GenTree),
      caseOf_Vector128_Ceiling i sig caps bj rt sz bt stack = some (.declined, es) →
      es = stack := by
  intro i sig caps bj rt sz bt stack es h
  simp only [caseOf_Vector128_Ceiling, pop1Build, pop2Build, pop3Build] at h
  repeat' split at h
  all_goals simp_all

lemma dn_Vector128_ConditionalSelect :
    ∀ (i : NamedIntrinsic) (sig : HWSig) (caps : CompCaps) (bj : CorInfoType)
      (rt : VarType) (sz : Nat) (bt : VarType) (stack es : List GenTree),
      caseOf_Vector128_ConditionalSelect i sig caps bj rt sz bt stack = some (.declined, es) →
      es = stack := by
  intro i sig caps bj rt sz bt stack es h
  simp only [caseOf_Vector128_ConditionalSelect, pop1Build, pop2Build, pop3Build] at h
  repeat' split at h
  all_goals simp_all

lemma dn_Vector128_ConvertToDouble :
    ∀ (i : NamedIntrinsic) (sig : HWSig) (caps : CompCaps) (bj : CorInfoType)
      (rt : VarType) (sz : Nat) (bt : VarType) (stack es : List GenTree),
      caseOf_Vector128_ConvertToDouble i sig caps bj rt sz bt stack = some (.declined, es) →
      es = stack := by
  intro i sig caps bj rt sz bt stack es h
  simp only [caseOf_Vector128_ConvertToDouble, pop1Build, pop2Build, pop3Build] at h
  repeat' split at h
  all_goals simp_all

lemma dn_Vector128_ConvertToInt32 :
    ∀ (i : NamedIntrinsic) (sig : HWSig) (caps : CompCaps) (bj : CorInfoType)
      (rt : VarType) (sz : Nat) (bt : VarType) (stack es : List GenTree),
      caseOf_Vector128_ConvertToInt32 i sig caps bj rt sz bt stack = some (.declined, es) →
      es = stack := by
  intro i sig caps bj rt sz bt stack es h
  simp only [caseOf_Vector128_ConvertToInt32, pop1Build, pop2Build, pop3Build] at h
  repeat' split at h
  all_goals simp_all

lemma dn_Vector128_ConvertToSingle :
    ∀ (i : NamedIntrinsic) (sig : HWSig) (caps : CompCaps) (bj : CorInfoType)
      (rt : VarType) (sz : Nat) (bt : VarType) (stack es : List GenTree),
      caseOf_Vector128_ConvertToSingle i sig caps bj rt sz bt stack = some (.declined, es) →
      es = stack := by
  intro i sig caps bj rt sz bt stack es h
  simp only [caseOf_Vector128_ConvertToSingle, pop1Build, pop2Build, pop3Build] at h
  repeat' split at h
  all_goals simp_all

lemma dn_Vector128_Create :
    ∀ (i : NamedIntrinsic) (sig : HWSig) (caps : CompCaps) (bj : CorInfoType)
      (rt : VarType) (sz : Nat) (bt : VarType) (stack es : List GenTree),
      caseOf_Vector128_Create i sig caps bj rt sz bt stack = some (.declined, es) →
      es = stack := by
  intro i sig caps bj rt sz bt stack es h
  simp only [caseOf_Vector128_Create, pop1Build, pop2Build, pop3Build] at h
  repeat' split at h
  all_goals simp_all

lemma dn_Vector128_CreateScalar :
    ∀ (i : NamedIntrinsic) (sig : HWSig) (caps : CompCaps) (bj : CorInfoType)
      (rt : VarType) (sz : Nat) (bt : VarType) (stack es : List GenTree),
      caseOf_Vector128_CreateScalar i sig caps bj rt sz bt stack = some (.declined, es) →
      es = stack := by
  intro i sig caps bj rt sz bt stack es h
  simp only [caseOf_Vector128_CreateScalar, pop1Build, pop2Build, pop3Build] at h
  repeat' split at h
  all_goals simp_all

lemma dn_Vector128_CreateScalarUnsafe :
    ∀ (i : NamedIntrinsic) (sig : HWSig) (caps : CompCaps) (bj : CorInfoType)
      (rt : VarType) (sz : Nat) (bt : VarType) (stack es : List GenTree),
      caseOf_Vector128_CreateScalarUnsafe i sig caps bj rt sz bt stack = some (.declined, es) →
      es = stack := by
  intro i sig caps bj rt sz bt stack es h
  simp only [caseOf_Vector128_CreateScalarUnsafe, pop1Build, pop2Build, pop3Build] at h
  repeat' split at h
  all_goals simp_all

lemma dn_Vector128_Divide :
    ∀ (i : NamedIntrinsic) (sig : HWSig) (caps : CompCaps) (bj : CorInfoType)
      (rt : VarType) (sz : Nat) (bt : VarType) (stack es : List GenTree),
      caseOf_Vector128_Divide i sig caps bj rt sz bt stack = some (.declined, es) →
      es = stack := by
  intro i sig caps bj rt sz bt stack es h
  simp only [caseOf_Vector128_Divide, pop1Build, pop2Build, pop3Build] at h
  repeat' split at h
  all_goals simp_all

lemma dn_Vector128_Dot :
    ∀ (i : NamedIntrinsic) (sig : HWSig) (caps : CompCaps) (bj : CorInfoType)
      (rt : VarType) (sz : Nat) (bt : VarType) (stack es : List GenTree),
      caseOf_Vector128_Dot i sig caps bj rt sz bt stack = some (.declined, es) →
      es = stack := by
  intro i sig caps bj rt sz bt stack es h
  simp only [caseOf_Vector128_Dot, pop1Build, pop2Build, pop3Build] at h
  repeat' split at h
  all_goals simp_all

lemma dn_Vector128_Equals :
    ∀ (i : NamedIntrinsic) (sig : HWSig) (caps : CompCaps) (bj : CorInfoType)
      (rt : VarType) (sz : Nat) (bt : VarType) (stack es : List GenTree),
      caseOf_Vector128_Equals i sig caps bj rt sz bt stack = some (.declined, es) →
      es = stack := by
  intro i sig caps bj rt sz bt stack es h
  simp only [caseOf_Vector128_Equals, pop1Build, pop2Build, pop3Build] at h
  repeat' split at h
  all_goals simp_all

lemma dn_Vector512_EqualsAll :
    ∀ (i : NamedIntrinsic) (sig : HWSig) (caps : CompCaps) (bj : CorInfoType)
      (rt : VarType) (sz : Nat) (bt : VarType) (stack es : List GenTree),
      caseOf_Vector512_EqualsAll i sig caps bj rt sz bt stack = some (.declined, es) →
      es = stack := by
  intro i sig caps bj rt sz bt stack es h
  simp only [caseOf_Vector512_EqualsAll, pop1Build, pop2Build, pop3Build] at h
  repeat' split at h
  all_goals simp_all

lemma dn_Vector128_EqualsAll :
    ∀ (i : NamedIntrinsic) (sig : HWSig) (caps : CompCaps) (bj : CorInfoType)
      (rt : VarType) (sz : Nat) (bt : VarType) (stack es : List GenTree),
      caseOf_Vector128_EqualsAll i sig caps bj rt sz bt stack = some (.declined, es) →
      es = stack := by
  intro i sig caps bj rt sz bt stack es h
  simp only [caseOf_Vector128_EqualsAll, pop1Build, pop2Build, pop3Build] at h
  repeat' split at h
  all_goals simp_all

lemma dn_Vector512_EqualsAny :
    ∀ (i : NamedIntrinsic) (sig : HWSig) (caps : CompCaps) (bj : CorInfoType)
      (rt : VarType) (sz : Nat) (bt : VarType) (stack es : List GenTree),
      caseOf_Vector512_EqualsAny i sig caps bj rt sz bt stack = some (.declined, es) →
      es = stack := by
  intro i sig caps bj rt sz bt stack es h
  simp only [caseOf_Vector512_EqualsAny, pop1Build, pop2Build, pop3Build] at h
  repeat' split at h
  all_goals simp_all

lemma dn_Vector128_EqualsAny :
    ∀ (i : NamedIntrinsic) (sig : HWSig) (caps : CompCaps) (bj : CorInfoType)
      (rt : VarType) (sz : Nat) (bt : VarType) (stack es : List GenTree),
      caseOf_Vector128_EqualsAny i sig caps bj rt sz bt stack = some (.declined, es) →
      es = stack := by
  intro i sig caps bj rt sz bt stack es h
  simp only [caseOf_Vector128_EqualsAny, pop1Build, pop2Build, pop3Build] at h
  repeat' split at h
  all_goals simp_all

lemma dn_Vector512_ExtractMostSignificantBits :
    ∀ (i : NamedIntrinsic) (sig : HWSig) (caps : CompCaps) (bj : CorInfoType)
      (rt : VarType) (sz : Nat) (bt : VarType) (stack es : List GenTree),
      caseOf_Vector512_ExtractMostSignificantBits i sig caps bj rt sz bt stack = some (.declined, es) →
      es = stack := by
  intro i sig caps bj rt sz bt stack es h
  simp only [caseOf_Vector512_ExtractMostSignificantBits, pop1Build, pop2Build, pop3Build] at h
  repeat' split at h
  all_goals simp_all

lemma dn_Vector128_ExtractMostSignificantBits :
    ∀ (i : NamedIntrinsic) (sig : HWSig) (caps : CompCaps) (bj : CorInfoType)
      (rt : VarType) (sz : Nat) (bt : VarType) (stack es : List GenTree),
      caseOf_Vector128_ExtractMostSignificantBits i sig caps bj rt sz bt stack = some (.declined, es) →
      es = stack := by
  intro i sig caps bj rt sz bt stack es h
  simp only [caseOf_Vector128_ExtractMostSignificantBits, pop1Build, pop2Build, pop3Build] at h
  repeat' split at h
  all_goals simp_all

lemma dn_Vector128_Floor :
    ∀ (i : NamedIntrinsic) (sig : HWSig) (caps : CompCaps) (bj : CorInfoType)
      (rt : VarType) (sz : Nat) (bt : VarType) (stack es : List GenTree),
      caseOf_Vector128_Floor i sig caps bj rt sz bt stack = some (.declined, es) →
      es = stack := by
  intro i sig caps bj rt sz bt stack es h
  simp only [caseOf_Vector128_Floor, pop1Build, pop2Build, pop3Build] at h
  repeat' split at h
  all_goals simp_all

lemma dn_Vector128_get_AllBitsSet :
    ∀ (i : NamedIntrinsic) (sig : HWSig) (caps : CompCaps) (bj : CorInfoType)
      (rt : VarType) (sz : Nat) (bt : VarType) (stack es : List GenTree),
      caseOf_Vector128_get_AllBitsSet i sig caps bj rt sz bt stack = some (.declined, es) →
      es = stack := by
  intro i sig caps bj rt sz bt stack es h
  simp only [caseOf_Vector128_get_AllBitsSet, pop1Build, pop2Build, pop3Build] at h
  repeat' split at h
  all_goals simp_all

lemma dn_Vector128_get_One :
    ∀ (i : NamedIntrinsic) (sig : HWSig) (caps : CompCaps) (bj : CorInfoType)
      (rt : VarType) (sz : Nat) (bt : VarType) (stack es : List GenTree),
      caseOf_Vector128_get_One i sig caps bj rt sz bt stack = some (.declined, es) →
      es = stack := by
  intro i sig caps bj rt sz bt stack es h
  simp only [caseOf_Vector128_get_One, pop1Build, pop2Build, pop3Build] at h
  repeat' split at h
  all_goals simp_all

lemma dn_Vector128_get_Zero :
    ∀ (i : NamedIntrinsic) (sig : HWSig) (caps : CompCaps) (bj : CorInfoType)
      (rt : VarType) (sz : Nat) (bt : VarType) (stack es : List GenTree),
      caseOf_Vector128_get_Zero i sig caps bj rt sz bt stack = some (.declined, es) →
      es = stack := by
  intro i sig caps bj rt sz bt stack es h
  simp only [caseOf_Vector128_get_Zero, pop1Build, pop2Build, pop3Build] at h
  repeat' split at h
  all_goals simp_all

lemma dn_Vector128_GetElement :
    ∀ (i : NamedIntrinsic) (sig : HWSig) (caps : CompCaps) (bj : CorInfoType)
      (rt : VarType) (sz : Nat) (bt : VarType) (stack es : List GenTree),
      caseOf_Vector128_GetElement i sig caps bj rt sz bt stack = some (.declined, es) →
      es = stack := by
  intro i sig caps bj rt sz bt stack es h
  simp only [caseOf_Vector128_GetElement, pop1Build, pop2Build, pop3Build] at h
  repeat' split at h
  all_goals simp_all

lemma dn_Vector128_GreaterThan :
    ∀ (i : NamedIntrinsic) (sig : HWSig) (caps : CompCaps) (bj : CorInfoType)
      (rt : VarType) (sz : Nat) (bt : VarType) (stack es : List GenTree),
      caseOf_Vector128_GreaterThan i sig caps bj rt sz bt stack = some (.declined, es) →
      es = stack := by
  intro i sig caps bj rt sz bt stack es h
  simp only [caseOf_Vector128_GreaterThan, pop1Build, pop2Build, pop3Build] at h
  repeat' split at h
  all_goals simp_all

lemma dn_Vector128_GreaterThanAll :
    ∀ (i : NamedIntrinsic) (sig : HWSig) (caps : CompCaps) (bj : CorInfoType)
      (rt : VarType) (sz : Nat) (bt : VarType) (stack es : List GenTree),
      caseOf_Vector128_GreaterThanAll i sig caps bj rt sz bt stack = some (.declined, es) →
      es = stack := by
  intro i sig caps bj rt sz bt stack es h
  simp only [caseOf_Vector128_GreaterThanAll, pop1Build, pop2Build, pop3Build] at h
  repeat' split at h
  all_goals simp_all

lemma dn_Vector128_GreaterThanAny :
    ∀ (i : NamedIntrinsic) (sig : HWSig) (caps : CompCaps) (bj : CorInfoType)
      (rt : VarType) (sz : Nat) (bt : VarType) (stack es : List GenTree),
      caseOf_Vector128_GreaterThanAny i sig caps bj rt sz bt stack = some (.declined, es) →
      es = stack := by
  intro i sig caps bj rt sz bt stack es h
  simp only [caseOf_Vector128_GreaterThanAny, pop1Build, pop2Build, pop3Build] at h
  repeat' split at h
  all_goals simp_all

lemma dn_Vector128_GreaterThanOrEqual :
    ∀ (i : NamedIntrinsic) (sig : HWSig) (caps : CompCaps) (bj : CorInfoType)
      (rt : VarType) (sz : Nat) (bt : VarType) (stack es : List GenTree),
      caseOf_Vector128_GreaterThanOrEqual i sig caps bj rt sz bt stack = some (.declined, es) →
      es = stack := by
  intro i sig caps bj rt sz bt stack es h
  simp only [caseOf_Vector128_GreaterThanOrEqual, pop1Build, pop2Build, pop3Build] at h
  repeat' split at h
  all_goals simp_all

lemma dn_Vector128_GreaterThanOrEqualAll :
    ∀ (i : NamedIntrinsic) (sig : HWSig) (caps : CompCaps) (bj : CorInfoType)
      (rt : VarType) (sz : Nat) (bt : VarType) (stack es : List GenTree),
      caseOf_Vector128_GreaterThanOrEqualAll i sig caps bj rt sz bt stack = some (.declined, es) →
      es = stack := by
  intro i sig caps bj rt sz bt stack es h
  simp only [caseOf_Vector128_GreaterThanOrEqualAll, pop1Build, pop2Build, pop3Build] at h
  repeat' split at h
  all_goals simp_all

lemma dn_Vector128_GreaterThanOrEqualAny :
    ∀ (i : NamedIntrinsic) (sig : HWSig) (caps : CompCaps) (bj : CorInfoType)
      (rt : VarType) (sz : Nat) (bt : VarType) (stack es : List GenTree),
      caseOf_Vector128_GreaterThanOrEqualAny i sig caps bj rt sz bt stack = some (.declined, es) →
      es = stack := by
  intro i sig caps bj rt sz bt stack es h
  simp only [caseOf_Vector128_GreaterThanOrEqualAny, pop1Build, pop2Build, pop3Build] at h
  repeat' split at h
  all_goals simp_all

lemma dn_Vector128_LessThan :
    ∀ (i : NamedIntrinsic) (sig : HWSig) (caps : CompCaps) (bj : CorInfoType)
      (rt : VarType) (sz : Nat) (bt : VarType) (stack es : List GenTree),
      caseOf_Vector128_LessThan i sig caps bj rt sz bt stack = some (.declined, es) →
      es = stack := by
  intro i sig caps bj rt sz bt stack es h
  simp only [caseOf_Vector128_LessThan, pop1Build, pop2Build, pop3Build] at h
  repeat' split at h
  all_goals simp_all

lemma dn_Vector128_LessThanAll :
    ∀ (i : NamedIntrinsic) (sig : HWSig) (caps : CompCaps) (bj : CorInfoType)
      (rt : VarType) (sz : Nat) (bt : VarType) (stack es : List GenTree),
      caseOf_Vector128_LessThanAll i sig caps bj rt sz bt stack = some (.declined, es) →
      es = stack := by
  intro i sig caps bj rt sz bt stack es h
  simp only [caseOf_Vector128_LessThanAll, pop1Build, pop2Build, pop3Build] at h
  repeat' split at h
  all_goals simp_all

lemma dn_Vector128_LessThanAny :
    ∀ (i : NamedIntrinsic) (sig : HWSig) (caps : CompCaps) (bj : CorInfoType)
      (rt : VarType) (sz : Nat) (bt : VarType) (stack es : List GenTree),
      caseOf_Vector128_LessThanAny i sig caps bj rt sz bt stack = some (.declined, es) →
      es = stack := by
  intro i sig caps bj rt sz bt stack es h
  simp only [caseOf_Vector128_LessThanAny, pop1Build, pop2Build, pop3Build] at h
  repeat' split at h
  all_goals simp_all

lemma dn_Vector128_LessThanOrEqual :
    ∀ (i : NamedIntrinsic) (sig : HWSig) (caps : CompCaps) (bj : CorInfoType)
      (rt : VarType) (sz : Nat) (bt : VarType) (stack es : List GenTree),
      caseOf_Vector128_LessThanOrEqual i sig caps bj rt sz bt stack = some (.declined, es) →
      es = stack := by
  intro i sig caps bj rt sz bt stack es h
  simp only [caseOf_Vector128_LessThanOrEqual, pop1Build, pop2Build, pop3Build] at h
  repeat' split at h
  all_goals simp_all

lemma dn_Vector128_LessThanOrEqualAll :
    ∀ (i : NamedIntrinsic) (sig : HWSig) (caps : CompCaps) (bj : CorInfoType)
      (rt : VarType) (sz : Nat) (bt : VarType) (stack es : List GenTree),
      caseOf_Vector128_LessThanOrEqualAll i sig caps bj rt sz bt stack = some (.declined, es) →
      es = stack := by
  intro i sig caps bj rt sz bt stack es h
  simp only [caseOf_Vector128_LessThanOrEqualAll, pop1Build, pop2Build, pop3Build] at h
  repeat' split at h
  all_goals simp_all

lemma dn_Vector128_LessThanOrEqualAny :
    ∀ (i : NamedIntrinsic) (sig : HWSig) (caps : CompCaps) (bj : CorInfoType)
      (rt : VarType) (sz : Nat) (bt : VarType) (stack es : List GenTree),
      caseOf_Vector128_LessThanOrEqualAny i sig caps bj rt sz bt stack = some (.declined, es) →
      es = stack := by
  intro i sig caps bj rt sz bt stack es h
  simp only [caseOf_Vector128_LessThanOrEqualAny, pop1Build, pop2Build, pop3Build] at h
  repeat' split at h
  all_goals simp_all

lemma dn_SSE_LoadVector128 :
    ∀ (i : NamedIntrinsic) (sig : HWSig) (caps : CompCaps) (bj : CorInfoType)
      (rt : VarType) (sz : Nat) (bt : VarType) (stack es : List GenTree),
      caseOf_SSE_LoadVector128 i sig caps bj rt sz bt stack = some (.declined, es) →
      es = stack := by
  intro i sig caps bj rt sz bt stack es h
  simp only [caseOf_SSE_LoadVector128, pop1Build, pop2Build, pop3Build] at h
  repeat' split at h
  all_goals simp_all

lemma dn_Vector128_LoadAligned :
    ∀ (i : NamedIntrinsic) (sig : HWSig) (caps : CompCaps) (bj : CorInfoType)
      (rt : VarType) (sz : Nat) (bt : VarType) (stack es : List GenTree),
      caseOf_Vector128_LoadAligned i sig caps bj rt sz bt stack = some (.declined, es) →
      es = stack := by
  intro i sig caps bj rt sz bt stack es h
  simp only [caseOf_Vector128_LoadAligned, pop1Build, pop2Build, pop3Build] at h
  repeat' split at h
  all_goals simp_all

lemma dn_Vector128_LoadAlignedNonTemporal :
    ∀ (i : NamedIntrinsic) (sig : HWSig) (caps : CompCaps) (bj : CorInfoType)
      (rt : VarType) (sz : Nat) (bt : VarType) (stack es : List GenTree),
      caseOf_Vector128_LoadAlignedNonTemporal i sig caps bj rt sz bt stack = some (.declined, es) →
      es = stack := by
  intro i sig caps bj rt sz bt stack es h
  simp only [caseOf_Vector128_LoadAlignedNonTemporal, pop1Build, pop2Build, pop3Build] at h
  repeat' split at h
  all_goals simp_all

lemma dn_Vector128_Max :
    ∀ (i : NamedIntrinsic) (sig : HWSig) (caps : CompCaps) (bj : CorInfoType)
      (rt : VarType) (sz : Nat) (bt : VarType) (stack es : List GenTree),
      caseOf_Vector128_Max i sig caps bj rt sz bt stack = some (.declined, es) →
      es = stack := by
  intro i sig caps bj rt sz bt stack es h
  simp only [caseOf_Vector128_Max, pop1Build, pop2Build, pop3Build] at h
  repeat' split at h
  all_goals simp_all

lemma dn_Vector128_Min :
    ∀ (i : NamedIntrinsic) (sig : HWSig) (caps : CompCaps) (bj : CorInfoType)
      (rt : VarType) (sz : Nat) (bt : VarType) (stack es : List GenTree),
      caseOf_Vector128_Min i sig caps bj rt sz bt stack = some (.declined, es) →
      es = stack := by
  intro i sig caps bj rt sz bt stack es h
  simp only [caseOf_Vector128_Min, pop1Build, pop2Build, pop3Build] at h
  repeat' split at h
  all_goals simp_all

lemma dn_Vector128_Multiply :
    ∀ (i : NamedIntrinsic) (sig : HWSig) (caps : CompCaps) (bj : CorInfoType)
      (rt : VarType) (sz : Nat) (bt : VarType) (stack es : List GenTree),
      caseOf_Vector128_Multiply i sig caps bj rt sz bt stack = some (.declined, es) →
      es = stack := by
  intro i sig caps bj rt sz bt stack es h
  simp only [caseOf_Vector128_Multiply, pop1Build, pop2Build, pop3Build] at h
  repeat' split at h
  all_goals simp_all

lemma dn_Vector128_Narrow :
    ∀ (i : NamedIntrinsic) (sig : HWSig) (caps : CompCaps) (bj : CorInfoType)
      (rt : VarType) (sz : Nat) (bt : VarType) (stack es : List GenTree),
      caseOf_Vector128_Narrow i sig caps bj rt sz bt stack = some (.declined, es) →
      es = stack := by
  intro i sig caps bj rt sz bt stack es h
  simp only [caseOf_Vector128_Narrow, pop1Build, pop2Build, pop3Build] at h
  repeat' split at h
  all_goals simp_all

lemma dn_Vector128_Negate :
    ∀ (i : NamedIntrinsic) (sig : HWSig) (caps : CompCaps) (bj : CorInfoType)
      (rt : VarType) (sz : Nat) (bt : VarType) (stack es : List GenTree),
      caseOf_Vector128_Negate i sig caps bj rt sz bt stack = some (.declined, es) →
      es = stack := by
  intro i sig caps bj rt sz bt stack es h
  simp only [caseOf_Vector128_Negate, pop1Build, pop2Build, pop3Build] at h
  repeat' split at h
  all_goals simp_all

lemma dn_Vector128_OnesComplement :
    ∀ (i : NamedIntrinsic) (sig : HWSig) (caps : CompCaps) (bj : CorInfoType)
      (rt : VarType) (sz : Nat) (bt : VarType) (stack es : List GenTree),
      caseOf_Vector128_OnesComplement i sig caps bj rt sz bt stack = some (.declined, es) →
      es = stack := by
  intro i sig caps bj rt sz bt stack es h
  simp only [caseOf_Vector128_OnesComplement, pop1Build, pop2Build, pop3Build] at h
  repeat' split at h
  all_goals simp_all

lemma dn_Vector128_op_Inequality :
    ∀ (i : NamedIntrinsic) (sig : HWSig) (caps : CompCaps) (bj : CorInfoType)
      (rt : VarType) (sz : Nat) (bt : VarType) (stack es : List GenTree),
      caseOf_Vector128_op_Inequality i sig caps bj rt sz bt stack = some (.declined, es) →
      es = stack := by
  intro i sig caps bj rt sz bt stack es h
  simp only [caseOf_Vector128_op_Inequality, pop1Build, pop2Build, pop3Build] at h
  repeat' split at h
  all_goals simp_all

lemma dn_Vector512_op_Inequality :
    ∀ (i : NamedIntrinsic) (sig : HWSig) (caps : CompCaps) (bj : CorInfoType)
      (rt : VarType) (sz : Nat) (bt : VarType) (stack es : List GenTree),
      caseOf_Vector512_op_Inequality i sig caps bj rt sz bt stack = some (.declined, es) →
      es = stack := by
  intro i sig caps bj rt sz bt stack es h
  simp only [caseOf_Vector512_op_Inequality, pop1Build, pop2Build, pop3Build] at h
  repeat' split at h
  all_goals simp_all

lemma dn_Vector128_op_UnaryPlus :
    ∀ (i : NamedIntrinsic) (sig : HWSig) (caps : CompCaps) (bj : CorInfoType)
      (rt : VarType) (sz : Nat) (bt : VarType) (stack es : List GenTree),
      caseOf_Vector128_op_UnaryPlus i sig caps bj rt sz bt stack = some (.declined, es) →
      es = stack := by
  intro i sig caps bj rt sz bt stack es h
  simp only [caseOf_Vector128_op_UnaryPlus, pop1Build, pop2Build, pop3Build] at h
  repeat' split at h
  all_goals simp_all

lemma dn_Vector128_Subtract :
    ∀ (i : NamedIntrinsic) (sig : HWSig) (caps : CompCaps) (bj : CorInfoType)
      (rt : VarType) (sz : Nat) (bt : VarType) (stack es : List GenTree),
      caseOf_Vector128_Subtract i sig caps bj rt sz bt stack = some (.declined, es) →
      es = stack := by
  intro i sig caps bj rt sz bt stack es h
  simp only [caseOf_Vector128_Subtract, pop1Build, pop2Build, pop3Build] at h
  repeat' split at h
  all_goals simp_all

lemma dn_Vector128_ShiftLeft :
    ∀ (i : NamedIntrinsic) (sig : HWSig) (caps : CompCaps) (bj : CorInfoType)
      (rt : VarType) (sz : Nat) (bt : VarType) (stack es : List GenTree),
      caseOf_Vector128_ShiftLeft i sig caps bj rt sz bt stack = some (.declined, es) →
      es = stack := by
  intro i sig caps bj rt sz bt stack es h
  simp only [caseOf_Vector128_ShiftLeft, pop1Build, pop2Build, pop3Build] at h
  repeat' split at h
  all_goals simp_all

lemma dn_Vector128_ShiftRightArithmetic :
    ∀ (i : NamedIntrinsic) (sig : HWSig) (caps : CompCaps) (bj : CorInfoType)
      (rt : VarType) (sz : Nat) (bt : VarType) (stack es : List GenTree),
      caseOf_Vector128_ShiftRightArithmetic i sig caps bj rt sz bt stack = some (.declined, es) →
      es = stack := by
  intro i sig caps bj rt sz bt stack es h
  simp only [caseOf_Vector128_ShiftRightArithmetic, pop1Build, pop2Build, pop3Build] at h
  repeat' split at h
  all_goals simp_all

lemma dn_Vector128_ShiftRightLogical :
    ∀ (i : NamedIntrinsic) (sig : HWSig) (caps : CompCaps) (bj : CorInfoType)
      (rt : VarType) (sz : Nat) (bt : VarType) (stack es : List GenTree),
      caseOf_Vector128_ShiftRightLogical i sig caps bj rt sz bt stack = some (.declined, es) →
      es = stack := by
  intro i sig caps bj rt sz bt stack es h
  simp only [caseOf_Vector128_ShiftRightLogical, pop1Build, pop2Build, pop3Build] at h
  repeat' split at h
  all_goals simp_all

lemma dn_Vector128_Shuffle :
    ∀ (i : NamedIntrinsic) (sig : HWSig) (caps : CompCaps) (bj : CorInfoType)
      (rt : VarType) (sz : Nat) (bt : VarType) (stack es : List GenTree),
      caseOf_Vector128_Shuffle i sig caps bj rt sz bt stack = some (.declined, es) →
      es = stack := by
  intro i sig caps bj rt sz bt stack es h
  simp only [caseOf_Vector128_Shuffle, pop1Build, pop2Build, pop3Build] at h
  repeat' split at h
  all_goals simp_all

lemma dn_Vector128_Sqrt :
    ∀ (i : NamedIntrinsic) (sig : HWSig) (caps : CompCaps) (bj : CorInfoType)
      (rt : VarType) (sz : Nat) (bt : VarType) (stack es : List GenTree),
      caseOf_Vector128_Sqrt i sig caps bj rt sz bt stack = some (.declined, es) →
      es = stack := by
  intro i sig caps bj rt sz bt stack es h
  simp only [caseOf_Vector128_Sqrt, pop1Build, pop2Build, pop3Build] at h
  repeat' split at h
  all_goals simp_all

lemma dn_SSE_Store :
    ∀ (i : NamedIntrinsic) (sig : HWSig) (caps : CompCaps) (bj : CorInfoType)
      (rt : VarType) (sz : Nat) (bt : VarType) (stack es : List GenTree),
      caseOf_SSE_Store i sig caps bj rt sz bt stack = some (.declined, es) →
      es = stack := by
  intro i sig caps bj rt sz bt stack es h
  simp only [caseOf_SSE_Store, pop1Build, pop2Build, pop3Build] at h
  repeat' split at h
  all_goals simp_all

lemma dn_Vector128_Store :
    ∀ (i : NamedIntrinsic) (sig : HWSig) (caps : CompCaps) (bj : CorInfoType)
      (rt : VarType) (sz : Nat) (bt : VarType) (stack es : List GenTree),
      caseOf_Vector128_Store i sig caps bj rt sz bt stack = some (.declined, es) →
      es = stack := by
  intro i sig caps bj rt sz bt stack es h
  simp only [caseOf_Vector128_Store, pop1Build, pop2Build, pop3Build] at h
  repeat' split at h
  all_goals simp_all

lemma dn_Vector128_StoreAligned :
    ∀ (i : NamedIntrinsic) (sig : HWSig) (caps : CompCaps) (bj : CorInfoType)
      (rt : VarType) (sz : Nat) (bt : VarType) (stack es : List GenTree),
      caseOf_Vector128_StoreAligned i sig caps bj rt sz bt stack = some (.declined, es) →
      es = stack := by
  intro i sig caps bj rt sz bt stack es h
  simp only [caseOf_Vector128_StoreAligned, pop1Build, pop2Build, pop3Build] at h
  repeat' split at h
  all_goals simp_all

lemma dn_Vector128_StoreAlignedNonTemporal :
    ∀ (i : NamedIntrinsic) (sig : HWSig) (caps : CompCaps) (bj : CorInfoType)
      (rt : VarType) (sz : Nat) (bt : VarType) (stack es : List GenTree),
      caseOf_Vector128_StoreAlignedNonTemporal i sig caps bj rt sz bt stack = some (.declined, es) →
      es = stack := by
  intro i sig caps bj rt sz bt stack es h
  simp only [caseOf_Vector128_StoreAlignedNonTemporal, pop1Build, pop2Build, pop3Build] at h
  repeat' split at h
  all_goals simp_all

lemma dn_Vector128_Sum :
    ∀ (i : NamedIntrinsic) (sig : HWSig) (caps : CompCaps) (bj : CorInfoType)
      (rt : VarType) (sz : Nat) (bt : VarType) (stack es : List GenTree),
      caseOf_Vector128_Sum i sig caps bj rt sz bt stack = some (.declined, es) →
      es = stack := by
  intro i sig caps bj rt sz bt stack es h
  simp only [caseOf_Vector128_Sum, pop1Build, pop2Build, pop3Build] at h
  repeat' split at h
  all_goals simp_all

lemma dn_Vector128_ToScalar :
    ∀ (i : NamedIntrinsic) (sig : HWSig) (caps : CompCaps) (bj : CorInfoType)
      (rt : VarType) (sz : Nat) (bt : VarType) (stack es : List GenTree),
      caseOf_Vector128_ToScalar i sig caps bj rt sz bt stack = some (.declined, es) →
      es = stack := by
  intro i sig caps bj rt sz bt stack es h
  simp only [caseOf_Vector128_ToScalar, pop1Build, pop2Build, pop3Build] at h
  repeat' split at h
  all_goals simp_all

lemma dn_Vector128_ToVector256 :
    ∀ (i : NamedIntrinsic) (sig : HWSig) (caps : CompCaps) (bj : CorInfoType)
      (rt : VarType) (sz : Nat) (bt : VarType) (stack es : List GenTree),
      caseOf_Vector128_ToVector256 i sig caps bj rt sz bt stack = some (.declined, es) →
      es = stack := by
  intro i sig caps bj rt sz bt stack es h
  simp only [caseOf_Vector128_ToVector256, pop1Build, pop2Build, pop3Build] at h
  repeat' split at h
  all_goals simp_all

lemma dn_Vector256_GetLower :
    ∀ (i : NamedIntrinsic) (sig : HWSig) (caps : CompCaps) (bj : CorInfoType)
      (rt : VarType) (sz : Nat) (bt : VarType) (stack es : List GenTree),
      caseOf_Vector256_GetLower i sig caps bj rt sz bt stack = some (.declined, es) →
      es = stack := by
  intro i sig caps bj rt sz bt stack es h
  simp only [caseOf_Vector256_GetLower, pop1Build, pop2Build, pop3Build] at h
  repeat' split at h
  all_goals simp_all

lemma dn_Vector256_GetUpper :
    ∀ (i : NamedIntrinsic) (sig : HWSig) (caps : CompCaps) (bj : CorInfoType)
      (rt : VarType) (sz : Nat) (bt : VarType) (stack es : List GenTree),
      caseOf_Vector256_GetUpper i sig caps bj rt sz bt stack = some (.declined, es) →
      es = stack := by
  intro i sig caps bj rt sz bt stack es h
  simp only [caseOf_Vector256_GetUpper, pop1Build, pop2Build, pop3Build] at h
  repeat' split at h
  all_goals simp_all

lemma dn_Vector512_GetLower :
    ∀ (i : NamedIntrinsic) (sig : HWSig) (caps : CompCaps) (bj : CorInfoType)
      (rt : VarType) (sz : Nat) (bt : VarType) (stack es : List GenTree),
      caseOf_Vector512_GetLower i sig caps bj rt sz bt stack = some (.declined, es) →
      es = stack := by
  intro i sig caps bj rt sz bt stack es h
  simp only [caseOf_Vector512_GetLower, pop1Build, pop2Build, pop3Build] at h
  repeat' split at h
  all_goals simp_all

lemma dn_Vector512_GetUpper :
    ∀ (i : NamedIntrinsic) (sig : HWSig) (caps : CompCaps) (bj : CorInfoType)
      (rt : VarType) (sz : Nat) (bt : VarType) (stack es : List GenTree),
      caseOf_Vector512_GetUpper i sig caps bj rt sz bt stack = some (.declined, es) →
      es = stack := by
  intro i sig caps bj rt sz bt stack es h
  simp only [caseOf_Vector512_GetUpper, pop1Build, pop2Build, pop3Build] at h
  repeat' split at h
  all_goals simp_all

lemma dn_Vector128_ToVector512 :
    ∀ (i : NamedIntrinsic) (sig : HWSig) (caps : CompCaps) (bj : CorInfoType)
      (rt : VarType) (sz : Nat) (bt : VarType) (stack es : List GenTree),
      caseOf_Vector128_ToVector512 i sig caps bj rt sz bt stack = some (.declined, es) →
      es = stack := by
  intro i sig caps bj rt sz bt stack es h
  simp only [caseOf_Vector128_ToVector512, pop1Build, pop2Build, pop3Build] at h
  repeat' split at h
  all_goals simp_all

lemma dn_Vector128_WidenLower :
    ∀ (i : NamedIntrinsic) (sig : HWSig) (caps : CompCaps) (bj : CorInfoType)
      (rt : VarType) (sz : Nat) (bt : VarType) (stack es : List GenTree),
      caseOf_Vector128_WidenLower i sig caps bj rt sz bt stack = some (.declined, es) →
      es = stack := by
  intro i sig caps bj rt sz bt stack es h
  simp only [caseOf_Vector128_WidenLower, pop1Build, pop2Build, pop3Build] at h
  repeat' split at h
  all_goals simp_all

lemma dn_Vector128_WidenUpper :
    ∀ (i : NamedIntrinsic) (sig : HWSig) (caps : CompCaps) (bj : CorInfoType)
      (rt : VarType) (sz : Nat) (bt : VarType) (stack es : List GenTree),
      caseOf_Vector128_WidenUpper i sig caps bj rt sz bt stack = some (.declined, es) →
      es = stack := by
  intro i sig caps bj rt sz bt stack es h
  simp only [caseOf_Vector128_WidenUpper, pop1Build, pop2Build, pop3Build] at h
  repeat' split at h
  all_goals simp_all

lemma dn_Vector128_WithElement :
    ∀ (i : NamedIntrinsic) (sig : HWSig) (caps : CompCaps) (bj : CorInfoType)
      (rt : VarType) (sz : Nat) (bt : VarType) (stack es : List GenTree),
      caseOf_Vector128_WithElement i sig caps bj rt sz bt stack = some (.declined, es) →
      es = stack := by
  intro i sig caps bj rt sz bt stack es h
  simp only [caseOf_Vector128_WithElement, pop1Build, pop2Build, pop3Build] at h
  repeat' split at h
  all_goals simp_all

lemma dn_Vector256_WithLower :
    ∀ (i : NamedIntrinsic) (sig : HWSig) (caps : CompCaps) (bj : CorInfoType)
      (rt : VarType) (sz : Nat) (bt : VarType) (stack es : List GenTree),
      caseOf_Vector256_WithLower i sig caps bj rt sz bt stack = some (.declined, es) →
      es = stack := by
  intro i sig caps bj rt sz bt stack es h
  simp only [caseOf_Vector256_WithLower, pop1Build, pop2Build, pop3Build] at h
  repeat' split at h
  all_goals simp_all

lemma dn_Vector256_WithUpper :
    ∀ (i : NamedIntrinsic) (sig : HWSig) (caps : CompCaps) (bj : CorInfoType)
      (rt : VarType) (sz : Nat) (bt : VarType) (stack es : List GenTree),
      caseOf_Vector256_WithUpper i sig caps bj rt sz bt stack = some (.declined, es) →
      es = stack := by
  intro i sig caps bj rt sz bt stack es h
  simp only [caseOf_Vector256_WithUpper, pop1Build, pop2Build, pop3Build] at h
  repeat' split at h
  all_goals simp_all

lemma dn_Vector512_WithLower :
    ∀ (i : NamedIntrinsic) (sig : HWSig) (caps : CompCaps) (bj : CorInfoType)
      (rt : VarType) (sz : Nat) (bt : VarType) (stack es : List GenTree),
      caseOf_Vector512_WithLower i sig caps bj rt sz bt stack = some (.declined, es) →
      es = stack := by
  intro i sig caps bj rt sz bt stack es h
  simp only [caseOf_Vector512_WithLower, pop1Build, pop2Build, pop3Build] at h
  repeat' split at h
  all_goals simp_all

lemma dn_Vector512_WithUpper :
    ∀ (i : NamedIntrinsic) (sig : HWSig) (caps : CompCaps) (bj : CorInfoType)
      (rt : VarType) (sz : Nat) (bt : VarType) (stack es : List GenTree),
      caseOf_Vector512_WithUpper i sig caps bj rt sz bt stack = some (.declined, es) →
      es = stack := by
  intro i sig caps bj rt sz bt stack es h
  simp only [caseOf_Vector512_WithUpper, pop1Build, pop2Build, pop3Build] at h
  repeat' split at h
  all_goals simp_all

lemma dn_Vector128_Xor :
    ∀ (i : NamedIntrinsic) (sig : HWSig) (caps : CompCaps) (bj : CorInfoType)
      (rt : VarType) (sz : Nat) (bt : VarType) (stack es : List GenTree),
      caseOf_Vector128_Xor i sig caps bj rt sz bt stack = some (.declined, es) →
      es = stack := by
  intro i sig caps bj rt sz bt stack es h
  simp only [caseOf_Vector128_Xor, pop1Build, pop2Build, pop3Build] at h
  repeat' split at h
  all_goals simp_all

lemma dn_X86Base_Pause :
    ∀ (i : NamedIntrinsic) (sig : HWSig) (caps : CompCaps) (bj : CorInfoType)
      (rt : VarType) (sz : Nat) (bt : VarType) (stack es : List GenTree),
      caseOf_X86Base_Pause i sig caps bj rt sz bt stack = some (.declined, es) →
      es = stack := by
  intro i sig caps bj rt sz bt stack es h
  simp only [caseOf_X86Base_Pause, pop1Build, pop2Build, pop3Build] at h
  repeat' split at h
  all_goals simp_all

lemma dn_X86Base_DivRem :
    ∀ (i : NamedIntrinsic) (sig : HWSig) (caps : CompCaps) (bj : CorInfoType)
      (rt : VarType) (sz : Nat) (bt : VarType) (stack es : List GenTree),
      caseOf_X86Base_DivRem i sig caps bj rt sz bt stack = some (.declined, es) →
      es = stack := by
  intro i sig caps bj rt sz bt stack es h
  simp only [caseOf_X86Base_DivRem, pop1Build, pop2Build, pop3Build] at h
  repeat' split at h
  all_goals simp_all

lemma dn_SSE_CompareScalarGreaterThan :
    ∀ (i : NamedIntrinsic) (sig : HWSig) (caps : CompCaps) (bj : CorInfoType)
      (rt : VarType) (sz : Nat) (bt : VarType) (stack es : List GenTree),
      caseOf_SSE_CompareScalarGreaterThan i sig caps bj rt sz bt stack = some (.declined, es) →
      es = stack := by
  intro i sig caps bj rt sz bt stack es h
  simp only [caseOf_SSE_CompareScalarGreaterThan, pop1Build, pop2Build, pop3Build] at h
  repeat' split at h
  all_goals simp_all

lemma dn_SSE_Prefetch0 :
    ∀ (i : NamedIntrinsic) (sig : HWSig) (caps : CompCaps) (bj : CorInfoType)
      (rt : VarType) (sz : Nat) (bt : VarType) (stack es : List GenTree),
      caseOf_SSE_Prefetch0 i sig caps bj rt sz bt stack = some (.declined, es) →
      es = stack := by
  intro i sig caps bj rt sz bt stack es h
  simp only [caseOf_SSE_Prefetch0, pop1Build, pop2Build, pop3Build] at h
  repeat' split at h
  all_goals simp_all

lemma dn_SSE_StoreFence :
    ∀ (i : NamedIntrinsic) (sig : HWSig) (caps : CompCaps) (bj : CorInfoType)
      (rt : VarType) (sz : Nat) (bt : VarType) (stack es : List GenTree),
      caseOf_SSE_StoreFence i sig caps bj rt sz bt stack = some (.declined, es) →
      es = stack := by
  intro i sig caps bj rt sz bt stack es h
  simp only [caseOf_SSE_StoreFence, pop1Build, pop2Build, pop3Build] at h
  repeat' split at h
  all_goals simp_all

lemma dn_SSE2_CompareScalarGreaterThan :
    ∀ (i : NamedIntrinsic) (sig : HWSig) (caps : CompCaps) (bj : CorInfoType)
      (rt : VarType) (sz : Nat) (bt : VarType) (stack es : List GenTree),
      caseOf_SSE2_CompareScalarGreaterThan i sig caps bj rt sz bt stack = some (.declined, es) →
      es = stack := by
  intro i sig caps bj rt sz bt stack es h
  simp only [caseOf_SSE2_CompareScalarGreaterThan, pop1Build, pop2Build, pop3Build] at h
  repeat' split at h
  all_goals simp_all

lemma dn_SSE2_LoadFence :
    ∀ (i : NamedIntrinsic) (sig : HWSig) (caps : CompCaps) (bj : CorInfoType)
      (rt : VarType) (sz : Nat) (bt : VarType) (stack es : List GenTree),
      caseOf_SSE2_LoadFence i sig caps bj rt sz bt stack = some (.declined, es) →
      es = stack := by
  intro i sig caps bj rt sz bt stack es h
  simp only [caseOf_SSE2_LoadFence, pop1Build, pop2Build, pop3Build] at h
  repeat' split at h
  all_goals simp_all

lemma dn_SSE2_StoreNonTemporal :
    ∀ (i : NamedIntrinsic) (sig : HWSig) (caps : CompCaps) (bj : CorInfoType)
      (rt : VarType) (sz : Nat) (bt : VarType) (stack es : List GenTree),
      caseOf_SSE2_StoreNonTemporal i sig caps bj rt sz bt stack = some (.declined, es) →
      es = stack := by
  intro i sig caps bj rt sz bt stack es h
  simp only [caseOf_SSE2_StoreNonTemporal, pop1Build, pop2Build, pop3Build] at h
  repeat' split at h
  all_goals simp_all

lemma dn_AVX2_PermuteVar8x32 :
    ∀ (i : NamedIntrinsic) (sig : HWSig) (caps : CompCaps) (bj : CorInfoType)
      (rt : VarType) (sz : Nat) (bt : VarType) (stack es : List GenTree),
      caseOf_AVX2_PermuteVar8x32 i sig caps bj rt sz bt stack = some (.declined, es) →
      es = stack := by
  intro i sig caps bj rt sz bt stack es h
  simp only [caseOf_AVX2_PermuteVar8x32, pop1Build, pop2Build, pop3Build] at h
  repeat' split at h
  all_goals simp_all

lemma dn_AVX2_GatherMaskVector128 :
    ∀ (i : NamedIntrinsic) (sig : HWSig) (caps : CompCaps) (bj : CorInfoType)
      (rt : VarType) (sz : Nat) (bt : VarType) (stack es : List GenTree),
      caseOf_AVX2_GatherMaskVector128 i sig caps bj rt sz bt stack = some (.declined, es) →
      es = stack := by
  intro i sig caps bj rt sz bt stack es h
  simp only [caseOf_AVX2_GatherMaskVector128, pop1Build, pop2Build, pop3Build] at h
  repeat' split at h
  all_goals simp_all

lemma dn_BMI2_ZeroHighBits :
    ∀ (i : NamedIntrinsic) (sig : HWSig) (caps : CompCaps) (bj : CorInfoType)
      (rt : VarType) (sz : Nat) (bt : VarType) (stack es : List GenTree),
      caseOf_BMI2_ZeroHighBits i sig caps bj rt sz bt stack = some (.declined, es) →
      es = stack := by
  intro i sig caps bj rt sz bt stack es h
  simp only [caseOf_BMI2_ZeroHighBits, pop1Build, pop2Build, pop3Build] at h
  repeat' split at h
  all_goals simp_all

lemma dn_BMI1_BitFieldExtract :
    ∀ (i : NamedIntrinsic) (sig : HWSig) (caps : CompCaps) (bj : CorInfoType)
      (rt : VarType) (sz : Nat) (bt : VarType) (stack es : List GenTree),
      caseOf_BMI1_BitFieldExtract i sig caps bj rt sz bt stack = some (.declined, es) →
      es = stack := by
  intro i sig caps bj rt sz bt stack es h
  simp only [caseOf_BMI1_BitFieldExtract, pop1Build, pop2Build, pop3Build] at h
  repeat' split at h
  all_goals simp_all

lemma dnr_Vector128_AsVector
    (recur : NamedIntrinsic → HWSig → CompCaps → CorInfoType → VarType → Nat →
      List GenTree → Option (EngineResult × List GenTree))
    (hrec : ∀ (i : NamedIntrinsic) (sig : HWSig) (caps : CompCaps) (bj : CorInfoType)
      (rt : VarType) (sz : Nat) (stack es : List GenTree),
      recur i sig caps bj rt sz stack = some (.declined, es) → es = stack) :
    ∀ (i : NamedIntrinsic) (sig : HWSig) (caps : CompCaps) (bj : CorInfoType)
      (rt : VarType) (sz : Nat) (bt : VarType) (stack es : List GenTree),
      caseOf_Vector128_AsVector recur i sig caps bj rt sz bt stack = some (.declined, es) →
      es = stack := by
  intro i sig caps bj rt sz bt stack es h
  simp only [caseOf_Vector128_AsVector, pop1Build, pop2Build, pop3Build] at h
  repeat' split at h
  all_goals first
    | exact hrec _ _ _ _ _ _ _ _ h
    | simp_all

lemma dnr_Vector128_AsVector128
    (recur : NamedIntrinsic → HWSig → CompCaps → CorInfoType → VarType → Nat →
      List GenTree → Option (EngineResult × List GenTree))
    (hrec : ∀ (i : NamedIntrinsic) (sig : HWSig) (caps : CompCaps) (bj : CorInfoType)
      (rt : VarType) (sz : Nat) (stack es : List GenTree),
      recur i sig caps bj rt sz stack = some (.declined, es) → es = stack) :
    ∀ (i : NamedIntrinsic) (sig : HWSig) (caps : CompCaps) (bj : CorInfoType)
      (rt : VarType) (sz : Nat) (bt : VarType) (stack es : List GenTree),
      caseOf_Vector128_AsVector128 recur i sig caps bj rt sz bt stack = some (.declined, es) →
      es = stack := by
  intro i sig caps bj rt sz bt stack es h
  simp only [caseOf_Vector128_AsVector128, pop1Build, pop2Build, pop3Build] at h
  repeat' split at h
  all_goals first
    | exact hrec _ _ _ _ _ _ _ _ h
    | simp_all

lemma dnr_Vector256_AsVector
    (recur : NamedIntrinsic → HWSig → CompCaps → CorInfoType → VarType → Nat →
      List GenTree → Option (EngineResult × List GenTree))
    (hrec : ∀ (i : NamedIntrinsic) (sig : HWSig) (caps : CompCaps) (bj : CorInfoType)
      (rt : VarType) (sz : Nat) (stack es : List GenTree),
      recur i sig caps bj rt sz stack = some (.declined, es) → es = stack) :
    ∀ (i : NamedIntrinsic) (sig : HWSig) (caps : CompCaps) (bj : CorInfoType)
      (rt : VarType) (sz : Nat) (bt : VarType) (stack es : List GenTree),
      caseOf_Vector256_AsVector recur i sig caps bj rt sz bt stack = some (.declined, es) →
      es = stack := by
  intro i sig caps bj rt sz bt stack es h
  simp only [caseOf_Vector256_AsVector, pop1Build, pop2Build, pop3Build] at h
  repeat' split at h
  all_goals first
    | exact hrec _ _ _ _ _ _ _ _ h
    | simp_all

lemma dnr_Vector512_AsVector
    (recur : NamedIntrinsic → HWSig → CompCaps → CorInfoType → VarType → Nat →
      List GenTree → Option (EngineResult × List GenTree))
    (hrec : ∀ (i : NamedIntrinsic) (sig : HWSig) (caps : CompCaps) (bj : CorInfoType)
      (rt : VarType) (sz : Nat) (stack es : List GenTree),
      recur i sig caps bj rt sz stack = some (.declined, es) → es = stack) :
    ∀ (i : NamedIntrinsic) (sig : HWSig) (caps : CompCaps) (bj : CorInfoType)
      (rt : VarType) (sz : Nat) (bt : VarType) (stack es : List GenTree),
      caseOf_Vector512_AsVector recur i sig caps bj rt sz bt stack = some (.declined, es) →
      es = stack := by
  intro i sig caps bj rt sz bt stack es h
  simp only [caseOf_Vector512_AsVector, pop1Build, pop2Build, pop3Build] at h
  repeat' split at h
  all_goals first
    | exact hrec _ _ _ _ _ _ _ _ h
    | simp_all

lemma dn_default :
    ∀ (i : NamedIntrinsic) (sig : HWSig) (caps : CompCaps) (bj : CorInfoType)
      (rt : VarType) (sz : Nat) (bt : VarType) (stack es : List GenTree),
      caseOf_default i sig caps bj rt sz bt stack = some (.declined, es) →
      es = stack := by
  intro i sig caps bj rt sz bt stack es h
  simp only [caseOf_default] at h
  simp_all

/-- **C8.**  Every invocation of the expansion engine that ends in the
decline outcome (the null sentinel) leaves the expression stack exactly
as found: no operand is popped (nor spilled in place) on any decline
path, at any fuel. -/
theorem engine_decline_stack_neutral :
    ∀ (fuel : Nat) (i : NamedIntrinsic) (sig : HWSig) (caps : CompCaps)
      (bj : CorInfoType) (rt : VarType) (sz : Nat) (stack es : List GenTree),
      impSpecialIntrinsicF fuel i sig caps bj rt sz stack =
        some (.declined, es) → es = stack := by
  intro fuel
  induction fuel with
  | zero =>
    intro i sig caps bj rt sz stack es h
    exact Option.noConfusion h
  | succ n ih =>
    intro i sig caps bj rt sz stack es h
    rw [engine_step] at h
    generalize hc : classify i = tag at h
    generalize hbt : (if sz ≠ 0 then jitType2PreciseVarType bj
      else VarType.TYP_UNKNOWN) = bt at h
    split at h
    · simp_all
    · cases tag
      case t_Vector128_Abs =>
        rw [applyCase_t_Vector128_Abs] at h
        exact dn_Vector128_Abs _ _ _ _ _ _ _ _ _ h
      case t_Vector128_Add =>
        rw [applyCase_t_Vector128_Add] at h
        exact dn_Vector128_Add _ _ _ _ _ _ _ _ _ h
      case t_Vector128_AndNot =>
        rw [applyCase_t_Vector128_AndNot] at h
        exact dn_Vector128_AndNot _ _ _ _ _ _ _ _ _ h
      case t_Vector128_As =>
        rw [applyCase_t_Vector128_As] at h
        exact dn_Vector128_As _ _ _ _ _ _ _ _ _ h
      case t_Vector128_AsVector2 =>
        rw [applyCase_t_Vector128_AsVector2] at h
        exact dn_Vector128_AsVector2 _ _ _ _ _ _ _ _ _ h
      case t_Vector128_BitwiseAnd =>
        rw [applyCase_t_Vector128_BitwiseAnd] at h
        exact dn_Vector128_BitwiseAnd _ _ _ _ _ _ _ _ _ h
      case t_Vector128_BitwiseOr =>
        rw [applyCase_t_Vector128_BitwiseOr] at h
        exact dn_Vector128_BitwiseOr _ _ _ _ _ _ _ _ _ h
      case t_Vector128_Ceiling =>
        rw [applyCase_t_Vector128_Ceiling] at h
        exact dn_Vector128_Ceiling _ _ _ _ _ _ _ _ _ h
      case t_Vector128_ConditionalSelect =>
        rw [applyCase_t_Vector128_ConditionalSelect] at h
        exact dn_Vector128_ConditionalSelect _ _ _ _ _ _ _ _ _ h
      case t_Vector128_ConvertToDouble =>
        rw [applyCase_t_Vector128_ConvertToDouble] at h
        exact dn_Vector128_ConvertToDouble _ _ _ _ _ _ _ _ _ h
      case t_Vector128_ConvertToInt32 =>
        rw [applyCase_t_Vector128_ConvertToInt32] at h
        exact dn_Vector128_ConvertToInt32 _ _ _ _ _ _ _ _ _ h
      case t_Vector128_ConvertToSingle =>
        rw [applyCase_t_Vector128_ConvertToSingle] at h
        exact dn_Vector128_ConvertToSingle _ _ _ _ _ _ _ _ _ h
      case t_Vector128_Create =>
        rw [applyCase_t_Vector128_Create] at h
        exact dn_Vector128_Create _ _ _ _ _ _ _ _ _ h
      case t_Vector128_CreateScalar =>
        rw [applyCase_t_Vector128_CreateScalar] at h
        exact dn_Vector128_CreateScalar _ _ _ _ _ _ _ _ _ h
      case t_Vector128_CreateScalarUnsafe =>
        rw [applyCase_t_Vector128_CreateScalarUnsafe] at h
        exact dn_Vector128_CreateScalarUnsafe _ _ _ _ _ _ _ _ _ h
      case t_Vector128_Divide =>
        rw [applyCase_t_Vector128_Divide] at h
        exact dn_Vector128_Divide _ _ _ _ _ _ _ _ _ h
      case t_Vector128_Dot =>
        rw [applyCase_t_Vector128_Dot] at h
        exact dn_Vector128_Dot _ _ _ _ _ _ _ _ _ h
      case t_Vector128_Equals =>
        rw [applyCase_t_Vector128_Equals] at h
        exact dn_Vector128_Equals _ _ _ _ _ _ _ _ _ h
      case t_Vector512_EqualsAll =>
        rw [applyCase_t_Vector512_EqualsAll] at h
        exact dn_Vector512_EqualsAll _ _ _ _ _ _ _ _ _ h
      case t_Vector128_EqualsAll =>
        rw [applyCase_t_Vector128_EqualsAll] at h
        exact dn_Vector128_EqualsAll _ _ _ _ _ _ _ _ _ h
      case t_Vector512_EqualsAny =>
        rw [applyCase_t_Vector512_EqualsAny] at h
        exact dn_Vector512_EqualsAny _ _ _ _ _ _ _ _ _ h
      case t_Vector128_EqualsAny =>
        rw [applyCase_t_Vector128_EqualsAny] at h
        exact dn_Vector128_EqualsAny _ _ _ _ _ _ _ _ _ h
      case t_Vector512_ExtractMostSignificantBits =>
        rw [applyCase_t_Vector512_ExtractMostSignificantBits] at h
        exact dn_Vector512_ExtractMostSignificantBits _ _ _ _ _ _ _ _ _ h
      case t_Vector128_ExtractMostSignificantBits =>
        rw [applyCase_t_Vector128_ExtractMostSignificantBits] at h
        exact dn_Vector128_ExtractMostSignificantBits _ _ _ _ _ _ _ _ _ h
      case t_Vector128_Floor =>
        rw [applyCase_t_Vector128_Floor] at h
        exact dn_Vector128_Floor _ _ _ _ _ _ _ _ _ h
      case t_Vector128_get_AllBitsSet =>
        rw [applyCase_t_Vector128_get_AllBitsSet] at h
        exact dn_Vector128_get_AllBitsSet _ _ _ _ _ _ _ _ _ h
      case t_Vector128_get_One =>
        rw [applyCase_t_Vector128_get_One] at h
        exact dn_Vector128_get_One _ _ _ _ _ _ _ _ _ h
      case t_Vector128_get_Zero =>
        rw [applyCase_t_Vector128_get_Zero] at h
        exact dn_Vector128_get_Zero _ _ _ _ _ _ _ _ _ h
      case t_Vector128_GetElement =>
        rw [applyCase_t_Vector128_GetElement] at h
        exact dn_Vector128_GetElement _ _ _ _ _ _ _ _ _ h
      case t_Vector128_GreaterThan =>
        rw [applyCase_t_Vector128_GreaterThan] at h
        exact dn_Vector128_GreaterThan _ _ _ _ _ _ _ _ _ h
      case t_Vector128_GreaterThanAll =>
        rw [applyCase_t_Vector128_GreaterThanAll] at h
        exact dn_Vector128_GreaterThanAll _ _ _ _ _ _ _ _ _ h
      case t_Vector128_GreaterThanAny =>
        rw [applyCase_t_Vector128_GreaterThanAny] at h
        exact dn_Vector128_GreaterThanAny _ _ _ _ _ _ _ _ _ h
      case t_Vector128_GreaterThanOrEqual =>
        rw [applyCase_t_Vector128_GreaterThanOrEqual] at h
        exact dn_Vector128_GreaterThanOrEqual _ _ _ _ _ _ _ _ _ h
      case t_Vector128_GreaterThanOrEqualAll =>
        rw [applyCase_t_Vector128_GreaterThanOrEqualAll] at h
        exact dn_Vector128_GreaterThanOrEqualAll _ _ _ _ _ _ _ _ _ h
      case t_Vector128_GreaterThanOrEqualAny =>
        rw [applyCase_t_Vector128_GreaterThanOrEqualAny] at h
        exact dn_Vector128_GreaterThanOrEqualAny _ _ _ _ _ _ _ _ _ h
      case t_Vector128_LessThan =>
        rw [applyCase_t_Vector128_LessThan] at h
        exact dn_Vector128_LessThan _ _ _ _ _ _ _ _ _ h
      case t_Vector128_LessThanAll =>
        rw [applyCase_t_Vector128_LessThanAll] at h
        exact dn_Vector128_LessThanAll _ _ _ _ _ _ _ _ _ h
      case t_Vector128_LessThanAny =>
        rw [applyCase_t_Vector128_LessThanAny] at h
        exact dn_Vector128_LessThanAny _ _ _ _ _ _ _ _ _ h
      case t_Vector128_LessThanOrEqual =>
        rw [applyCase_t_Vector128_LessThanOrEqual] at h
        exact dn_Vector128_LessThanOrEqual _ _ _ _ _ _ _ _ _ h
      case t_Vector128_LessThanOrEqualAll =>
        rw [applyCase_t_Vector128_LessThanOrEqualAll] at h
        exact dn_Vector128_LessThanOrEqualAll _ _ _ _ _ _ _ _ _ h
      case t_Vector128_LessThanOrEqualAny =>
        rw [applyCase_t_Vector128_LessThanOrEqualAny] at h
        exact dn_Vector128_LessThanOrEqualAny _ _ _ _ _ _ _ _ _ h
      case t_SSE_LoadVector128 =>
        rw [applyCase_t_SSE_LoadVector128] at h
        exact dn_SSE_LoadVector128 _ _ _ _ _ _ _ _ _ h
      case t_Vector128_LoadAligned =>
        rw [applyCase_t_Vector128_LoadAligned] at h
        exact dn_Vector128_LoadAligned _ _ _ _ _ _ _ _ _ h
      case t_Vector128_LoadAlignedNonTemporal =>
        rw [applyCase_t_Vector128_LoadAlignedNonTemporal] at h
        exact dn_Vector128_LoadAlignedNonTemporal _ _ _ _ _ _ _ _ _ h
      case t_Vector128_Max =>
        rw [applyCase_t_Vector128_Max] at h
        exact dn_Vector128_Max _ _ _ _ _ _ _ _ _ h
      case t_Vector128_Min =>
        rw [applyCase_t_Vector128_Min] at h
        exact dn_Vector128_Min _ _ _ _ _ _ _ _ _ h
      case t_Vector128_Multiply =>
        rw [applyCase_t_Vector128_Multiply] at h
        exact dn_Vector128_Multiply _ _ _ _ _ _ _ _ _ h
      case t_Vector128_Narrow =>
        rw [applyCase_t_Vector128_Narrow] at h
        exact dn_Vector128_Narrow _ _ _ _ _ _ _ _ _ h
      case t_Vector128_Negate =>
        rw [applyCase_t_Vector128_Negate] at h
        exact dn_Vector128_Negate _ _ _ _ _ _ _ _ _ h
      case t_Vector128_OnesComplement =>
        rw [applyCase_t_Vector128_OnesComplement] at h
        exact dn_Vector128_OnesComplement _ _ _ _ _ _ _ _ _ h
      case t_Vector128_op_Inequality =>
        rw [applyCase_t_Vector128_op_Inequality] at h
        exact dn_Vector128_op_Inequality _ _ _ _ _ _ _ _ _ h
      case t_Vector512_op_Inequality =>
        rw [applyCase_t_Vector512_op_Inequality] at h
        exact dn_Vector512_op_Inequality _ _ _ _ _ _ _ _ _ h
      case t_Vector128_op_UnaryPlus =>
        rw [applyCase_t_Vector128_op_UnaryPlus] at h
        exact dn_Vector128_op_UnaryPlus _ _ _ _ _ _ _ _ _ h
      case t_Vector128_Subtract =>
        rw [applyCase_t_Vector128_Subtract] at h
        exact dn_Vector128_Subtract _ _ _ _ _ _ _ _ _ h
      case t_Vector128_ShiftLeft =>
        rw [applyCase_t_Vector128_ShiftLeft] at h
        exact dn_Vector128_ShiftLeft _ _ _ _ _ _ _ _ _ h
      case t_Vector128_ShiftRightArithmetic =>
        rw [applyCase_t_Vector128_ShiftRightArithmetic] at h
        exact dn_Vector128_ShiftRightArithmetic _ _ _ _ _ _ _ _ _ h
      case t_Vector128_ShiftRightLogical =>
        rw [applyCase_t_Vector128_ShiftRightLogical] at h
        exact dn_Vector128_ShiftRightLogical _ _ _ _ _ _ _ _ _ h
      case t_Vector128_Shuffle =>
        rw [applyCase_t_Vector128_Shuffle] at h
        exact dn_Vector128_Shuffle _ _ _ _ _ _ _ _ _ h
      case t_Vector128_Sqrt =>
        rw [applyCase_t_Vector128_Sqrt] at h
        exact dn_Vector128_Sqrt _ _ _ _ _ _ _ _ _ h
      case t_SSE_Store =>
        rw [applyCase_t_SSE_Store] at h
        exact dn_SSE_Store _ _ _ _ _ _ _ _ _ h
      case t_Vector128_Store =>
        rw [applyCase_t_Vector128_Store] at h
        exact dn_Vector128_Store _ _ _ _ _ _ _ _ _ h
      case t_Vector128_StoreAligned =>
        rw [applyCase_t_Vector128_StoreAligned] at h
        exact dn_Vector128_StoreAligned _ _ _ _ _ _ _ _ _ h
      case t_Vector128_StoreAlignedNonTemporal =>
        rw [applyCase_t_Vector128_StoreAlignedNonTemporal] at h
        exact dn_Vector128_StoreAlignedNonTemporal _ _ _ _ _ _ _ _ _ h
      case t_Vector128_Sum =>
        rw [applyCase_t_Vector128_Sum] at h
        exact dn_Vector128_Sum _ _ _ _ _ _ _ _ _ h
      case t_Vector128_ToScalar =>
        rw [applyCase_t_Vector128_ToScalar] at h
        exact dn_Vector128_ToScalar _ _ _ _ _ _ _ _ _ h
      case t_Vector128_ToVector256 =>
        rw [applyCase_t_Vector128_ToVector256] at h
        exact dn_Vector128_ToVector256 _ _ _ _ _ _ _ _ _ h
      case t_Vector256_GetLower =>
        rw [applyCase_t_Vector256_GetLower] at h
        exact dn_Vector256_GetLower _ _ _ _ _ _ _ _ _ h
      case t_Vector256_GetUpper =>
        rw [applyCase_t_Vector256_GetUpper] at h
        exact dn_Vector256_GetUpper _ _ _ _ _ _ _ _ _ h
      case t_Vector512_GetLower =>
        rw [applyCase_t_Vector512_GetLower] at h
        exact dn_Vector512_GetLower _ _ _ _ _ _ _ _ _ h
      case t_Vector512_GetUpper =>
        rw [applyCase_t_Vector512_GetUpper] at h
        exact dn_Vector512_GetUpper _ _ _ _ _ _ _ _ _ h
      case t_Vector128_ToVector512 =>
        rw [applyCase_t_Vector128_ToVector512] at h
        exact dn_Vector128_ToVector512 _ _ _ _ _ _ _ _ _ h
      case t_Vector128_WidenLower =>
        rw [applyCase_t_Vector128_WidenLower] at h
        exact dn_Vector128_WidenLower _ _ _ _ _ _ _ _ _ h
      case t_Vector128_WidenUpper =>
        rw [applyCase_t_Vector128_WidenUpper] at h
        exact dn_Vector128_WidenUpper _ _ _ _ _ _ _ _ _ h
      case t_Vector128_WithElement =>
        rw [applyCase_t_Vector128_WithElement] at h
        exact dn_Vector128_WithElement _ _ _ _ _ _ _ _ _ h
      case t_Vector256_WithLower =>
        rw [applyCase_t_Vector256_WithLower] at h
        exact dn_Vector256_WithLower _ _ _ _ _ _ _ _ _ h
      case t_Vector256_WithUpper =>
        rw [applyCase_t_Vector256_WithUpper] at h
        exact dn_Vector256_WithUpper _ _ _ _ _ _ _ _ _ h
      case t_Vector512_WithLower =>
        rw [applyCase_t_Vector512_WithLower] at h
        exact dn_Vector512_WithLower _ _ _ _ _ _ _ _ _ h
      case t_Vector512_WithUpper =>
        rw [applyCase_t_Vector512_WithUpper] at h
        exact dn_Vector512_WithUpper _ _ _ _ _ _ _ _ _ h
      case t_Vector128_Xor =>
        rw [applyCase_t_Vector128_Xor] at h
        exact dn_Vector128_Xor _ _ _ _ _ _ _ _ _ h
      case t_X86Base_Pause =>
        rw [applyCase_t_X86Base_Pause] at h
        exact dn_X86Base_Pause _ _ _ _ _ _ _ _ _ h
      case t_X86Base_DivRem =>
        rw [applyCase_t_X86Base_DivRem] at h
        exact dn_X86Base_DivRem _ _ _ _ _ _ _ _ _ h
      case t_SSE_CompareScalarGreaterThan =>
        rw [applyCase_t_SSE_CompareScalarGreaterThan] at h
        exact dn_SSE_CompareScalarGreaterThan _ _ _ _ _ _ _ _ _ h
      case t_SSE_Prefetch0 =>
        rw [applyCase_t_SSE_Prefetch0] at h
        exact dn_SSE_Prefetch0 _ _ _ _ _ _ _ _ _ h
      case t_SSE_StoreFence =>
        rw [applyCase_t_SSE_StoreFence] at h
        exact dn_SSE_StoreFence _ _ _ _ _ _ _ _ _ h
      case t_SSE2_CompareScalarGreaterThan =>
        rw [applyCase_t_SSE2_CompareScalarGreaterThan] at h
        exact dn_SSE2_CompareScalarGreaterThan _ _ _ _ _ _ _ _ _ h
      case t_SSE2_LoadFence =>
        rw [applyCase_t_SSE2_LoadFence] at h
        exact dn_SSE2_LoadFence _ _ _ _ _ _ _ _ _ h
      case t_SSE2_StoreNonTemporal =>
        rw [applyCase_t_SSE2_StoreNonTemporal] at h
        exact dn_SSE2_StoreNonTemporal _ _ _ _ _ _ _ _ _ h
      case t_AVX2_PermuteVar8x32 =>
        rw [applyCase_t_AVX2_PermuteVar8x32] at h
        exact dn_AVX2_PermuteVar8x32 _ _ _ _ _ _ _ _ _ h
      case t_AVX2_GatherMaskVector128 =>
        rw [applyCase_t_AVX2_GatherMaskVector128] at h
        exact dn_AVX2_GatherMaskVector128 _ _ _ _ _ _ _ _ _ h
      case t_BMI2_ZeroHighBits =>
        rw [applyCase_t_BMI2_ZeroHighBits] at h
        exact dn_BMI2_ZeroHighBits _ _ _ _ _ _ _ _ _ h
      case t_BMI1_BitFieldExtract =>
        rw [applyCase_t_BMI1_BitFieldExtract] at h
        exact dn_BMI1_BitFieldExtract _ _ _ _ _ _ _ _ _ h
      case t_Vector128_AsVector =>
        rw [applyCase_t_Vector128_AsVector] at h
        exact dnr_Vector128_AsVector (impSpecialIntrinsicF n) ih _ _ _ _ _ _ _ _ _ h
      case t_Vector128_AsVector128 =>
        rw [applyCase_t_Vector128_AsVector128] at h
        exact dnr_Vector128_AsVector128 (impSpecialIntrinsicF n) ih _ _ _ _ _ _ _ _ _ h
      case t_Vector256_AsVector =>
        rw [applyCase_t_Vector256_AsVector] at h
        exact dnr_Vector256_AsVector (impSpecialIntrinsicF n) ih _ _ _ _ _ _ _ _ _ h
      case t_Vector512_AsVector =>
        rw [applyCase_t_Vector512_AsVector] at h
        exact dnr_Vector512_AsVector (impSpecialIntrinsicF n) ih _ _ _ _ _ _ _ _ _ h
      case t_default =>
        rw [applyCase_t_default] at h
        exact dn_default _ _ _ _ _ _ _ _ _ h

/-- Witness for C8: the integer 256-bit `Add` decline (AVX2 missing)
returns the two untouched operands. -/
theorem engine_decline_stack_neutral_witness :
    impSpecialIntrinsicF 1 NI_Vector256_Add (sigN 2) capsNone CORINFO_TYPE_INT
      TYP_SIMD32 32 [GenTree.other 0 TYP_SIMD32 false, GenTree.other 1 TYP_SIMD32 false] =
      some (.declined,
        [GenTree.other 0 TYP_SIMD32 false, GenTree.other 1 TYP_SIMD32 false]) ∧
    ([GenTree.other 0 TYP_SIMD32 false, GenTree.other 1 TYP_SIMD32 false] :
        List GenTree) =
      [GenTree.other 0 TYP_SIMD32 false, GenTree.other 1 TYP_SIMD32 false] :=
  ⟨rfl, engine_decline_stack_neutral 1 NI_Vector256_Add (sigN 2) capsNone
    CORINFO_TYPE_INT TYP_SIMD32 32
    [GenTree.other 0 TYP_SIMD32 false, GenTree.other 1 TYP_SIMD32 false]
    [GenTree.other 0 TYP_SIMD32 false, GenTree.other 1 TYP_SIMD32 false] rfl⟩

end HWX
